import Mathlib

/-! # trailcall: attendance reconciliation

A shallow embedding of `db/db.go` and of the handlers `submitRSVP`,
`HandleRSVPCheckin`, `HandleRSVPUndoCheckin` (`handlers/rsvp.go`), `getHike`
(`handlers/hikes.go`), `createCheckin` (`handlers/checkins.go`) and
`handleActivityParticipants` (`handlers/activities.go`), with theorems about the
embedded functions.

Conventions of the embedding.

* A Go `string` is a Lean `String` (a sequence of Unicode code points, i.e. valid
  UTF-8, which is what `encoding/json` hands to the handlers). `len(s)` is the
  UTF-8 byte length, `[]rune(s)` is `s.data`.
* `strings.ToLower` maps `unicode.ToLower` over the runes. The Unicode case table
  is not part of the repository; the rune mapping is the parameter `lower` of
  every function that folds case. Examples instantiate it with `Char.toLower`,
  which agrees with `unicode.ToLower` on ASCII.
* The SQLite database behind the process-wide handle `DB` is a `Store`: one list
  of rows per table (in rowid order), the `sqlite_sequence` counter of each
  `AUTOINCREMENT` table, and the state of the connection that serves the call:
  its `last_insert_rowid()` and its `foreign_keys` setting. `DB` is a pool of
  connections. `Init` runs `PRAGMA foreign_keys = ON` once, so on one connection:
  that connection checks the declared parents on an insert and cascades a delete
  where the schema says `ON DELETE CASCADE`; a connection the pool opens later
  does neither. Operations run one after the other.
* An `INSERT OR IGNORE` that is skipped because of a `UNIQUE` conflict has drawn a
  rowid all the same: it leaves the rows as they were and moves the table's
  `sqlite_sequence` counter on by one.
* `result.LastInsertId()` is SQLite's `last_insert_rowid()`: the rowid of the most
  recent successful insert on the connection, 0 before the first one. An
  `INSERT OR IGNORE` that is skipped because of a `UNIQUE` conflict is not a
  successful insert and leaves that value as it was.
* `CURRENT_TIMESTAMP` is the explicit argument `now`; timestamps are `Nat`.
* A Go function returning `(T, error)` returns `Except DbError T` together with
  the store it leaves behind. A handler returns what it writes (`HttpResult`) and
  the store; where Go writes `err.Error()` with status 500, the text
  "internal error" stands for it, except in the check-in handlers, which write
  `DbError.Error`.
* A run of operations is a list of calls (`Op`), each with the time of the call;
  between two calls the pool may hand the work to another connection
  (`Op.connection`). `runOps` folds the run over a store. The stores "reachable
  from the empty store" are the stores `runOps lower ops Store.empty`.
-/

namespace Trailcall

/-! ## Strings -/

/-- Go `len(s)` of a string: its length in bytes. -/
def len (s : String) : Nat := s.utf8ByteSize

/-- Go `unicode.IsSpace`: the Latin-1 spaces and the code points with the
Unicode `White_Space` property. -/
def isSpace (r : Char) : Bool :=
  let n := r.toNat
  n = 0x09 || n = 0x0A || n = 0x0B || n = 0x0C || n = 0x0D || n = 0x20 ||
  n = 0x85 || n = 0xA0 || n = 0x1680 || (0x2000 ≤ n && n ≤ 0x200A) ||
  n = 0x2028 || n = 0x2029 || n = 0x202F || n = 0x205F || n = 0x3000

/-- Go `strings.TrimSpace`: the string without its leading and trailing
white space. -/
def TrimSpace (s : String) : String :=
  String.mk ((s.data.dropWhile isSpace).rdropWhile isSpace)

/-- Go `strings.ToLower`: `lower` (standing for `unicode.ToLower`) applied to
every rune. -/
def ToLower (lower : Char → Char) (s : String) : String :=
  String.mk (s.data.map lower)

/-- Byte-wise (`BINARY` collation) order of two valid UTF-8 strings, which is the
lexicographic order of their code points. -/
def ltRunes : List Char → List Char → Bool
  | [], [] => false
  | [], _ :: _ => true
  | _ :: _, [] => false
  | a :: as, b :: bs =>
    if a.toNat < b.toNat then true
    else if b.toNat < a.toNat then false
    else ltRunes as bs

/-! ## `similarity` (db.go 703-728) -/

/-- The loop `for i, r := range shorter { if i < len(longer) && r == longer[i] { matches++ } }`,
started at index `i` with `count` matches counted so far. -/
def similarityLoop (longer : List Char) : List Char → Nat → Int → Int
  | [], _, count => count
  | r :: rest, i, count =>
    similarityLoop longer rest (i + 1)
      (if i < longer.length ∧ longer.get? i = some r then count + 1 else count)

/-- Go `similarity(a, b string) int`. -/
def similarity (a b : String) : Int :=
  if a = b then 100
  else if len a = 0 ∨ len b = 0 then 0
  else
    let aRunes := a.data
    let bRunes := b.data
    let shorter := if aRunes.length > bRunes.length then bRunes else aRunes
    let longer := if aRunes.length > bRunes.length then aRunes else bRunes
    let count := similarityLoop longer shorter 0 0
    Int.tdiv (count * 100) (longer.length : Int)

/-- The number of positions `i < min |a| |b|` at which `a` and `b` hold the same
character. -/
def matchingPositions (a b : String) : Nat :=
  ((List.range (min a.length b.length)).filter
    (fun i => decide (a.data.get? i = b.data.get? i))).length

/-- Position-wise equal characters of two rune lists, counted along their
common prefix length. -/
def countEq : List Char → List Char → Nat
  | [], _ => 0
  | _ :: _, [] => 0
  | x :: xs, y :: ys => (if x = y then 1 else 0) + countEq xs ys

/-! ## The store (schema of `migrate`, db.go 32-123) -/

/-- The errors the database layer returns: `sql.ErrNoRows` from `QueryRow(...).Scan`,
a constraint failure from SQLite, the error of `rows.Scan` on a `NULL` that the
destination cannot hold, and the `fmt.Errorf` of `UpdateCheckinRole`. -/
inductive DbError where
  | ErrNoRows
  | constraint (msg : String)
  | scan (msg : String)
  | invalidRole (role : String)
deriving DecidableEq, Repr

deriving instance DecidableEq for Except

/-- A row of table `members`. -/
structure MemberRow where
  id : Int
  membership_number : String
  first_name : String
  last_name : String
  email : Option String
  phone : Option String
  active : Bool
  created_at : Nat
  updated_at : Nat
deriving DecidableEq, Repr

/-- A row of table `hikes`. -/
structure HikeRow where
  id : Int
  name : String
  date : String
  location : Option String
  notes : Option String
  status : String
  rsvp_open : Bool
  created_at : Nat
deriving DecidableEq, Repr

/-- A row of table `checkins` (with the columns `is_leader`, `is_sweeper` that
`migrate` adds). -/
structure CheckinRow where
  id : Int
  hike_id : Int
  member_id : Int
  checked_in_at : Nat
  synced : Bool
  is_leader : Bool
  is_sweeper : Bool
deriving DecidableEq, Repr

/-- A row of table `rsvps` (with the column `checked_in_at` that `migrate` adds). -/
structure RsvpRow where
  id : Int
  hike_id : Int
  member_id : Option Int
  guest_name : Option String
  created_at : Nat
  checked_in_at : Option Nat
deriving DecidableEq, Repr

/-- A row of table `activities`. -/
structure ActivityRow where
  id : Int
  hike_id : Int
  name : String
  created_at : Nat
deriving DecidableEq, Repr

/-- A row of table `activity_participants`. -/
structure ParticipantRow where
  id : Int
  activity_id : Int
  checkin_id : Option Int
  rsvp_id : Option Int
  created_at : Nat
deriving DecidableEq, Repr

/-- The database behind `DB`: the rows of every table in rowid order, the
`sqlite_sequence` value of every `AUTOINCREMENT` table, and the state of the
connection that serves the call: the value `sqlite3_last_insert_rowid()`, which is
what `result.LastInsertId()` reports, and whether `PRAGMA foreign_keys` is on. -/
structure Store where
  members : List MemberRow
  hikes : List HikeRow
  checkins : List CheckinRow
  rsvps : List RsvpRow
  activities : List ActivityRow
  activity_participants : List ParticipantRow
  seq_members : Int
  seq_hikes : Int
  seq_checkins : Int
  seq_rsvps : Int
  seq_activities : Int
  seq_activity_participants : Int
  lastInsertRowid : Int
  foreign_keys : Bool
deriving DecidableEq, Repr

/-- The database right after `Init` on a new file: empty tables, served by the
connection on which `Init` ran `PRAGMA foreign_keys = ON`, with no insert made on
it yet. -/
def Store.empty : Store :=
  { members := [], hikes := [], checkins := [], rsvps := [], activities := [],
    activity_participants := [], seq_members := 0, seq_hikes := 0, seq_checkins := 0,
    seq_rsvps := 0, seq_activities := 0, seq_activity_participants := 0,
    lastInsertRowid := 0, foreign_keys := true }

/-- The rowid an `INTEGER PRIMARY KEY AUTOINCREMENT` table gives its next row:
one more than the largest rowid the table holds or ever held. -/
def nextRowid (ids : List Int) (seq : Int) : Int :=
  ids.foldl max seq + 1

/-! ## `models` (models.go) -/

/-- Go `models.Member`. -/
structure Member where
  ID : Int
  MembershipNumber : String
  FirstName : String
  LastName : String
  Email : String
  Phone : String
  Active : Bool
  CreatedAt : Nat
  UpdatedAt : Nat
deriving DecidableEq, Repr

/-- Go `models.Hike`. -/
structure Hike where
  ID : Int
  Name : String
  Date : String
  Location : String
  Notes : String
  Status : String
  RSVPOpen : Bool
  CreatedAt : Nat
  AttendeeCount : Int
  RSVPCount : Int
deriving DecidableEq, Repr

/-- Go `models.Checkin`. -/
structure Checkin where
  ID : Int
  HikeID : Int
  MemberID : Int
  CheckedInAt : Nat
  Synced : Bool
  IsLeader : Bool
  IsSweeper : Bool
  MemberName : String
  MembershipNumber : String
deriving DecidableEq, Repr

/-- Go `models.CreateMemberRequest`. -/
structure CreateMemberRequest where
  MembershipNumber : String
  FirstName : String
  LastName : String
  Email : String
  Phone : String
deriving DecidableEq, Repr

/-- Go `models.CreateHikeRequest`. -/
structure CreateHikeRequest where
  Name : String
  Date : String
  Location : String
  Notes : String
deriving DecidableEq, Repr

/-- Go `models.UpdateMemberRequest`; `Active` is the `*bool`. -/
structure UpdateMemberRequest where
  MembershipNumber : String
  FirstName : String
  LastName : String
  Email : String
  Phone : String
  Active : Option Bool
deriving DecidableEq, Repr

/-- Go `models.UpdateHikeRequest`. -/
structure UpdateHikeRequest where
  Name : String
  Date : String
  Location : String
  Notes : String
deriving DecidableEq, Repr

/-- Go `models.Activity`. -/
structure Activity where
  ID : Int
  HikeID : Int
  Name : String
  CreatedAt : Nat
  ParticipantCount : Int
deriving DecidableEq, Repr

/-- Go `models.ActivityParticipant`. -/
structure ActivityParticipant where
  ID : Int
  ActivityID : Int
  CheckinID : Option Int
  RSVPID : Option Int
  Name : String
  MembershipNumber : String
  IsGuest : Bool
deriving DecidableEq, Repr

/-- The request body of the POST and DELETE branches of `handleActivityParticipants`:
the two `*int64` fields. -/
structure ParticipantRequest where
  CheckinID : Option Int
  RSVPID : Option Int
deriving DecidableEq, Repr

/-- Go `models.RSVPRequest`. -/
structure RSVPRequest where
  FirstName : String
  LastName : String
deriving DecidableEq, Repr

/-- Go `models.RSVPResponse`. -/
structure RSVPResponse where
  Success : Bool
  Message : String
  MatchedName : String
  MemberNumber : String
  IsGuest : Bool
deriving DecidableEq, Repr

/-- What a handler writes: `http.Error(w, msg, status)`, a JSON body, or a JSON
body after `w.WriteHeader(status)`. -/
inductive HttpResult (α : Type) where
  | error (status : Nat) (msg : String)
  | json (body : α)
  | jsonStatus (status : Nat) (body : α)
deriving DecidableEq, Repr

/-- Go `sql.NullString.String`: the empty string for `NULL`. -/
def nullString (x : Option String) : String := x.getD ""

/-- The `Scan` of a `members` row into a `models.Member`. -/
def scanMember (r : MemberRow) : Member :=
  { ID := r.id, MembershipNumber := r.membership_number, FirstName := r.first_name,
    LastName := r.last_name, Email := nullString r.email, Phone := nullString r.phone,
    Active := r.active, CreatedAt := r.created_at, UpdatedAt := r.updated_at }

/-! ## Member and hike operations (db.go 127-352) -/

/-- The order `ORDER BY last_name, first_name` under the `BINARY` collation. -/
def memberOrder (a b : MemberRow) : Prop :=
  ltRunes a.last_name.data b.last_name.data = true ∨
    (a.last_name = b.last_name ∧ ltRunes b.first_name.data a.first_name.data = false)

instance memberOrderDecidable : DecidableRel memberOrder :=
  fun a b => by unfold memberOrder; exact inferInstance

/-- Go `GetAllMembers(activeOnly)`: the members (only the active ones when
`activeOnly`), ordered by last name, then first name; rows with equal names stay
in rowid order. -/
def GetAllMembers (s : Store) (activeOnly : Bool) : Except DbError (List Member) :=
  .ok (((s.members.filter (fun m => !activeOnly || m.active)).insertionSort memberOrder).map
    scanMember)

/-- Go `GetMemberByID`. -/
def GetMemberByID (s : Store) (id : Int) : Except DbError Member :=
  match s.members.find? (fun m => decide (m.id = id)) with
  | none => .error .ErrNoRows
  | some m => .ok (scanMember m)

/-- Go `GetMemberByMembershipNumber`. -/
def GetMemberByMembershipNumber (s : Store) (num : String) : Except DbError Member :=
  match s.members.find? (fun m => decide (m.membership_number = num)) with
  | none => .error .ErrNoRows
  | some m => .ok (scanMember m)

/-- Go `CreateMember`: a plain `INSERT` (a second member with the same
`membership_number` violates `UNIQUE`), then `GetMemberByID(LastInsertId)`. -/
def CreateMember (now : Nat) (s : Store) (req : CreateMemberRequest) :
    Except DbError Member × Store :=
  if s.members.any (fun m => decide (m.membership_number = req.MembershipNumber)) then
    (.error (.constraint "UNIQUE constraint failed: members.membership_number"), s)
  else
    let id := nextRowid (s.members.map (·.id)) s.seq_members
    let row : MemberRow :=
      { id := id, membership_number := req.MembershipNumber, first_name := req.FirstName,
        last_name := req.LastName, email := some req.Email, phone := some req.Phone,
        active := true, created_at := now, updated_at := now }
    let s1 := { s with members := s.members ++ [row], seq_members := id, lastInsertRowid := id }
    (GetMemberByID s1 s1.lastInsertRowid, s1)

/-- Go `GetHikeByID`, with the two counted columns. -/
def GetHikeByID (s : Store) (id : Int) : Except DbError Hike :=
  match s.hikes.find? (fun h => decide (h.id = id)) with
  | none => .error .ErrNoRows
  | some h =>
    .ok { ID := h.id, Name := h.name, Date := h.date, Location := nullString h.location,
          Notes := nullString h.notes, Status := h.status, RSVPOpen := h.rsvp_open,
          CreatedAt := h.created_at,
          AttendeeCount := ((s.checkins.filter (fun c => decide (c.hike_id = h.id))).length : Int),
          RSVPCount := ((s.rsvps.filter (fun r => decide (r.hike_id = h.id))).length : Int) }

/-- Go `CreateHike`: the new row takes the defaults `status = 'open'`,
`rsvp_open = 1`. -/
def CreateHike (now : Nat) (s : Store) (req : CreateHikeRequest) :
    Except DbError Hike × Store :=
  let id := nextRowid (s.hikes.map (·.id)) s.seq_hikes
  let row : HikeRow :=
    { id := id, name := req.Name, date := req.Date, location := some req.Location,
      notes := some req.Notes, status := "open", rsvp_open := true, created_at := now }
  let s1 := { s with hikes := s.hikes ++ [row], seq_hikes := id, lastInsertRowid := id }
  (GetHikeByID s1 s1.lastInsertRowid, s1)

/-- Go `CloseHike`: `UPDATE hikes SET status = 'closed' WHERE id = ?`, then
`GetHikeByID`. -/
def CloseHike (s : Store) (id : Int) : Except DbError Hike × Store :=
  let s1 := { s with hikes := (s.hikes.map
    (fun h => if h.id = id then { h with status := "closed" } else h)) }
  (GetHikeByID s1 id, s1)

/-- Go `CloseRSVPs`: `UPDATE hikes SET rsvp_open = 0 WHERE id = ?`. -/
def CloseRSVPs (s : Store) (hikeID : Int) : Except DbError Unit × Store :=
  (.ok (), { s with hikes := (s.hikes.map
    (fun h => if h.id = hikeID then { h with rsvp_open := false } else h)) })

/-- Go `OpenRSVPs`: `UPDATE hikes SET rsvp_open = 1 WHERE id = ?`. -/
def OpenRSVPs (s : Store) (hikeID : Int) : Except DbError Unit × Store :=
  (.ok (), { s with hikes := (s.hikes.map
    (fun h => if h.id = hikeID then { h with rsvp_open := true } else h)) })

/-! ## Check-in operations (db.go 356-499) -/

/-- The statement `INSERT OR IGNORE INTO checkins (hike_id, member_id) VALUES (?, ?)`
(db.go 362-365 and 636-639). A row with the same `(hike_id, member_id)` makes
SQLite skip the insert without an error and without touching
`last_insert_rowid()`, the rowid it drew going to `sqlite_sequence`; otherwise, on
a connection that enforces foreign keys, both parents must exist (`OR IGNORE` does
not cover foreign keys); otherwise the row is inserted with the column defaults. -/
def execInsertOrIgnoreCheckin (now : Nat) (s : Store) (hikeID memberID : Int) :
    Except DbError Unit × Store :=
  if s.checkins.any (fun c => decide (c.hike_id = hikeID ∧ c.member_id = memberID)) then
    (.ok (), { s with seq_checkins := nextRowid (s.checkins.map (·.id)) s.seq_checkins })
  else if s.foreign_keys = true ∧ ¬ (s.hikes.any (fun h => decide (h.id = hikeID)) = true ∧
      s.members.any (fun m => decide (m.id = memberID)) = true) then
    (.error (.constraint "FOREIGN KEY constraint failed"), s)
  else
    let id := nextRowid (s.checkins.map (·.id)) s.seq_checkins
    let row : CheckinRow :=
      { id := id, hike_id := hikeID, member_id := memberID, checked_in_at := now,
        synced := true, is_leader := false, is_sweeper := false }
    (.ok (), { s with checkins := s.checkins ++ [row], seq_checkins := id,
                      lastInsertRowid := id })

/-- The `Scan` of `id, hike_id, member_id, checked_in_at, synced` in `CreateCheckin`,
followed by the two display fields taken from the member. -/
def scanCheckin (c : CheckinRow) (member : Member) : Checkin :=
  { ID := c.id, HikeID := c.hike_id, MemberID := c.member_id, CheckedInAt := c.checked_in_at,
    Synced := c.synced, IsLeader := false, IsSweeper := false,
    MemberName := member.FirstName ++ " " ++ member.LastName,
    MembershipNumber := member.MembershipNumber }

/-- Go `CreateCheckin`. `id` is `result.LastInsertId()`, i.e. the connection's
`last_insert_rowid()` after the `INSERT OR IGNORE`. -/
def CreateCheckin (now : Nat) (s : Store) (hikeID : Int) (membershipNumber : String) :
    Except DbError Checkin × Store :=
  match GetMemberByMembershipNumber s membershipNumber with
  | .error e => (.error e, s)
  | .ok member =>
    match execInsertOrIgnoreCheckin now s hikeID member.ID with
    | (.error e, s1) => (.error e, s1)
    | (.ok _, s1) =>
      let id := s1.lastInsertRowid
      if id = 0 then
        match s1.checkins.find?
            (fun c => decide (c.hike_id = hikeID ∧ c.member_id = member.ID)) with
        | none => (.error .ErrNoRows, s1)
        | some c => (.ok (scanCheckin c member), s1)
      else
        match s1.checkins.find? (fun c => decide (c.id = id)) with
        | none => (.error .ErrNoRows, s1)
        | some c => (.ok (scanCheckin c member), s1)

/-- Go `DeleteCheckin`: `DELETE FROM checkins WHERE hike_id = ? AND member_id = ?`;
on a connection that enforces foreign keys the participants that reference a
deleted row go with it (`ON DELETE CASCADE`). -/
def DeleteCheckin (s : Store) (hikeID memberID : Int) : Except DbError Unit × Store :=
  let gone := (s.checkins.filter
    (fun c => decide (c.hike_id = hikeID ∧ c.member_id = memberID))).map (·.id)
  (.ok (),
    { s with
      checkins := s.checkins.filter
        (fun c => !decide (c.hike_id = hikeID ∧ c.member_id = memberID)),
      activity_participants := s.activity_participants.filter
        (fun p => match p.checkin_id with
          | some c => !(s.foreign_keys && decide (c ∈ gone))
          | none => true) })

/-- Go `UndoRSVPCheckin`. -/
def UndoRSVPCheckin (s : Store) (rsvpID : Int) : Except DbError Unit × Store :=
  match s.rsvps.find? (fun r => decide (r.id = rsvpID)) with
  | none => (.error .ErrNoRows, s)
  | some r =>
    match r.member_id with
    | some memberID => DeleteCheckin s r.hike_id memberID
    | none =>
      (.ok (),
        { s with rsvps := (s.rsvps.map
            (fun x => if x.id = rsvpID then { x with checked_in_at := none } else x)) })

/-- The order `ORDER BY c.checked_in_at DESC` on the joined rows. -/
def attendeeOrder (a b : CheckinRow × MemberRow) : Prop :=
  b.1.checked_in_at ≤ a.1.checked_in_at

instance attendeeOrderDecidable : DecidableRel attendeeOrder :=
  fun a b => by unfold attendeeOrder; exact inferInstance

/-- Go `GetAttendeesForHike`: `members JOIN checkins ON m.id = c.member_id WHERE
c.hike_id = ?`, latest check-in first. -/
def GetAttendeesForHike (s : Store) (hikeID : Int) : Except DbError (List Member) :=
  let joined : List (CheckinRow × MemberRow) :=
    (s.checkins.filter (fun c => decide (c.hike_id = hikeID))).flatMap
      (fun c => (s.members.filter (fun m => decide (m.id = c.member_id))).map (fun m => (c, m)))
  .ok ((joined.insertionSort attendeeOrder).map (fun cm => scanMember cm.2))

/-- Go `CreateRSVPForMember`: `INSERT OR IGNORE INTO rsvps (hike_id, member_id)`.
An existing row of the same hike and member makes SQLite skip the insert and
report no error (`guest_name` is `NULL`, so `UNIQUE(hike_id, guest_name)` cannot
fire), the rowid it drew going to `sqlite_sequence`; otherwise, on a connection
that enforces foreign keys, both parents must exist. -/
def CreateRSVPForMember (now : Nat) (s : Store) (hikeID memberID : Int) :
    Except DbError Unit × Store :=
  if s.rsvps.any (fun r => decide (r.hike_id = hikeID ∧ r.member_id = some memberID)) then
    (.ok (), { s with seq_rsvps := nextRowid (s.rsvps.map (·.id)) s.seq_rsvps })
  else if s.foreign_keys = true ∧ ¬ (s.hikes.any (fun h => decide (h.id = hikeID)) = true ∧
      s.members.any (fun m => decide (m.id = memberID)) = true) then
    (.error (.constraint "FOREIGN KEY constraint failed"), s)
  else
    let id := nextRowid (s.rsvps.map (·.id)) s.seq_rsvps
    let row : RsvpRow :=
      { id := id, hike_id := hikeID, member_id := some memberID, guest_name := none,
        created_at := now, checked_in_at := none }
    (.ok (), { s with rsvps := s.rsvps ++ [row], seq_rsvps := id, lastInsertRowid := id })

/-- Go `CreateRSVPForGuest`: `INSERT OR IGNORE INTO rsvps (hike_id, guest_name)`.
An existing row of the same hike and guest name makes SQLite skip the insert and
report no error, the rowid it drew going to `sqlite_sequence`; otherwise, on a
connection that enforces foreign keys, the hike must exist. -/
def CreateRSVPForGuest (now : Nat) (s : Store) (hikeID : Int) (guestName : String) :
    Except DbError Unit × Store :=
  if s.rsvps.any (fun r => decide (r.hike_id = hikeID ∧ r.guest_name = some guestName)) then
    (.ok (), { s with seq_rsvps := nextRowid (s.rsvps.map (·.id)) s.seq_rsvps })
  else if s.foreign_keys = true ∧ ¬ (s.hikes.any (fun h => decide (h.id = hikeID)) = true) then
    (.error (.constraint "FOREIGN KEY constraint failed"), s)
  else
    let id := nextRowid (s.rsvps.map (·.id)) s.seq_rsvps
    let row : RsvpRow :=
      { id := id, hike_id := hikeID, member_id := none, guest_name := some guestName,
        created_at := now, checked_in_at := none }
    (.ok (), { s with rsvps := s.rsvps ++ [row], seq_rsvps := id, lastInsertRowid := id })

/-- Go `CheckInRSVP`. -/
def CheckInRSVP (now : Nat) (s : Store) (rsvpID : Int) : Except DbError Unit × Store :=
  match s.rsvps.find? (fun r => decide (r.id = rsvpID)) with
  | none => (.error .ErrNoRows, s)
  | some r =>
    match r.member_id with
    | some memberID => execInsertOrIgnoreCheckin now s r.hike_id memberID
    | none =>
      (.ok (),
        { s with rsvps := (s.rsvps.map
            (fun x => if x.id = rsvpID then { x with checked_in_at := some now } else x)) })

/-- Go `IsRSVPOpen`. -/
def IsRSVPOpen (s : Store) (hikeID : Int) : Except DbError Bool :=
  match s.hikes.find? (fun h => decide (h.id = hikeID)) with
  | none => .error .ErrNoRows
  | some h => .ok h.rsvp_open

/-! ## `FuzzyMatchMember` (db.go 667-700) -/

/-- The loop `for i := range members` of `FuzzyMatchMember`, over the members not
yet visited, with the current `bestMatch` and `bestScore`. -/
def fuzzyLoop (lower : Char → Char) (firstName lastName fullName : String) :
    List Member → Option Member → Int → Option Member × Int
  | [], bestMatch, bestScore => (bestMatch, bestScore)
  | m :: rest, bestMatch, bestScore =>
    let mFirst := ToLower lower m.FirstName
    let mLast := ToLower lower m.LastName
    let mFull := mFirst ++ " " ++ mLast
    if mFirst = firstName ∧ mLast = lastName then (some m, 100)
    else
      let score := similarity fullName mFull
      if score > bestScore then fuzzyLoop lower firstName lastName fullName rest (some m) score
      else fuzzyLoop lower firstName lastName fullName rest bestMatch bestScore

/-- Go `FuzzyMatchMember`. -/
def FuzzyMatchMember (lower : Char → Char) (s : Store) (firstName lastName : String) :
    Option Member × Int :=
  match GetAllMembers s true with
  | .error _ => (none, 0)
  | .ok members =>
    if members.length = 0 then (none, 0)
    else
      let firstName := ToLower lower (TrimSpace firstName)
      let lastName := ToLower lower (TrimSpace lastName)
      let fullName := firstName ++ " " ++ lastName
      fuzzyLoop lower firstName lastName fullName members none 0

/-! ## `submitRSVP` (rsvp.go 66-142) -/

/-- Go handler `submitRSVP`. `body` is the decoded request body, `none` when
`json.Decode` fails. -/
def submitRSVP (lower : Char → Char) (now : Nat) (s : Store) (body : Option RSVPRequest)
    (hikeID : Int) : HttpResult RSVPResponse × Store :=
  match IsRSVPOpen s hikeID with
  | .error _ => (.error 404 "Hike not found", s)
  | .ok isOpen =>
    if !isOpen then
      (.json { Success := false, Message := "RSVPs are closed for this hike",
               MatchedName := "", MemberNumber := "", IsGuest := false }, s)
    else
      match body with
      | none => (.error 400 "Invalid request", s)
      | some req =>
        if req.FirstName = "" ∨ req.LastName = "" then
          (.error 400 "First name and last name required", s)
        else
          let (member, score) := FuzzyMatchMember lower s req.FirstName req.LastName
          match member, decide (score ≥ 80) with
          | some member, true =>
            match CreateRSVPForMember now s hikeID member.ID with
            | (.error _, s1) =>
              (.json { Success := false, Message := "You're already registered for this hike",
                       MatchedName := member.FirstName ++ " " ++ member.LastName,
                       MemberNumber := member.MembershipNumber, IsGuest := false }, s1)
            | (.ok _, s1) =>
              (.json { Success := true, Message := "RSVP confirmed!",
                       MatchedName := member.FirstName ++ " " ++ member.LastName,
                       MemberNumber := member.MembershipNumber, IsGuest := false }, s1)
          | _, _ =>
            let guestName := TrimSpace req.FirstName ++ " " ++ TrimSpace req.LastName
            match CreateRSVPForGuest now s hikeID guestName with
            | (.error _, s1) =>
              (.json { Success := false, Message := "You're already registered for this hike",
                       MatchedName := "", MemberNumber := "", IsGuest := false }, s1)
            | (.ok _, s1) =>
              (.json { Success := true, Message := "RSVP confirmed as guest",
                       MatchedName := guestName, MemberNumber := "", IsGuest := true }, s1)

/-! ## Remaining member, hike and check-in writes (db.go 197-235, 317-344, 452-471) -/

/-- The field updates of `UpdateMember` on the fetched member: every non-empty
field of the request, and `Active` when given, replaces the stored value. -/
def mergeMemberRequest (m : Member) (req : UpdateMemberRequest) : Member :=
  { m with
    MembershipNumber := if req.MembershipNumber ≠ "" then req.MembershipNumber
      else m.MembershipNumber,
    FirstName := if req.FirstName ≠ "" then req.FirstName else m.FirstName,
    LastName := if req.LastName ≠ "" then req.LastName else m.LastName,
    Email := if req.Email ≠ "" then req.Email else m.Email,
    Phone := if req.Phone ≠ "" then req.Phone else m.Phone,
    Active := match req.Active with
      | some a => a
      | none => m.Active }

/-- The rows after `UPDATE members SET membership_number = ?, first_name = ?,
last_name = ?, email = ?, phone = ?, active = ?, updated_at = ? WHERE id = ?`. -/
def updateMemberRows (now : Nat) (rows : List MemberRow) (id : Int) (m : Member) :
    List MemberRow :=
  rows.map (fun r =>
    if r.id = id then
      { r with membership_number := m.MembershipNumber, first_name := m.FirstName,
               last_name := m.LastName, email := some m.Email, phone := some m.Phone,
               active := m.Active, updated_at := now }
    else r)

/-- Go `UpdateMember`: `GetMemberByID`, the field updates, the `UPDATE` (which fails
when it would leave two rows with the same `membership_number`), `GetMemberByID`. -/
def UpdateMember (now : Nat) (s : Store) (id : Int) (req : UpdateMemberRequest) :
    Except DbError Member × Store :=
  match GetMemberByID s id with
  | .error e => (.error e, s)
  | .ok m =>
    if ((updateMemberRows now s.members id (mergeMemberRequest m req)).filter
        (fun r => decide (r.membership_number = (mergeMemberRequest m req).MembershipNumber))).length
        > 1 then
      (.error (.constraint "UNIQUE constraint failed: members.membership_number"), s)
    else
      (GetMemberByID
          { s with members := updateMemberRows now s.members id (mergeMemberRequest m req) } id,
        { s with members := updateMemberRows now s.members id (mergeMemberRequest m req) })

/-- Go `DeleteMember`: `UPDATE members SET active = 0, updated_at = ? WHERE id = ?`. -/
def DeleteMember (now : Nat) (s : Store) (id : Int) : Except DbError Unit × Store :=
  (.ok (), { s with members := (s.members.map
    (fun r => if r.id = id then { r with active := false, updated_at := now } else r)) })

/-- The field updates of `UpdateHike` on the fetched hike: every non-empty field of
the request replaces the stored value. -/
def mergeHikeRequest (h : Hike) (req : UpdateHikeRequest) : Hike :=
  { h with
    Name := if req.Name ≠ "" then req.Name else h.Name,
    Date := if req.Date ≠ "" then req.Date else h.Date,
    Location := if req.Location ≠ "" then req.Location else h.Location,
    Notes := if req.Notes ≠ "" then req.Notes else h.Notes }

/-- The rows after `UPDATE hikes SET name = ?, date = ?, location = ?, notes = ?
WHERE id = ?`. -/
def updateHikeRows (rows : List HikeRow) (id : Int) (h : Hike) : List HikeRow :=
  rows.map (fun r =>
    if r.id = id then
      { r with name := h.Name, date := h.Date, location := some h.Location,
               notes := some h.Notes }
    else r)

/-- Go `UpdateHike`: `GetHikeByID`, the field updates, the `UPDATE`, `GetHikeByID`. -/
def UpdateHike (s : Store) (id : Int) (req : UpdateHikeRequest) :
    Except DbError Hike × Store :=
  match GetHikeByID s id with
  | .error e => (.error e, s)
  | .ok h =>
    (GetHikeByID { s with hikes := updateHikeRows s.hikes id (mergeHikeRequest h req) } id,
      { s with hikes := updateHikeRows s.hikes id (mergeHikeRequest h req) })

/-- Go `UpdateCheckinRole`: `UPDATE checkins SET is_leader = ?` (or `is_sweeper`)
`WHERE id = ?`; any other role name is an error. -/
def UpdateCheckinRole (s : Store) (checkinID : Int) (role : String) (value : Bool) :
    Except DbError Unit × Store :=
  if role = "leader" then
    (.ok (), { s with checkins := (s.checkins.map
      (fun c => if c.id = checkinID then { c with is_leader := value } else c)) })
  else if role = "sweeper" then
    (.ok (), { s with checkins := (s.checkins.map
      (fun c => if c.id = checkinID then { c with is_sweeper := value } else c)) })
  else
    (.error (.invalidRole role), s)

/-- Go `DeleteRSVP`: `DELETE FROM rsvps WHERE id = ?`; on a connection that
enforces foreign keys the participants that reference a deleted row go with it
(`ON DELETE CASCADE`). -/
def DeleteRSVP (s : Store) (id : Int) : Except DbError Unit × Store :=
  let gone := (s.rsvps.filter (fun r => decide (r.id = id))).map (·.id)
  (.ok (),
    { s with
      rsvps := s.rsvps.filter (fun r => !decide (r.id = id)),
      activity_participants := s.activity_participants.filter
        (fun p => match p.rsvp_id with
          | some r => !(s.foreign_keys && decide (r ∈ gone))
          | none => true) })

/-! ## Activity operations (db.go 732-844) -/

/-- Go `GetActivityByID`, with the counted column. -/
def GetActivityByID (s : Store) (id : Int) : Except DbError Activity :=
  match s.activities.find? (fun a => decide (a.id = id)) with
  | none => .error .ErrNoRows
  | some a =>
    .ok { ID := a.id, HikeID := a.hike_id, Name := a.name, CreatedAt := a.created_at,
          ParticipantCount := ((s.activity_participants.filter
            (fun p => decide (p.activity_id = a.id))).length : Int) }

/-- Go `CreateActivity`: a plain `INSERT` (on a connection that enforces foreign
keys the hike must exist), then `GetActivityByID(LastInsertId)`. -/
def CreateActivity (now : Nat) (s : Store) (hikeID : Int) (name : String) :
    Except DbError Activity × Store :=
  if s.foreign_keys = true ∧ ¬ (s.hikes.any (fun h => decide (h.id = hikeID)) = true) then
    (.error (.constraint "FOREIGN KEY constraint failed"), s)
  else
    let id := nextRowid (s.activities.map (·.id)) s.seq_activities
    let row : ActivityRow := { id := id, hike_id := hikeID, name := name, created_at := now }
    let s1 := { s with activities := s.activities ++ [row], seq_activities := id,
                       lastInsertRowid := id }
    (GetActivityByID s1 s1.lastInsertRowid, s1)

/-- Go `DeleteActivity`: `DELETE FROM activities WHERE id = ?`; on a connection
that enforces foreign keys the participants of a deleted activity go with it
(`ON DELETE CASCADE`). -/
def DeleteActivity (s : Store) (id : Int) : Except DbError Unit × Store :=
  let gone := (s.activities.filter (fun a => decide (a.id = id))).map (·.id)
  (.ok (),
    { s with
      activities := s.activities.filter (fun a => !decide (a.id = id)),
      activity_participants := s.activity_participants.filter
        (fun p => !(s.foreign_keys && decide (p.activity_id ∈ gone))) })

/-- Go `AddActivityParticipant`: `INSERT OR IGNORE INTO activity_participants
(activity_id, checkin_id, rsvp_id)`. A row of the same activity with the same
non-`NULL` `checkin_id`, or with the same non-`NULL` `rsvp_id`, makes SQLite skip
the insert without an error, the rowid it drew going to `sqlite_sequence`;
otherwise, on a connection that enforces foreign keys, the activity and every
given link must exist; otherwise the row is inserted. -/
def AddActivityParticipant (now : Nat) (s : Store) (activityID : Int)
    (checkinID rsvpID : Option Int) : Except DbError Unit × Store :=
  if s.activity_participants.any (fun p => decide (p.activity_id = activityID ∧
      ((checkinID ≠ none ∧ p.checkin_id = checkinID) ∨
        (rsvpID ≠ none ∧ p.rsvp_id = rsvpID)))) then
    (.ok (), { s with seq_activity_participants :=
      (nextRowid (s.activity_participants.map (·.id)) s.seq_activity_participants) })
  else if s.foreign_keys = true ∧ ¬ (s.activities.any (fun a => decide (a.id = activityID)) = true ∧
      (∀ c, checkinID = some c → s.checkins.any (fun x => decide (x.id = c)) = true) ∧
      (∀ r, rsvpID = some r → s.rsvps.any (fun x => decide (x.id = r)) = true)) then
    (.error (.constraint "FOREIGN KEY constraint failed"), s)
  else
    let id := nextRowid (s.activity_participants.map (·.id)) s.seq_activity_participants
    let row : ParticipantRow :=
      { id := id, activity_id := activityID, checkin_id := checkinID, rsvp_id := rsvpID,
        created_at := now }
    (.ok (), { s with activity_participants := s.activity_participants ++ [row],
                      seq_activity_participants := id, lastInsertRowid := id })

/-- Go `RemoveActivityParticipant`. -/
def RemoveActivityParticipant (s : Store) (activityID : Int) (checkinID rsvpID : Option Int) :
    Except DbError Unit × Store :=
  match checkinID with
  | some c =>
    (.ok (), { s with activity_participants := (s.activity_participants.filter
      (fun p => !decide (p.activity_id = activityID ∧ p.checkin_id = some c))) })
  | none =>
    match rsvpID with
    | some r =>
      (.ok (), { s with activity_participants := (s.activity_participants.filter
        (fun p => !decide (p.activity_id = activityID ∧ p.rsvp_id = some r))) })
    | none => (.ok (), s)

/-- The rows of `l` that satisfy `p`, or one `NULL` row when there is none: the
right side of a `LEFT JOIN`. -/
def leftJoin {α : Type} (l : List α) (p : α → Bool) : List (Option α) :=
  match l.filter p with
  | [] => [none]
  | x :: xs => (x :: xs).map some

/-- A row of the join in `GetActivityParticipants`: the participant with the joined
`checkins c`, `members m`, `rsvps r` and `members m2` rows. -/
structure ParticipantJoin where
  ap : ParticipantRow
  c : Option CheckinRow
  m : Option MemberRow
  r : Option RsvpRow
  m2 : Option MemberRow
deriving DecidableEq, Repr

/-- The column `COALESCE(m.first_name || ' ' || m.last_name, r.guest_name) as name`;
`none` is `NULL`. -/
def ParticipantJoin.name (j : ParticipantJoin) : Option String :=
  match j.m with
  | some m => some (m.first_name ++ " " ++ m.last_name)
  | none => j.r.bind (·.guest_name)

/-- The column `COALESCE(m.membership_number, '') as membership_number`. -/
def ParticipantJoin.membership_number (j : ParticipantJoin) : String :=
  match j.m with
  | some m => m.membership_number
  | none => ""

/-- The column `CASE WHEN r.guest_name IS NOT NULL AND r.member_id IS NULL THEN 1
ELSE 0 END as is_guest`. -/
def ParticipantJoin.is_guest (j : ParticipantJoin) : Bool :=
  match j.r with
  | some r => r.guest_name.isSome && r.member_id.isNone
  | none => false

/-- The order `ORDER BY name`: `NULL` first, then the `BINARY` collation. -/
def participantOrder (a b : ParticipantJoin) : Prop :=
  match a.name, b.name with
  | none, _ => True
  | some _, none => False
  | some x, some y => ltRunes y.data x.data = false

instance participantOrderDecidable : DecidableRel participantOrder :=
  fun a b => by
    unfold participantOrder
    cases a.name <;> cases b.name <;> exact inferInstance

/-- The `rows.Scan` of one joined row in `GetActivityParticipants`: `p.Name` is a
Go `string`, which cannot take a `NULL`. -/
def scanParticipant (j : ParticipantJoin) : Except DbError ActivityParticipant :=
  match j.name with
  | none =>
    .error (.scan "converting NULL to string is unsupported")
  | some name =>
    .ok { ID := j.ap.id, ActivityID := j.ap.activity_id, CheckinID := j.ap.checkin_id,
          RSVPID := j.ap.rsvp_id, Name := name, MembershipNumber := j.membership_number,
          IsGuest := j.is_guest }

/-- The loop `for rows.Next()` of `GetActivityParticipants`: the first row that
fails to scan ends the function with its error. -/
def scanParticipants : List ParticipantJoin → Except DbError (List ActivityParticipant)
  | [] => .ok []
  | j :: rest =>
    match scanParticipant j with
    | .error e => .error e
    | .ok p =>
      match scanParticipants rest with
      | .error e => .error e
      | .ok ps => .ok (p :: ps)

/-- The joined rows of `GetActivityParticipants` before `ORDER BY`. -/
def participantJoins (s : Store) (activityID : Int) : List ParticipantJoin :=
  (s.activity_participants.filter (fun ap => decide (ap.activity_id = activityID))).flatMap
    (fun ap =>
      (leftJoin s.checkins (fun c => decide (ap.checkin_id = some c.id))).flatMap (fun c =>
        (leftJoin s.members (fun m => decide (c.map (·.member_id) = some m.id))).flatMap
          (fun m =>
            (leftJoin s.rsvps (fun r => decide (ap.rsvp_id = some r.id))).flatMap (fun r =>
              (leftJoin s.members
                (fun m2 => decide (r.bind (·.member_id) = some m2.id))).map (fun m2 =>
                  { ap := ap, c := c, m := m, r := r, m2 := m2 })))))

/-- Go `GetActivityParticipants`. -/
def GetActivityParticipants (s : Store) (activityID : Int) :
    Except DbError (List ActivityParticipant) :=
  scanParticipants ((participantJoins s activityID).insertionSort participantOrder)

/-- The POST branch of the handler `handleActivityParticipants` (activities.go
130-151); `body` is the decoded request body, `none` when `json.Decode` fails. -/
def handleActivityParticipantsPost (now : Nat) (s : Store) (activityID : Int)
    (body : Option ParticipantRequest) : HttpResult String × Store :=
  match body with
  | none => (.error 400 "Invalid request body", s)
  | some req =>
    if req.CheckinID = none ∧ req.RSVPID = none then
      (.error 400 "checkin_id or rsvp_id required", s)
    else
      match AddActivityParticipant now s activityID req.CheckinID req.RSVPID with
      | (.error _, s1) => (.error 500 "internal error", s1)
      | (.ok _, s1) => (.json "ok", s1)

/-- The DELETE branch of the handler `handleActivityParticipants` (activities.go
153-169). -/
def handleActivityParticipantsDelete (s : Store) (activityID : Int)
    (body : Option ParticipantRequest) : HttpResult String × Store :=
  match body with
  | none => (.error 400 "Invalid request body", s)
  | some req =>
    match RemoveActivityParticipant s activityID req.CheckinID req.RSVPID with
    | (.error _, s1) => (.error 500 "internal error", s1)
    | (.ok _, s1) => (.json "ok", s1)

/-! ## Runs of operations -/

/-- One call of a writing operation of the store, with its arguments. The
constructors carry the names of the Go functions; `submitRSVP` and the two
`handleActivityParticipants` branches are handlers. `connection` is the step of the
pool that hands the calls that follow to another connection, one with the given
`foreign_keys` setting and `last_insert_rowid()`. -/
inductive Op where
  | CreateMember (req : CreateMemberRequest)
  | UpdateMember (id : Int) (req : UpdateMemberRequest)
  | DeleteMember (id : Int)
  | CreateHike (req : CreateHikeRequest)
  | UpdateHike (id : Int) (req : UpdateHikeRequest)
  | CloseHike (id : Int)
  | CloseRSVPs (hikeID : Int)
  | OpenRSVPs (hikeID : Int)
  | CreateCheckin (hikeID : Int) (membershipNumber : String)
  | DeleteCheckin (hikeID memberID : Int)
  | UpdateCheckinRole (checkinID : Int) (role : String) (value : Bool)
  | UndoRSVPCheckin (rsvpID : Int)
  | CreateRSVPForMember (hikeID memberID : Int)
  | CreateRSVPForGuest (hikeID : Int) (guestName : String)
  | DeleteRSVP (id : Int)
  | CheckInRSVP (rsvpID : Int)
  | CreateActivity (hikeID : Int) (name : String)
  | DeleteActivity (id : Int)
  | AddActivityParticipant (activityID : Int) (checkinID rsvpID : Option Int)
  | RemoveActivityParticipant (activityID : Int) (checkinID rsvpID : Option Int)
  | submitRSVP (body : Option RSVPRequest) (hikeID : Int)
  | handleActivityParticipantsPost (activityID : Int) (body : Option ParticipantRequest)
  | handleActivityParticipantsDelete (activityID : Int) (body : Option ParticipantRequest)
  | connection (foreign_keys : Bool) (lastInsertRowid : Int)
deriving DecidableEq, Repr

/-- The store after one operation, called at time `now`. -/
def Op.run (lower : Char → Char) (now : Nat) (s : Store) : Op → Store
  | .CreateMember req => (Trailcall.CreateMember now s req).2
  | .UpdateMember id req => (Trailcall.UpdateMember now s id req).2
  | .DeleteMember id => (Trailcall.DeleteMember now s id).2
  | .CreateHike req => (Trailcall.CreateHike now s req).2
  | .UpdateHike id req => (Trailcall.UpdateHike s id req).2
  | .CloseHike id => (Trailcall.CloseHike s id).2
  | .CloseRSVPs hikeID => (Trailcall.CloseRSVPs s hikeID).2
  | .OpenRSVPs hikeID => (Trailcall.OpenRSVPs s hikeID).2
  | .CreateCheckin hikeID num => (Trailcall.CreateCheckin now s hikeID num).2
  | .DeleteCheckin hikeID memberID => (Trailcall.DeleteCheckin s hikeID memberID).2
  | .UpdateCheckinRole id role value => (Trailcall.UpdateCheckinRole s id role value).2
  | .UndoRSVPCheckin rsvpID => (Trailcall.UndoRSVPCheckin s rsvpID).2
  | .CreateRSVPForMember hikeID memberID => (Trailcall.CreateRSVPForMember now s hikeID memberID).2
  | .CreateRSVPForGuest hikeID name => (Trailcall.CreateRSVPForGuest now s hikeID name).2
  | .DeleteRSVP id => (Trailcall.DeleteRSVP s id).2
  | .CheckInRSVP rsvpID => (Trailcall.CheckInRSVP now s rsvpID).2
  | .CreateActivity hikeID name => (Trailcall.CreateActivity now s hikeID name).2
  | .DeleteActivity id => (Trailcall.DeleteActivity s id).2
  | .AddActivityParticipant a c r => (Trailcall.AddActivityParticipant now s a c r).2
  | .RemoveActivityParticipant a c r => (Trailcall.RemoveActivityParticipant s a c r).2
  | .submitRSVP body hikeID => (Trailcall.submitRSVP lower now s body hikeID).2
  | .handleActivityParticipantsPost a body => (Trailcall.handleActivityParticipantsPost now s a body).2
  | .handleActivityParticipantsDelete a body => (Trailcall.handleActivityParticipantsDelete s a body).2
  | .connection fk id => { s with foreign_keys := fk, lastInsertRowid := id }

/-- The store after a run of operations, each with the time of its call. -/
def runOps (lower : Char → Char) (ops : List (Nat × Op)) (s : Store) : Store :=
  ops.foldl (fun st x => x.2.run lower x.1 st) s

/-- The operations the HTTP layer can trigger: every operation (a change of
connection among them) except a direct call of `AddActivityParticipant`, which is
only reached through the POST branch of `handleActivityParticipants`. -/
def Op.viaHandlers : Op → Bool
  | .AddActivityParticipant _ _ _ => false
  | _ => true

/-- Go `similarity` with the integer division made partial: `none` stands for the
run-time panic of a division by zero. -/
def similarityChecked (a b : String) : Option Int :=
  if a = b then some 100
  else if len a = 0 ∨ len b = 0 then some 0
  else
    let aRunes := a.data
    let bRunes := b.data
    let shorter := if aRunes.length > bRunes.length then bRunes else aRunes
    let longer := if aRunes.length > bRunes.length then aRunes else bRunes
    let count := similarityLoop longer shorter 0 0
    if longer.length = 0 then none
    else some (Int.tdiv (count * 100) (longer.length : Int))

/-- The score `FuzzyMatchMember` gives one roster member for the normalized query
names: 100 for an exact match, otherwise `similarity` of the "first last" strings. -/
def memberScore (lower : Char → Char) (firstName lastName : String) (m : Member) : Int :=
  if ToLower lower m.FirstName = firstName ∧ ToLower lower m.LastName = lastName then 100
  else similarity (firstName ++ " " ++ lastName)
    (ToLower lower m.FirstName ++ " " ++ ToLower lower m.LastName)

/-! ## How one operation may change a table -/

/-- The changes an operation may make to table `hikes`: every existing row is
mapped to a row with the same id whose status is the old one or "closed", and rows
may be appended. -/
def HikesStep (hs hs1 : List HikeRow) : Prop :=
  ∃ (f : HikeRow → HikeRow) (extra : List HikeRow), hs1 = hs.map f ++ extra ∧
    ∀ h, (f h).id = h.id ∧ ((f h).status = h.status ∨ (f h).status = "closed")

/-- The changes an operation may make to table `checkins`: none, deleting rows,
updating rows without touching `hike_id` and `member_id`, or appending one row
whose (hike, member) pair no row has yet. -/
def CheckinsStep (cs cs1 : List CheckinRow) : Prop :=
  cs1 = cs ∨
  (∃ p : CheckinRow → Bool, cs1 = cs.filter p) ∨
  (∃ f : CheckinRow → CheckinRow, cs1 = cs.map f ∧
    ∀ x, (f x).hike_id = x.hike_id ∧ (f x).member_id = x.member_id) ∨
  (∃ row : CheckinRow,
    (¬ ∃ c ∈ cs, c.hike_id = row.hike_id ∧ c.member_id = row.member_id) ∧ cs1 = cs ++ [row])

/-- The changes an operation may make to table `rsvps`: none, deleting rows,
updating rows without touching `hike_id`, `member_id` and `guest_name`, or
appending one row that has either a member no row of the hike has yet and no
guest name, or a guest name no row of the hike has yet and no member. -/
def RsvpsStep (rs rs1 : List RsvpRow) : Prop :=
  rs1 = rs ∨
  (∃ p : RsvpRow → Bool, rs1 = rs.filter p) ∨
  (∃ f : RsvpRow → RsvpRow, rs1 = rs.map f ∧
    ∀ x, (f x).hike_id = x.hike_id ∧ (f x).member_id = x.member_id ∧
      (f x).guest_name = x.guest_name) ∨
  (∃ (row : RsvpRow) (memberID : Int), row.member_id = some memberID ∧ row.guest_name = none ∧
    (¬ ∃ r ∈ rs, r.hike_id = row.hike_id ∧ r.member_id = some memberID) ∧ rs1 = rs ++ [row]) ∨
  (∃ (row : RsvpRow) (guestName : String), row.member_id = none ∧
    row.guest_name = some guestName ∧
    (¬ ∃ r ∈ rs, r.hike_id = row.hike_id ∧ r.guest_name = some guestName) ∧ rs1 = rs ++ [row])

/-- The changes an operation of the HTTP layer may make to table
`activity_participants`: none, deleting rows, or appending one row with at least
one of its two links set. -/
def ParticipantsStep (ps ps1 : List ParticipantRow) : Prop :=
  ps1 = ps ∨
  (∃ p : ParticipantRow → Bool, ps1 = ps.filter p) ∨
  (∃ row : ParticipantRow, (row.checkin_id ≠ none ∨ row.rsvp_id ≠ none) ∧ ps1 = ps ++ [row])

/-- The changes one operation may make to the four tables; the bound on
`activity_participants` is for the operations of the HTTP layer (`via = true`). -/
def TablesStep (via : Bool) (s s1 : Store) : Prop :=
  HikesStep s.hikes s1.hikes ∧ CheckinsStep s.checkins s1.checkins ∧
  RsvpsStep s.rsvps s1.rsvps ∧
  (via = true → ParticipantsStep s.activity_participants s1.activity_participants)

/-- The changes an operation may make to table `members`: every existing row is
mapped to a row with the same id, and rows may be appended. -/
def MembersStep (ms ms1 : List MemberRow) : Prop :=
  ∃ (f : MemberRow → MemberRow) (extra : List MemberRow), ms1 = ms.map f ++ extra ∧
    ∀ m, (f m).id = m.id

/-- The store that differs from `s` only in the `status` of the hikes with id
`hikeID`, which is `status`. -/
def withStatus (s : Store) (hikeID : Int) (status : String) : Store :=
  { s with hikes := (s.hikes.map
    (fun h => if h.id = hikeID then { h with status := status } else h)) }

/-! ## Check-in handlers (checkins.go 28-53, rsvp.go 194-223) -/

/-- Go `err.Error()`: the text of `sql.ErrNoRows`, the message of SQLite, the
message of the failed `Scan`, and the `fmt.Errorf` of `UpdateCheckinRole`. -/
def DbError.Error : DbError → String
  | .ErrNoRows => "sql: no rows in result set"
  | .constraint msg => msg
  | .scan msg => msg
  | .invalidRole role => "invalid role: " ++ role

/-- Go `strings.Contains`. -/
def Contains (s substr : String) : Bool :=
  s.data.tails.any (fun t => substr.data.isPrefixOf t)

/-- Go `models.CreateCheckinRequest`. -/
structure CreateCheckinRequest where
  HikeID : Int
  MembershipNumber : String
deriving DecidableEq, Repr

/-- Go handler `createCheckin`; `body` is the decoded request body, `none` when
`json.Decode` fails. -/
def createCheckin (now : Nat) (s : Store) (body : Option CreateCheckinRequest) :
    HttpResult Checkin × Store :=
  match body with
  | none => (.error 400 "Invalid request body", s)
  | some req =>
    if req.HikeID = 0 ∨ req.MembershipNumber = "" then
      (.error 400 "hike_id and membership_number are required", s)
    else
      match CreateCheckin now s req.HikeID req.MembershipNumber with
      | (.error e, s1) =>
        if Contains e.Error "no rows" then (.error 404 "Member not found", s1)
        else (.error 500 e.Error, s1)
      | (.ok checkin, s1) => (.jsonStatus 201 checkin, s1)

/-- Go handler `HandleRSVPCheckin`; `method` is `r.Method`. -/
def HandleRSVPCheckin (now : Nat) (s : Store) (method : String) (rsvpID : Int) :
    HttpResult String × Store :=
  if method ≠ "POST" then (.error 405 "Method not allowed", s)
  else
    match CheckInRSVP now s rsvpID with
    | (.error e, s1) => (.error 500 e.Error, s1)
    | (.ok _, s1) => (.json "ok", s1)

/-- Go handler `HandleRSVPUndoCheckin`; `method` is `r.Method`. -/
def HandleRSVPUndoCheckin (s : Store) (method : String) (rsvpID : Int) :
    HttpResult String × Store :=
  if method ≠ "POST" then (.error 405 "Method not allowed", s)
  else
    match UndoRSVPCheckin s rsvpID with
    | (.error e, s1) => (.error 500 e.Error, s1)
    | (.ok _, s1) => (.json "ok", s1)

/-! ## `GetRSVPsForHike` (db.go 582-622) -/

/-- Go `models.RSVP`; `MemberID` is the `*int64`. -/
structure RSVP where
  ID : Int
  HikeID : Int
  MemberID : Option Int
  GuestName : String
  CreatedAt : Nat
  MemberName : String
  MembershipNumber : String
  CheckedIn : Bool
deriving DecidableEq, Repr

/-- A row of the join in `GetRSVPsForHike`: the RSVP with the joined `members m`
and `checkins c` rows. -/
structure RsvpJoin where
  r : RsvpRow
  m : Option MemberRow
  c : Option CheckinRow
deriving DecidableEq, Repr

/-- The column `CASE WHEN c.id IS NOT NULL THEN 1 WHEN r.checked_in_at IS NOT NULL
THEN 1 ELSE 0 END as checked_in`. -/
def RsvpJoin.checked_in (j : RsvpJoin) : Bool :=
  match j.c with
  | some _ => true
  | none =>
    match j.r.checked_in_at with
    | some _ => true
    | none => false

/-- The sort key `COALESCE(m.last_name, r.guest_name)`; `none` is `NULL`. -/
def RsvpJoin.key1 (j : RsvpJoin) : Option String :=
  match j.m with
  | some m => some m.last_name
  | none => j.r.guest_name

/-- The sort key `COALESCE(m.first_name, '')`. -/
def RsvpJoin.key2 (j : RsvpJoin) : String :=
  match j.m with
  | some m => m.first_name
  | none => ""

/-- The order of SQLite on a nullable text column: `NULL` first, then the `BINARY`
collation. -/
def ltNull : Option String → Option String → Bool
  | none, none => false
  | none, some _ => true
  | some _, none => false
  | some x, some y => ltRunes x.data y.data

/-- The order `ORDER BY COALESCE(m.last_name, r.guest_name),
COALESCE(m.first_name, '')`. -/
def rsvpOrder (a b : RsvpJoin) : Prop :=
  ltNull a.key1 b.key1 = true ∨
    (a.key1 = b.key1 ∧ ltRunes b.key2.data a.key2.data = false)

instance rsvpOrderDecidable : DecidableRel rsvpOrder :=
  fun a b => by unfold rsvpOrder; exact inferInstance

/-- The `rows.Scan` of one joined row in `GetRSVPsForHike` and the assignments
that follow it. -/
def scanRsvp (j : RsvpJoin) : RSVP :=
  match j.r.member_id with
  | some memberID =>
    { ID := j.r.id, HikeID := j.r.hike_id, MemberID := some memberID, GuestName := "",
      CreatedAt := j.r.created_at,
      MemberName := nullString (j.m.map (fun m => m.first_name ++ " " ++ m.last_name)),
      MembershipNumber := nullString (j.m.map (·.membership_number)),
      CheckedIn := j.checked_in }
  | none =>
    { ID := j.r.id, HikeID := j.r.hike_id, MemberID := none,
      GuestName := nullString j.r.guest_name, CreatedAt := j.r.created_at,
      MemberName := "", MembershipNumber := "", CheckedIn := j.checked_in }

/-- The joined rows of `GetRSVPsForHike` before `ORDER BY`. -/
def rsvpJoins (s : Store) (hikeID : Int) : List RsvpJoin :=
  (s.rsvps.filter (fun r => decide (r.hike_id = hikeID))).flatMap (fun r =>
    (leftJoin s.members (fun m => decide (r.member_id = some m.id))).flatMap (fun m =>
      (leftJoin s.checkins
        (fun c => decide (r.hike_id = c.hike_id ∧ r.member_id = some c.member_id))).map
          (fun c => { r := r, m := m, c := c })))

/-- Go `GetRSVPsForHike`. -/
def GetRSVPsForHike (s : Store) (hikeID : Int) : Except DbError (List RSVP) :=
  .ok (((rsvpJoins s hikeID).insertionSort rsvpOrder).map scanRsvp)

/-! ## Example stores, built from the empty store by the operations above -/

/-- The request that registers member "Jane Smith" with number "TC-001". -/
def janeRequest : CreateMemberRequest :=
  { MembershipNumber := "TC-001", FirstName := "Jane", LastName := "Smith",
    Email := "", Phone := "" }

/-- The request that registers member "Bob Jones" with number "TC-002". -/
def bobRequest : CreateMemberRequest :=
  { MembershipNumber := "TC-002", FirstName := "Bob", LastName := "Jones",
    Email := "", Phone := "" }

/-- The request that creates the hike "Summit". -/
def summitRequest : CreateHikeRequest :=
  { Name := "Summit", Date := "2024-05-01", Location := "", Notes := "" }

/-- Member Jane (id 1) as `GetAllMembers` returns her. -/
def janeMember : Member :=
  { ID := 1, MembershipNumber := "TC-001", FirstName := "Jane", LastName := "Smith",
    Email := "", Phone := "", Active := true, CreatedAt := 1, UpdatedAt := 1 }

/-- The store after `CreateMember(Jane)`. -/
def storeJane : Store := (CreateMember 1 Store.empty janeRequest).2

/-- The store after `CreateMember(Jane)`, `CreateHike(Summit)`: member 1, hike 1,
open for check-in and for RSVPs. -/
def storeJaneHike : Store := (CreateHike 2 storeJane summitRequest).2

/-- The store `storeJaneHike` after the public RSVP of ("Jane", "Smith") on hike 1:
RSVP 1, linked to member 1. -/
def storeJaneRsvp : Store :=
  (submitRSVP Char.toLower 3 storeJaneHike (some { FirstName := "Jane", LastName := "Smith" }) 1).2

/-- The row of RSVP 1 in `storeJaneRsvp`. -/
def janeRsvp : RsvpRow :=
  { id := 1, hike_id := 1, member_id := some 1, guest_name := none, created_at := 3,
    checked_in_at := none }

/-- The store `storeJaneRsvp` after the admin check-in `CreateCheckin(1, "TC-001")`:
Jane has RSVP 1 and Checkin 1 on hike 1. -/
def storeJaneRsvpCheckin : Store := (CreateCheckin 4 storeJaneRsvp 1 "TC-001").2

/-- The store `storeJaneHike` after the public RSVP of ("Jan", "Doe") on hike 1:
RSVP 1, of guest "Jan Doe". -/
def storeGuestRsvp : Store :=
  (submitRSVP Char.toLower 3 storeJaneHike (some { FirstName := "Jan", LastName := "Doe" }) 1).2

/-- The row of RSVP 1 in `storeGuestRsvp`. -/
def guestRsvp : RsvpRow :=
  { id := 1, hike_id := 1, member_id := none, guest_name := some "Jan Doe", created_at := 3,
    checked_in_at := none }

/-- The store `storeJaneHike` after `CreateCheckin(1, "TC-001")` and then
`CreateMember(Bob)`: Jane is checked in on hike 1 (Checkin 1), and the last insert
of the connection is member 2. -/
def storeRecheck : Store :=
  (CreateMember 4 (CreateCheckin 3 storeJaneHike 1 "TC-001").2 bobRequest).2

/-- The store `storeJaneHike` after `CloseHike(1)` and `CloseRSVPs(1)`. -/
def storeClosed : Store := (CloseRSVPs (CloseHike storeJaneHike 1).2 1).2

/-- The store `storeJaneRsvpCheckin` (Jane has RSVP 1 and Checkin 1 on hike 1) after
`CreateActivity(1, "Summit route")`: activity 1. -/
def storeActivity : Store := (CreateActivity 5 storeJaneRsvpCheckin 1 "Summit route").2

/-- The store `storeActivity` after the POST of `{checkin_id: 1}` to the
participants of activity 1. -/
def storeCheckinParticipant : Store :=
  (handleActivityParticipantsPost 6 storeActivity 1
    (some { CheckinID := some 1, RSVPID := none })).2

/-- The store `storeCheckinParticipant`, served by a connection that the pool
opened after `Init`: it does not enforce foreign keys and has made no insert. -/
def storeCheckinParticipantPooled : Store :=
  { storeCheckinParticipant with foreign_keys := false, lastInsertRowid := 0 }

/-- The store `storeActivity` after the POST of `{rsvp_id: 1}` to the participants
of activity 1; RSVP 1 is Jane's member-linked RSVP. -/
def storeRsvpParticipant : Store :=
  (handleActivityParticipantsPost 6 storeActivity 1
    (some { CheckinID := none, RSVPID := some 1 })).2

/-- The store `storeActivity` after the POST of `{checkin_id: 1, rsvp_id: 1}` to the
participants of activity 1. -/
def storeBothLinks : Store :=
  (handleActivityParticipantsPost 6 storeActivity 1
    (some { CheckinID := some 1, RSVPID := some 1 })).2

/-- The store `storeGuestRsvp` (guest "Jan Doe" has RSVP 1 on hike 1) after
`CreateActivity(1, "Summit route")` and the POST of `{rsvp_id: 1}` to its
participants. -/
def storeGuestParticipant : Store :=
  (handleActivityParticipantsPost 6 (CreateActivity 5 storeGuestRsvp 1 "Summit route").2 1
    (some { CheckinID := none, RSVPID := some 1 })).2

/-- The run of operations that leads to `storeBothLinks`: member Jane, hike 1, her
public RSVP, her admin check-in, activity 1, and the POST of
`{checkin_id: 1, rsvp_id: 1}` to its participants. -/
def opsBothLinks : List (Nat × Op) :=
  [(1, .CreateMember janeRequest), (2, .CreateHike summitRequest),
   (3, .submitRSVP (some { FirstName := "Jane", LastName := "Smith" }) 1),
   (4, .CreateCheckin 1 "TC-001"), (5, .CreateActivity 1 "Summit route"),
   (6, .handleActivityParticipantsPost 1 (some { CheckinID := some 1, RSVPID := some 1 }))]

/-- A run that registers the guests "Jane Doe" and "jane doe" on hike 1. -/
def opsTwoGuests : List (Nat × Op) :=
  [(1, .CreateHike summitRequest), (2, .CreateRSVPForGuest 1 "Jane Doe"),
   (3, .CreateRSVPForGuest 1 "jane doe"), (4, .CreateRSVPForGuest 1 "Jane Doe")]

/-- A run on the closed hike of `storeClosed` that goes through the operations that
write to `hikes` and through check-in, RSVP and activity operations. -/
def opsAfterClose : List (Nat × Op) :=
  [(6, .UpdateHike 1 { Name := "Summit 2", Date := "", Location := "", Notes := "" }),
   (7, .OpenRSVPs 1), (8, .CreateCheckin 1 "TC-001"),
   (9, .submitRSVP (some { FirstName := "Jan", LastName := "Doe" }) 1),
   (10, .CheckInRSVP 1), (11, .CreateActivity 1 "Summit route"),
   (12, .handleActivityParticipantsPost 1 (some { CheckinID := some 1, RSVPID := none })),
   (13, .CloseRSVPs 1), (14, .CloseHike 1), (15, .CreateHike summitRequest)]

example : similarity "jan smyth" "jane smith" = 30 := by decide
example : similarity "jane smith" "jan smyth" = 30 := by decide
example : similarity "" "x" = 0 := by decide
example : similarity "abc" "abc" = 100 := by decide
example : matchingPositions "jan smyth" "jane smith" = 3 := by decide

/-! ## Lemmas on strings and `similarity` -/

theorem countEq_nil_right (xs : List Char) : countEq xs [] = 0 := by
  cases xs <;> rfl

theorem countEq_comm (xs ys : List Char) : countEq xs ys = countEq ys xs := by
  induction xs generalizing ys with
  | nil => simp [countEq, countEq_nil_right]
  | cons x xs ih =>
    cases ys with
    | nil => simp [countEq]
    | cons y ys =>
      simp only [countEq, ih ys]
      by_cases h : x = y
      · subst h; simp
      · have h2 : ¬ y = x := fun e => h e.symm
        simp [h, h2]

theorem similarityLoop_eq (longer : List Char) (shorter : List Char) (i : Nat) (c : Int) :
    similarityLoop longer shorter i c = c + (countEq shorter (longer.drop i) : Nat) := by
  induction shorter generalizing i c with
  | nil => simp [similarityLoop, countEq]
  | cons r rest ih =>
    rw [similarityLoop, ih]
    by_cases hi : i < longer.length
    · rw [List.drop_eq_getElem_cons hi]
      have hget : longer.get? i = some longer[i] := by
        rw [List.get?_eq_getElem?]; exact List.getElem?_eq_getElem hi
      by_cases hr : longer[i] = r
      · have hr2 : r = longer[i] := hr.symm
        simp [countEq, hi, hget, hr, hr2.symm]
        omega
      · have hr2 : ¬ r = longer[i] := fun e => hr e.symm
        simp [countEq, hi, hget, hr, hr2]
    · have hd : longer.drop i = [] := List.drop_eq_nil_of_le (Nat.le_of_not_lt hi)
      have hd2 : longer.drop (i + 1) = [] := List.drop_eq_nil_of_le (by omega)
      simp [hd, hd2, countEq, countEq_nil_right, hi]

theorem matchingPositions_eq_aux (xs ys : List Char) :
    ((List.range (min xs.length ys.length)).filter
      (fun i => decide (xs.get? i = ys.get? i))).length = countEq xs ys := by
  induction xs generalizing ys with
  | nil => simp [countEq]
  | cons x xs ih =>
    cases ys with
    | nil => simp [countEq]
    | cons y ys =>
      have hmin : min (x :: xs).length (y :: ys).length = min xs.length ys.length + 1 := by
        simp only [List.length_cons]; omega
      rw [hmin, List.range_succ_eq_map, List.filter_cons, List.filter_map, countEq, ← ih ys]
      by_cases h : x = y
      · simp [h, Function.comp_def]; omega
      · simp [h, Function.comp_def]

theorem matchingPositions_eq (a b : String) :
    matchingPositions a b = countEq a.data b.data :=
  matchingPositions_eq_aux a.data b.data

theorem len_eq_zero_iff (s : String) : len s = 0 ↔ s = "" := by
  obtain ⟨l⟩ := s
  cases l with
  | nil => simp [len, String.utf8ByteSize, String.utf8ByteSize.go]
  | cons c cs =>
    have hpos := Char.utf8Size_pos c
    constructor
    · intro h
      simp only [len, String.utf8ByteSize, String.utf8ByteSize.go] at h
      omega
    · intro h
      have := congrArg String.data h
      simp at this

/-- The non-trivial branch of `similarity`: both strings non-empty and different. -/
theorem similarity_of_ne (a b : String) (hab : a ≠ b) (ha : a ≠ "") (hb : b ≠ "") :
    similarity a b =
      ((100 * matchingPositions a b / max a.length b.length : Nat) : Int) := by
  have ha2 : ¬ len a = 0 := fun h => ha ((len_eq_zero_iff a).1 h)
  have hb2 : ¬ len b = 0 := fun h => hb ((len_eq_zero_iff b).1 h)
  simp only [similarity, hab, ha2, hb2, if_false, or_self]
  rw [matchingPositions_eq]
  simp only [String.length]
  by_cases hlen : a.data.length > b.data.length
  · simp only [hlen, if_true, similarityLoop_eq, List.drop_zero, zero_add]
    have hmax : max a.data.length b.data.length = a.data.length := by omega
    rw [hmax, countEq_comm a.data b.data, Nat.mul_comm 100]
    exact (Int.ofNat_tdiv _ _).symm
  · simp only [hlen, if_false, similarityLoop_eq, List.drop_zero, zero_add]
    have hmax : max a.data.length b.data.length = b.data.length := by omega
    rw [hmax, Nat.mul_comm 100]
    exact (Int.ofNat_tdiv _ _).symm

/-! ## Theorems on `similarity` -/

/-- C5: `similarity a b` is 100 when `a = b`; otherwise 0 when either string is
empty; otherwise `floor (100 * m / max |a| |b|)`, with lengths counted in
characters and `m` the number of positions below `min |a| |b|` at which the two
strings hold the same character. -/
theorem similarity_spec (a b : String) :
    similarity a b =
      if a = b then 100
      else if a = "" ∨ b = "" then 0
      else ((100 * matchingPositions a b / max a.length b.length : Nat) : Int) := by
  by_cases hab : a = b
  · simp [similarity, hab]
  · by_cases he : a = "" ∨ b = ""
    · have he2 : len a = 0 ∨ len b = 0 := by
        rcases he with h | h
        · exact Or.inl ((len_eq_zero_iff a).2 h)
        · exact Or.inr ((len_eq_zero_iff b).2 h)
      simp [similarity, hab, he, he2]
    · have ha : a ≠ "" := fun h => he (Or.inl h)
      have hb : b ≠ "" := fun h => he (Or.inr h)
      rw [similarity_of_ne a b hab ha hb]
      simp [hab, he]

/-! ## Lemmas on the roster and `FuzzyMatchMember` -/

theorem GetAllMembers_ok (s : Store) (activeOnly : Bool) :
    ∃ roster, GetAllMembers s activeOnly = .ok roster := ⟨_, rfl⟩

theorem mem_roster (s : Store) (roster : List Member) (m : Member)
    (h : GetAllMembers s true = .ok roster) (hm : m ∈ roster) :
    ∃ row ∈ s.members, row.active = true ∧ scanMember row = m := by
  simp only [GetAllMembers, Except.ok.injEq] at h
  subst h
  obtain ⟨row, hrow, rfl⟩ := List.mem_map.1 hm
  rw [List.mem_insertionSort, List.mem_filter] at hrow
  exact ⟨row, hrow.1, by simpa using hrow.2, rfl⟩

theorem fuzzyLoop_exact (lower : Char → Char) (fn ln full : String) (members : List Member)
    (best : Option Member) (score : Int)
    (h : ∃ m ∈ members, ToLower lower m.FirstName = fn ∧ ToLower lower m.LastName = ln) :
    ∃ m, members.find? (fun m =>
        decide (ToLower lower m.FirstName = fn ∧ ToLower lower m.LastName = ln)) = some m ∧
      fuzzyLoop lower fn ln full members best score = (some m, 100) := by
  induction members generalizing best score with
  | nil => simp at h
  | cons x rest ih =>
    by_cases hx : ToLower lower x.FirstName = fn ∧ ToLower lower x.LastName = ln
    · exact ⟨x, by simp [List.find?, hx], by simp [fuzzyLoop, hx]⟩
    · have hrest : ∃ m ∈ rest, ToLower lower m.FirstName = fn ∧ ToLower lower m.LastName = ln := by
        obtain ⟨m, hm, hp⟩ := h
        rcases List.mem_cons.1 hm with rfl | hm'
        · exact absurd hp hx
        · exact ⟨m, hm', hp⟩
      simp only [fuzzyLoop, hx, if_false, List.find?, decide_False]
      split
      · exact ih _ _ hrest
      · exact ih _ _ hrest

theorem fuzzyLoop_some (lower : Char → Char) (fn ln full : String) (members : List Member)
    (best : Option Member) (score : Int) (m : Member) (sc : Int)
    (h : fuzzyLoop lower fn ln full members best score = (some m, sc)) :
    m ∈ members ∨ best = some m := by
  induction members generalizing best score with
  | nil =>
    simp only [fuzzyLoop, Prod.mk.injEq] at h
    exact Or.inr h.1
  | cons x rest ih =>
    simp only [fuzzyLoop] at h
    split at h
    · simp only [Prod.mk.injEq, Option.some.injEq] at h
      exact Or.inl (by simp [h.1])
    · split at h
      · rcases ih _ _ h with h1 | h1
        · exact Or.inl (List.mem_cons_of_mem _ h1)
        · simp only [Option.some.injEq] at h1
          exact Or.inl (by simp [h1])
      · rcases ih _ _ h with h1 | h1
        · exact Or.inl (List.mem_cons_of_mem _ h1)
        · exact Or.inr h1

/-- A member returned by `FuzzyMatchMember` is an active row of `members`. -/
theorem FuzzyMatchMember_some (lower : Char → Char) (s : Store) (first last : String)
    (m : Member) (sc : Int) (h : FuzzyMatchMember lower s first last = (some m, sc)) :
    ∃ row ∈ s.members, row.active = true ∧ scanMember row = m := by
  obtain ⟨roster, hr⟩ := GetAllMembers_ok s true
  simp only [FuzzyMatchMember, hr] at h
  split at h
  · simp at h
  · rcases fuzzyLoop_some _ _ _ _ _ _ _ _ _ h with h1 | h1
    · exact mem_roster s roster m hr h1
    · simp at h1

theorem fuzzyLoop_none (lower : Char → Char) (fn ln full : String) (members : List Member)
    (best : Option Member) (score sc : Int)
    (h : fuzzyLoop lower fn ln full members best score = (none, sc)) :
    best = none ∧ sc = score := by
  induction members generalizing best score with
  | nil =>
    simp only [fuzzyLoop, Prod.mk.injEq] at h
    exact ⟨h.1, h.2.symm⟩
  | cons x rest ih =>
    simp only [fuzzyLoop] at h
    split at h
    · simp at h
    · split at h
      · have := (ih _ _ h).1
        simp at this
      · exact ih _ _ h

/-- Without a best match the returned score is 0. -/
theorem FuzzyMatchMember_none (lower : Char → Char) (s : Store) (first last : String)
    (sc : Int) (h : FuzzyMatchMember lower s first last = (none, sc)) : sc = 0 := by
  obtain ⟨roster, hr⟩ := GetAllMembers_ok s true
  simp only [FuzzyMatchMember, hr] at h
  split at h
  · simp only [Prod.mk.injEq, true_and] at h
    exact h.symm
  · exact (fuzzyLoop_none _ _ _ _ _ _ _ _ h).2

/-! ## Lemmas on the RSVP inserts -/

theorem hike_exists_of_find (s : Store) (hikeID : Int) (h : HikeRow)
    (hfind : s.hikes.find? (fun x => decide (x.id = hikeID)) = some h) :
    s.hikes.any (fun x => decide (x.id = hikeID)) = true := by
  rw [List.any_eq_true]
  have hp : decide (h.id = hikeID) = true :=
    @List.find?_some _ (fun x => decide (x.id = hikeID)) h s.hikes hfind
  exact ⟨h, List.mem_of_find?_eq_some hfind, hp⟩

/-- With both parents present `CreateRSVPForMember` reports no error, a row of
that hike and member is in the table afterwards, and the rows without a member
are the same as before. -/
theorem CreateRSVPForMember_ok (now : Nat) (s : Store) (hikeID memberID : Int)
    (hh : s.hikes.any (fun x => decide (x.id = hikeID)) = true)
    (hm : s.members.any (fun x => decide (x.id = memberID)) = true) :
    (CreateRSVPForMember now s hikeID memberID).1 = .ok () ∧
    (∃ r ∈ (CreateRSVPForMember now s hikeID memberID).2.rsvps,
      r.hike_id = hikeID ∧ r.member_id = some memberID) ∧
    (CreateRSVPForMember now s hikeID memberID).2.rsvps.filter
        (fun r => decide (r.member_id = none)) =
      s.rsvps.filter (fun r => decide (r.member_id = none)) := by
  unfold CreateRSVPForMember
  by_cases hex : s.rsvps.any
      (fun r => decide (r.hike_id = hikeID ∧ r.member_id = some memberID)) = true
  · rw [if_pos hex]
    obtain ⟨r, hr, hp⟩ := List.any_eq_true.1 hex
    exact ⟨rfl, ⟨r, hr, by simpa using hp⟩, rfl⟩
  · rw [if_neg hex, if_neg (by simp only [hh, hm, and_self, not_true_eq_false, and_false, not_false_eq_true])]
    refine ⟨rfl, ⟨_, List.mem_append_right _ (List.mem_singleton_self _), rfl, rfl⟩, ?_⟩
    simp [List.filter_append]

/-- With the hike present `CreateRSVPForGuest` reports no error, a row of that
hike and guest name is in the table afterwards, and the rows with a member are
the same as before. -/
theorem CreateRSVPForGuest_ok (now : Nat) (s : Store) (hikeID : Int) (guestName : String)
    (hh : s.hikes.any (fun x => decide (x.id = hikeID)) = true) :
    (CreateRSVPForGuest now s hikeID guestName).1 = .ok () ∧
    (∃ r ∈ (CreateRSVPForGuest now s hikeID guestName).2.rsvps,
      r.hike_id = hikeID ∧ r.guest_name = some guestName) ∧
    (CreateRSVPForGuest now s hikeID guestName).2.rsvps.filter
        (fun r => !decide (r.member_id = none)) =
      s.rsvps.filter (fun r => !decide (r.member_id = none)) := by
  unfold CreateRSVPForGuest
  by_cases hex : s.rsvps.any
      (fun r => decide (r.hike_id = hikeID ∧ r.guest_name = some guestName)) = true
  · rw [if_pos hex]
    obtain ⟨r, hr, hp⟩ := List.any_eq_true.1 hex
    exact ⟨rfl, ⟨r, hr, by simpa using hp⟩, rfl⟩
  · rw [if_neg hex, if_neg (by simp only [hh, not_true_eq_false, and_false, not_false_eq_true])]
    refine ⟨rfl, ⟨_, List.mem_append_right _ (List.mem_singleton_self _), rfl, rfl⟩, ?_⟩
    simp [List.filter_append]

/-! ## Lemmas on rowids and the check-in insert -/

theorem foldl_max_ge (ids : List Int) (seq : Int) :
    seq ≤ ids.foldl max seq ∧ ∀ x ∈ ids, x ≤ ids.foldl max seq := by
  induction ids generalizing seq with
  | nil => simp
  | cons a l ih =>
    simp only [List.foldl_cons, List.mem_cons, forall_eq_or_imp]
    obtain ⟨h1, h2⟩ := ih (max seq a)
    refine ⟨?_, ?_, h2⟩
    · exact le_trans (le_max_left _ _) h1
    · exact le_trans (le_max_right _ _) h1

/-- The next rowid of a table is larger than every rowid in it. -/
theorem nextRowid_gt (ids : List Int) (seq : Int) (x : Int) (hx : x ∈ ids) :
    x < nextRowid ids seq := by
  have := (foldl_max_ge ids seq).2 x hx
  unfold nextRowid
  omega

/-- The check-in insert when a row of the pair is already there: no row changes,
and the rowid the skipped insert drew goes to `sqlite_sequence`. -/
theorem execInsertOrIgnoreCheckin_present (now : Nat) (s : Store) (hikeID memberID : Int)
    (hex : ∃ c ∈ s.checkins, c.hike_id = hikeID ∧ c.member_id = memberID) :
    execInsertOrIgnoreCheckin now s hikeID memberID =
      (.ok (), { s with seq_checkins := nextRowid (s.checkins.map (·.id)) s.seq_checkins }) := by
  have h : s.checkins.any
      (fun c => decide (c.hike_id = hikeID ∧ c.member_id = memberID)) = true := by
    rw [List.any_eq_true]
    obtain ⟨c, hc, hp⟩ := hex
    exact ⟨c, hc, by simpa using hp⟩
  rw [execInsertOrIgnoreCheckin, if_pos h]

/-- The check-in insert when no row of the pair is there and both parents exist:
one row with a new rowid is appended. -/
theorem execInsertOrIgnoreCheckin_absent (now : Nat) (s : Store) (hikeID memberID : Int)
    (hno : ¬ ∃ c ∈ s.checkins, c.hike_id = hikeID ∧ c.member_id = memberID)
    (hh : s.hikes.any (fun x => decide (x.id = hikeID)) = true)
    (hm : s.members.any (fun x => decide (x.id = memberID)) = true) :
    execInsertOrIgnoreCheckin now s hikeID memberID =
      (.ok (),
        { s with
          checkins := s.checkins ++
            [{ id := nextRowid (s.checkins.map (·.id)) s.seq_checkins, hike_id := hikeID,
               member_id := memberID, checked_in_at := now, synced := true,
               is_leader := false, is_sweeper := false }],
          seq_checkins := nextRowid (s.checkins.map (·.id)) s.seq_checkins,
          lastInsertRowid := nextRowid (s.checkins.map (·.id)) s.seq_checkins }) := by
  have h : ¬ s.checkins.any
      (fun c => decide (c.hike_id = hikeID ∧ c.member_id = memberID)) = true := by
    rw [List.any_eq_true]
    rintro ⟨c, hc, hp⟩
    exact hno ⟨c, hc, by simpa using hp⟩
  rw [execInsertOrIgnoreCheckin, if_neg h,
    if_neg (by simp only [hh, hm, and_self, not_true_eq_false, and_false, not_false_eq_true])]

/-! ## Lemmas on the branches of `submitRSVP` -/

theorem FuzzyMatchMember_member_exists (lower : Char → Char) (s : Store)
    (first last : String) (m : Member) (sc : Int)
    (h : FuzzyMatchMember lower s first last = (some m, sc)) :
    s.members.any (fun x => decide (x.id = m.ID)) = true := by
  obtain ⟨row, hrow, _, hscan⟩ := FuzzyMatchMember_some lower s _ _ m sc h
  rw [List.any_eq_true]
  exact ⟨row, hrow, by simp [← hscan, scanMember]⟩

/-- The member branch: an open hike, a valid request and a match of score 80 or
more give the "RSVP confirmed!" answer and the store of `CreateRSVPForMember`. -/
theorem submitRSVP_member_branch (lower : Char → Char) (now : Nat) (s : Store)
    (req : RSVPRequest) (hikeID : Int) (h : HikeRow)
    (hfind : s.hikes.find? (fun x => decide (x.id = hikeID)) = some h)
    (hopen : h.rsvp_open = true) (hfirst : req.FirstName ≠ "") (hlast : req.LastName ≠ "")
    (m : Member) (sc : Int)
    (hfm : FuzzyMatchMember lower s req.FirstName req.LastName = (some m, sc))
    (hsc : 80 ≤ sc) :
    submitRSVP lower now s (some req) hikeID =
      (.json { Success := true, Message := "RSVP confirmed!",
               MatchedName := m.FirstName ++ " " ++ m.LastName,
               MemberNumber := m.MembershipNumber, IsGuest := false },
        (CreateRSVPForMember now s hikeID m.ID).2) := by
  have hh := hike_exists_of_find s hikeID h hfind
  obtain ⟨h1, _, _⟩ := CreateRSVPForMember_ok now s hikeID m.ID hh
    (FuzzyMatchMember_member_exists lower s _ _ m sc hfm)
  rcases hc : CreateRSVPForMember now s hikeID m.ID with ⟨res, s1⟩
  rw [hc] at h1
  simp only at h1
  subst h1
  simp [submitRSVP, IsRSVPOpen, hfind, hopen, hfirst, hlast, hfm, hsc, hc]

/-- The guest branch: an open hike, a valid request and a score below 80 (or no
match) give the "RSVP confirmed as guest" answer and the store of
`CreateRSVPForGuest` for the trimmed "first last" name. -/
theorem submitRSVP_guest_branch (lower : Char → Char) (now : Nat) (s : Store)
    (req : RSVPRequest) (hikeID : Int) (h : HikeRow)
    (hfind : s.hikes.find? (fun x => decide (x.id = hikeID)) = some h)
    (hopen : h.rsvp_open = true) (hfirst : req.FirstName ≠ "") (hlast : req.LastName ≠ "")
    (mem : Option Member) (sc : Int)
    (hfm : FuzzyMatchMember lower s req.FirstName req.LastName = (mem, sc))
    (hsc : ¬ 80 ≤ sc) :
    submitRSVP lower now s (some req) hikeID =
      (.json { Success := true, Message := "RSVP confirmed as guest",
               MatchedName := TrimSpace req.FirstName ++ " " ++ TrimSpace req.LastName,
               MemberNumber := "", IsGuest := true },
        (CreateRSVPForGuest now s hikeID
          (TrimSpace req.FirstName ++ " " ++ TrimSpace req.LastName)).2) := by
  have hh := hike_exists_of_find s hikeID h hfind
  obtain ⟨h1, _, _⟩ := CreateRSVPForGuest_ok now s hikeID
    (TrimSpace req.FirstName ++ " " ++ TrimSpace req.LastName) hh
  rcases hc : CreateRSVPForGuest now s hikeID
    (TrimSpace req.FirstName ++ " " ++ TrimSpace req.LastName) with ⟨res, s1⟩
  rw [hc] at h1
  simp only at h1
  subst h1
  cases mem <;>
    simp [submitRSVP, IsRSVPOpen, hfind, hopen, hfirst, hlast, hfm, hsc, hc]

/-- On an open hike every valid request is answered with `Success = true`: the
"already registered" answers of `submitRSVP` are never given, because the inserts
report no error for a duplicate. -/
theorem submitRSVP_open_succeeds (lower : Char → Char) (now : Nat) (s : Store)
    (req : RSVPRequest) (hikeID : Int) (h : HikeRow)
    (hfind : s.hikes.find? (fun x => decide (x.id = hikeID)) = some h)
    (hopen : h.rsvp_open = true) (hfirst : req.FirstName ≠ "") (hlast : req.LastName ≠ "") :
    ∃ resp, (submitRSVP lower now s (some req) hikeID).1 = .json resp ∧
      resp.Success = true := by
  rcases hfm : FuzzyMatchMember lower s req.FirstName req.LastName with ⟨mem, sc⟩
  by_cases hsc : 80 ≤ sc
  · cases mem with
    | none =>
      have := FuzzyMatchMember_none lower s _ _ sc hfm
      omega
    | some m =>
      rw [submitRSVP_member_branch lower now s req hikeID h hfind hopen hfirst hlast m sc hfm hsc]
      exact ⟨_, rfl, rfl⟩
  · rw [submitRSVP_guest_branch lower now s req hikeID h hfind hopen hfirst hlast mem sc hfm hsc]
    exact ⟨_, rfl, rfl⟩

/-! ## Theorems on `FuzzyMatchMember` and `submitRSVP` -/

/-- C6: when some member of the active roster (in roster iteration order) has
case-folded first and last names equal to the trimmed, case-folded query names,
`FuzzyMatchMember` returns the first such member of the roster with score 100,
whatever the scores of the members before it. -/
theorem FuzzyMatchMember_exact_first (lower : Char → Char) (s : Store) (first last : String)
    (roster : List Member) (hroster : GetAllMembers s true = .ok roster)
    (hex : ∃ m ∈ roster, ToLower lower m.FirstName = ToLower lower (TrimSpace first) ∧
      ToLower lower m.LastName = ToLower lower (TrimSpace last)) :
    ∃ m, roster.find? (fun m =>
        decide (ToLower lower m.FirstName = ToLower lower (TrimSpace first) ∧
          ToLower lower m.LastName = ToLower lower (TrimSpace last))) = some m ∧
      FuzzyMatchMember lower s first last = (some m, 100) := by
  have hne : ¬ roster.length = 0 := by
    obtain ⟨m, hm, _⟩ := hex
    intro h0
    rw [List.length_eq_zero] at h0
    simp [h0] at hm
  simp only [FuzzyMatchMember, hroster, hne, if_false]
  exact fuzzyLoop_exact lower _ _ _ roster none 0 hex

/-- Witness of C6: with the roster holding member "Jane Smith", the query
("Jane", "Smith") returns her with score 100. -/
theorem FuzzyMatchMember_exact_first_witness :
    GetAllMembers storeJane true = .ok [janeMember] ∧
    ∃ m, [janeMember].find? (fun m =>
        decide (ToLower Char.toLower m.FirstName = ToLower Char.toLower (TrimSpace "Jane") ∧
          ToLower Char.toLower m.LastName = ToLower Char.toLower (TrimSpace "Smith"))) = some m ∧
      FuzzyMatchMember Char.toLower storeJane "Jane" "Smith" = (some m, 100) :=
  ⟨by decide,
    FuzzyMatchMember_exact_first Char.toLower storeJane "Jane" "Smith" [janeMember]
      (by decide) ⟨janeMember, by decide, by decide, by decide⟩⟩

/-- C7: on a hike with `rsvp_open = false`, whatever its status and whatever the
request body, `submitRSVP` answers with the structured failure (a JSON body with
`Success = false`, not an HTTP error) and leaves the store as it was. -/
theorem submitRSVP_closed (lower : Char → Char) (now : Nat) (s : Store)
    (body : Option RSVPRequest) (hikeID : Int) (h : HikeRow)
    (hfind : s.hikes.find? (fun x => decide (x.id = hikeID)) = some h)
    (hclosed : h.rsvp_open = false) :
    submitRSVP lower now s body hikeID =
      (.json { Success := false, Message := "RSVPs are closed for this hike",
               MatchedName := "", MemberNumber := "", IsGuest := false }, s) := by
  simp [submitRSVP, IsRSVPOpen, hfind, hclosed]

/-- Witness of C7: the closed hike 1 of `storeClosed` (status closed, RSVPs closed)
refuses a well-formed RSVP with the structured failure and keeps the store. -/
theorem submitRSVP_closed_witness :
    storeClosed.hikes.find? (fun x => decide (x.id = 1)) =
      some { id := 1, name := "Summit", date := "2024-05-01", location := some "",
             notes := some "", status := "closed", rsvp_open := false, created_at := 2 } ∧
    submitRSVP Char.toLower 5 storeClosed (some { FirstName := "Jane", LastName := "Smith" }) 1 =
      (.json { Success := false, Message := "RSVPs are closed for this hike",
               MatchedName := "", MemberNumber := "", IsGuest := false }, storeClosed) :=
  ⟨by decide,
    submitRSVP_closed Char.toLower 5 storeClosed _ 1
      { id := 1, name := "Summit", date := "2024-05-01", location := some "",
        notes := some "", status := "closed", rsvp_open := false, created_at := 2 }
      (by decide) rfl⟩

/-- C4: on a hike with `rsvp_open = true` and a request with non-empty first and
last name, `submitRSVP` registers a member-linked RSVP for the member returned by
`FuzzyMatchMember` (answer `IsGuest = false`, no guest row touched) when the
returned score is at least 80, and registers a guest RSVP under the trimmed
"first last" name (answer `IsGuest = true`, no member-linked row touched) when
the score is 79 or less; so the answer has `IsGuest = false` exactly when the
score is at least 80. -/
theorem submitRSVP_threshold (lower : Char → Char) (now : Nat) (s : Store)
    (req : RSVPRequest) (hikeID : Int) (h : HikeRow)
    (hfind : s.hikes.find? (fun x => decide (x.id = hikeID)) = some h)
    (hopen : h.rsvp_open = true) (hfirst : req.FirstName ≠ "") (hlast : req.LastName ≠ "") :
    (80 ≤ (FuzzyMatchMember lower s req.FirstName req.LastName).2 →
      ∃ m, (FuzzyMatchMember lower s req.FirstName req.LastName).1 = some m ∧
        (submitRSVP lower now s (some req) hikeID).1 =
          .json { Success := true, Message := "RSVP confirmed!",
                  MatchedName := m.FirstName ++ " " ++ m.LastName,
                  MemberNumber := m.MembershipNumber, IsGuest := false } ∧
        (∃ r ∈ (submitRSVP lower now s (some req) hikeID).2.rsvps,
          r.hike_id = hikeID ∧ r.member_id = some m.ID) ∧
        (submitRSVP lower now s (some req) hikeID).2.rsvps.filter
            (fun r => decide (r.member_id = none)) =
          s.rsvps.filter (fun r => decide (r.member_id = none))) ∧
    ((FuzzyMatchMember lower s req.FirstName req.LastName).2 ≤ 79 →
      (submitRSVP lower now s (some req) hikeID).1 =
        .json { Success := true, Message := "RSVP confirmed as guest",
                MatchedName := TrimSpace req.FirstName ++ " " ++ TrimSpace req.LastName,
                MemberNumber := "", IsGuest := true } ∧
      (∃ r ∈ (submitRSVP lower now s (some req) hikeID).2.rsvps,
        r.hike_id = hikeID ∧
          r.guest_name = some (TrimSpace req.FirstName ++ " " ++ TrimSpace req.LastName)) ∧
      (submitRSVP lower now s (some req) hikeID).2.rsvps.filter
          (fun r => !decide (r.member_id = none)) =
        s.rsvps.filter (fun r => !decide (r.member_id = none))) ∧
    (∃ resp, (submitRSVP lower now s (some req) hikeID).1 = .json resp ∧
      (resp.IsGuest = false ↔ 80 ≤ (FuzzyMatchMember lower s req.FirstName req.LastName).2)) := by
  have hh := hike_exists_of_find s hikeID h hfind
  rcases hfm : FuzzyMatchMember lower s req.FirstName req.LastName with ⟨mem, sc⟩
  have hguest := CreateRSVPForGuest_ok now s hikeID
    (TrimSpace req.FirstName ++ " " ++ TrimSpace req.LastName) hh
  by_cases hsc : 80 ≤ sc
  · cases mem with
    | none =>
      have := FuzzyMatchMember_none lower s _ _ sc hfm
      omega
    | some m =>
      obtain ⟨_, h2, h3⟩ := CreateRSVPForMember_ok now s hikeID m.ID hh
        (FuzzyMatchMember_member_exists lower s _ _ m sc hfm)
      rw [submitRSVP_member_branch lower now s req hikeID h hfind hopen hfirst hlast m sc hfm hsc]
      refine ⟨fun _ => ⟨m, rfl, rfl, h2, h3⟩, fun h79 => ?_, ⟨_, rfl, ?_⟩⟩
      · simp only at h79
        omega
      · simp [hsc]
  · rw [submitRSVP_guest_branch lower now s req hikeID h hfind hopen hfirst hlast mem sc hfm hsc]
    refine ⟨fun h80 => absurd h80 hsc, fun _ => ⟨rfl, hguest.2.1, hguest.2.2⟩, ⟨_, rfl, ?_⟩⟩
    simp [hsc]

/-- Witness of C4: against the roster holding "Jane Smith", the query
("Jane", "Smixx") scores exactly 80 (8 of 10 positions) and is registered as
member-linked. -/
theorem submitRSVP_threshold_witness :
    (FuzzyMatchMember Char.toLower storeJaneHike "Jane" "Smixx").2 = 80 ∧
    ∃ m, (FuzzyMatchMember Char.toLower storeJaneHike "Jane" "Smixx").1 = some m ∧
      (submitRSVP Char.toLower 3 storeJaneHike
          (some { FirstName := "Jane", LastName := "Smixx" }) 1).1 =
        .json { Success := true, Message := "RSVP confirmed!",
                MatchedName := m.FirstName ++ " " ++ m.LastName,
                MemberNumber := m.MembershipNumber, IsGuest := false } ∧
      (∃ r ∈ (submitRSVP Char.toLower 3 storeJaneHike
          (some { FirstName := "Jane", LastName := "Smixx" }) 1).2.rsvps,
        r.hike_id = 1 ∧ r.member_id = some m.ID) ∧
      (submitRSVP Char.toLower 3 storeJaneHike
          (some { FirstName := "Jane", LastName := "Smixx" }) 1).2.rsvps.filter
          (fun r => decide (r.member_id = none)) =
        storeJaneHike.rsvps.filter (fun r => decide (r.member_id = none)) :=
  ⟨by decide,
    (submitRSVP_threshold Char.toLower 3 storeJaneHike
      { FirstName := "Jane", LastName := "Smixx" } 1
      { id := 1, name := "Summit", date := "2024-05-01", location := some "",
        notes := some "", status := "open", rsvp_open := true, created_at := 2 }
      (by decide) rfl (by decide) (by decide)).1 (by decide)⟩

/-! ## Theorems on `CheckInRSVP` -/

/-- C8: for a member-linked RSVP (whose hike and member exist, as its foreign
keys require) `CheckInRSVP` reports no error and leaves every `rsvps` row as it
was, so the RSVP's own `checked_in_at` is not set; afterwards a `checkins` row of
the RSVP's (hike, member) exists: when one was there before, the `checkins` rows
are unchanged, and when none was there, exactly one row with a new id is added
and it is the only row of that pair. -/
theorem CheckInRSVP_member (now : Nat) (s : Store) (rsvpID : Int) (r : RsvpRow)
    (memberID : Int)
    (hfind : s.rsvps.find? (fun x => decide (x.id = rsvpID)) = some r)
    (hmem : r.member_id = some memberID)
    (hh : s.hikes.any (fun x => decide (x.id = r.hike_id)) = true)
    (hm : s.members.any (fun x => decide (x.id = memberID)) = true) :
    (CheckInRSVP now s rsvpID).1 = .ok () ∧
    (CheckInRSVP now s rsvpID).2.rsvps = s.rsvps ∧
    (∃ c ∈ (CheckInRSVP now s rsvpID).2.checkins,
      c.hike_id = r.hike_id ∧ c.member_id = memberID) ∧
    ((∃ c ∈ s.checkins, c.hike_id = r.hike_id ∧ c.member_id = memberID) →
      (CheckInRSVP now s rsvpID).2.checkins = s.checkins) ∧
    ((¬ ∃ c ∈ s.checkins, c.hike_id = r.hike_id ∧ c.member_id = memberID) →
      ∃ c, c.hike_id = r.hike_id ∧ c.member_id = memberID ∧
        (∀ x ∈ s.checkins, x.id ≠ c.id) ∧
        (CheckInRSVP now s rsvpID).2.checkins = s.checkins ++ [c] ∧
        (CheckInRSVP now s rsvpID).2.checkins.filter
          (fun x => decide (x.hike_id = r.hike_id ∧ x.member_id = memberID)) = [c]) := by
  have hrun : CheckInRSVP now s rsvpID = execInsertOrIgnoreCheckin now s r.hike_id memberID := by
    simp only [CheckInRSVP, hfind, hmem]
  rw [hrun]
  by_cases hex : ∃ c ∈ s.checkins, c.hike_id = r.hike_id ∧ c.member_id = memberID
  · rw [execInsertOrIgnoreCheckin_present now s _ _ hex]
    exact ⟨rfl, rfl, hex, fun _ => rfl, fun hno => absurd hex hno⟩
  · rw [execInsertOrIgnoreCheckin_absent now s _ _ hex hh hm]
    refine ⟨rfl, rfl, ⟨_, List.mem_append_right _ (List.mem_singleton_self _), rfl, rfl⟩,
      fun h => absurd h hex, fun _ => ⟨_, rfl, rfl, ?_, rfl, ?_⟩⟩
    · intro x hx heq
      have := nextRowid_gt (s.checkins.map (·.id)) s.seq_checkins x.id
        (List.mem_map.2 ⟨x, hx, rfl⟩)
      simp only at heq
      omega
    · have hnone : s.checkins.filter
          (fun x => decide (x.hike_id = r.hike_id ∧ x.member_id = memberID)) = [] := by
        rw [List.filter_eq_nil_iff]
        intro x hx hp
        exact hex ⟨x, hx, by simpa using hp⟩
      rw [List.filter_append, hnone]
      simp

/-- Witness of C8: RSVP 1 of `storeJaneRsvp` is Jane's; checking it in creates her
Checkin on hike 1 and leaves the `rsvps` rows. -/
theorem CheckInRSVP_member_witness :
    storeJaneRsvp.rsvps.find? (fun x => decide (x.id = 1)) = some janeRsvp ∧
    (CheckInRSVP 5 storeJaneRsvp 1).1 = .ok () ∧
    (CheckInRSVP 5 storeJaneRsvp 1).2.rsvps = storeJaneRsvp.rsvps ∧
    ∃ c ∈ (CheckInRSVP 5 storeJaneRsvp 1).2.checkins, c.hike_id = 1 ∧ c.member_id = 1 :=
  ⟨by decide,
    (CheckInRSVP_member 5 storeJaneRsvp 1 janeRsvp 1 (by decide) rfl (by decide)
      (by decide)).1,
    (CheckInRSVP_member 5 storeJaneRsvp 1 janeRsvp 1 (by decide) rfl (by decide)
      (by decide)).2.1,
    (CheckInRSVP_member 5 storeJaneRsvp 1 janeRsvp 1 (by decide) rfl (by decide)
      (by decide)).2.2.1⟩

/-- C9: for a guest-linked RSVP `CheckInRSVP` reports no error and changes the
store only in table `rsvps`, where the row with the RSVP's id gets
`checked_in_at = now` and every row with another id stays as it was; no
`checkins` row is created, changed or deleted. -/
theorem CheckInRSVP_guest (now : Nat) (s : Store) (rsvpID : Int) (r : RsvpRow)
    (hfind : s.rsvps.find? (fun x => decide (x.id = rsvpID)) = some r)
    (hguest : r.member_id = none) :
    (CheckInRSVP now s rsvpID).1 = .ok () ∧
    (CheckInRSVP now s rsvpID).2.checkins = s.checkins ∧
    (CheckInRSVP now s rsvpID).2 =
      { s with rsvps := (s.rsvps.map
          (fun x => if x.id = rsvpID then { x with checked_in_at := some now } else x)) } ∧
    { r with checked_in_at := some now } ∈ (CheckInRSVP now s rsvpID).2.rsvps ∧
    (∀ x ∈ s.rsvps, x.id ≠ rsvpID → x ∈ (CheckInRSVP now s rsvpID).2.rsvps) ∧
    (∀ y ∈ (CheckInRSVP now s rsvpID).2.rsvps, y.id ≠ rsvpID → y ∈ s.rsvps) := by
  have hrun : CheckInRSVP now s rsvpID =
      (.ok (), { s with rsvps := (s.rsvps.map
        (fun x => if x.id = rsvpID then { x with checked_in_at := some now } else x)) }) := by
    simp only [CheckInRSVP, hfind, hguest]
  have hrid : r.id = rsvpID := by
    have hp : decide (r.id = rsvpID) = true :=
      @List.find?_some _ (fun x => decide (x.id = rsvpID)) r s.rsvps hfind
    simpa using hp
  rw [hrun]
  refine ⟨rfl, rfl, rfl, ?_, ?_, ?_⟩
  · exact List.mem_map.2 ⟨r, List.mem_of_find?_eq_some hfind, by simp [hrid]⟩
  · intro x hx hne
    exact List.mem_map.2 ⟨x, hx, by simp [hne]⟩
  · intro y hy hne
    obtain ⟨x, hx, hxy⟩ := List.mem_map.1 hy
    by_cases hxid : x.id = rsvpID
    · simp only [hxid, if_true] at hxy
      subst hxy
      exact absurd rfl hne
    · simp only [hxid, if_false] at hxy
      subst hxy
      exact hx

/-- Witness of C9: RSVP 1 of `storeGuestRsvp` is the guest "Jan Doe"; checking it in
sets its `checked_in_at` and leaves the (empty) `checkins` table. -/
theorem CheckInRSVP_guest_witness :
    storeGuestRsvp.rsvps.find? (fun x => decide (x.id = 1)) = some guestRsvp ∧
    (CheckInRSVP 5 storeGuestRsvp 1).1 = .ok () ∧
    (CheckInRSVP 5 storeGuestRsvp 1).2.checkins = storeGuestRsvp.checkins ∧
    { guestRsvp with checked_in_at := some 5 } ∈ (CheckInRSVP 5 storeGuestRsvp 1).2.rsvps :=
  ⟨by decide,
    (CheckInRSVP_guest 5 storeGuestRsvp 1 guestRsvp (by decide) rfl).1,
    (CheckInRSVP_guest 5 storeGuestRsvp 1 guestRsvp (by decide) rfl).2.1,
    (CheckInRSVP_guest 5 storeGuestRsvp 1 guestRsvp (by decide) rfl).2.2.2.1⟩

/-! ## Theorems on the check-in / undo round trip -/

/-- C3, counterexample: in `storeJaneRsvpCheckin` Jane has RSVP 1 and, from the
admin check-in, Checkin 1 on hike 1. `CheckInRSVP(1)` changes nothing and
`UndoRSVPCheckin(1)` then deletes Checkin 1: both calls succeed, and the
`checkins` rows are not those from before the two calls. -/
theorem CheckInRSVP_Undo_not_restored :
    storeJaneRsvpCheckin.rsvps.find? (fun x => decide (x.id = 1)) = some janeRsvp ∧
    (CheckInRSVP 5 storeJaneRsvpCheckin 1).1 = .ok () ∧
    (UndoRSVPCheckin (CheckInRSVP 5 storeJaneRsvpCheckin 1).2 1).1 = .ok () ∧
    storeJaneRsvpCheckin.checkins =
      [{ id := 1, hike_id := 1, member_id := 1, checked_in_at := 4, synced := true,
         is_leader := false, is_sweeper := false }] ∧
    (UndoRSVPCheckin (CheckInRSVP 5 storeJaneRsvpCheckin 1).2 1).2.checkins = [] ∧
    (UndoRSVPCheckin (CheckInRSVP 5 storeJaneRsvpCheckin 1).2 1).2.checkins ≠
      storeJaneRsvpCheckin.checkins := by
  decide

/-- C3, amended: for an existing RSVP that is not checked in yet (member-linked:
no `checkins` row of its hike and member, and its hike and member exist;
guest-linked: `checked_in_at` unset), in a store whose participants reference
existing check-ins, `CheckInRSVP` followed by `UndoRSVPCheckin` both succeed and
every table has the rows it had before the two calls. -/
theorem CheckInRSVP_Undo_roundtrip (now : Nat) (s : Store) (rsvpID : Int) (r : RsvpRow)
    (hfind : s.rsvps.find? (fun x => decide (x.id = rsvpID)) = some r)
    (hmember : ∀ memberID, r.member_id = some memberID →
      s.hikes.any (fun x => decide (x.id = r.hike_id)) = true ∧
      s.members.any (fun x => decide (x.id = memberID)) = true ∧
      ¬ ∃ c ∈ s.checkins, c.hike_id = r.hike_id ∧ c.member_id = memberID)
    (hguest : r.member_id = none → ∀ x ∈ s.rsvps, x.id = rsvpID → x.checked_in_at = none)
    (hpart : ∀ p ∈ s.activity_participants, ∀ c, p.checkin_id = some c →
      ∃ x ∈ s.checkins, x.id = c) :
    (CheckInRSVP now s rsvpID).1 = .ok () ∧
    (UndoRSVPCheckin (CheckInRSVP now s rsvpID).2 rsvpID).1 = .ok () ∧
    (UndoRSVPCheckin (CheckInRSVP now s rsvpID).2 rsvpID).2.checkins = s.checkins ∧
    (UndoRSVPCheckin (CheckInRSVP now s rsvpID).2 rsvpID).2.rsvps = s.rsvps ∧
    (UndoRSVPCheckin (CheckInRSVP now s rsvpID).2 rsvpID).2.activity_participants =
      s.activity_participants ∧
    (UndoRSVPCheckin (CheckInRSVP now s rsvpID).2 rsvpID).2.members = s.members ∧
    (UndoRSVPCheckin (CheckInRSVP now s rsvpID).2 rsvpID).2.hikes = s.hikes ∧
    (UndoRSVPCheckin (CheckInRSVP now s rsvpID).2 rsvpID).2.activities = s.activities := by
  have hrid : r.id = rsvpID := by
    have hp : decide (r.id = rsvpID) = true :=
      @List.find?_some _ (fun x => decide (x.id = rsvpID)) r s.rsvps hfind
    simpa using hp
  cases hmid : r.member_id with
  | some memberID =>
    obtain ⟨hh, hm, hno⟩ := hmember memberID hmid
    have hrun : CheckInRSVP now s rsvpID =
        execInsertOrIgnoreCheckin now s r.hike_id memberID := by
      simp only [CheckInRSVP, hfind, hmid]
    rw [hrun, execInsertOrIgnoreCheckin_absent now s _ _ hno hh hm]
    have hnone : s.checkins.filter
        (fun x => decide (x.hike_id = r.hike_id ∧ x.member_id = memberID)) = [] := by
      rw [List.filter_eq_nil_iff]
      intro x hx hp
      exact hno ⟨x, hx, by simpa using hp⟩
    have hall : s.checkins.filter
        (fun x => !decide (x.hike_id = r.hike_id ∧ x.member_id = memberID)) = s.checkins := by
      rw [List.filter_eq_self]
      intro x hx
      have : ¬ (x.hike_id = r.hike_id ∧ x.member_id = memberID) := fun hp => hno ⟨x, hx, hp⟩
      simp [this]
    have hparts : s.activity_participants.filter
        (fun p => match p.checkin_id with
          | some c => !(s.foreign_keys &&
              decide (c ∈ [nextRowid (s.checkins.map (·.id)) s.seq_checkins]))
          | none => true) = s.activity_participants := by
      rw [List.filter_eq_self]
      intro p hp
      cases hc : p.checkin_id with
      | none => rfl
      | some c =>
        obtain ⟨x, hx, hxc⟩ := hpart p hp c hc
        have := nextRowid_gt (s.checkins.map (·.id)) s.seq_checkins x.id
          (List.mem_map.2 ⟨x, hx, rfl⟩)
        have hne : c ≠ nextRowid (s.checkins.map (·.id)) s.seq_checkins := by omega
        simp [hne]
    simp only [UndoRSVPCheckin, hfind, hmid, DeleteCheckin, List.filter_append, hnone, hall,
      List.filter_cons, List.filter_nil, and_self, decide_True, Bool.not_true, if_true,
      if_false, List.map_cons, List.map_nil, List.nil_append, List.append_nil, hparts,
      Bool.false_eq_true, and_true]
  | none =>
    have hclear := hguest hmid
    have hrun : CheckInRSVP now s rsvpID =
        (.ok (), { s with rsvps := (s.rsvps.map
          (fun x => if x.id = rsvpID then { x with checked_in_at := some now } else x)) }) := by
      simp only [CheckInRSVP, hfind, hmid]
    rw [hrun]
    have hcomp : ((fun x : RsvpRow => decide (x.id = rsvpID)) ∘
        (fun x : RsvpRow => if x.id = rsvpID then { x with checked_in_at := some now } else x)) =
        (fun x : RsvpRow => decide (x.id = rsvpID)) := by
      funext x
      by_cases hx : x.id = rsvpID <;> simp [hx]
    have hback : (s.rsvps.map
        (fun x => if x.id = rsvpID then { x with checked_in_at := some now } else x)).map
        (fun x => if x.id = rsvpID then { x with checked_in_at := none } else x) = s.rsvps := by
      rw [List.map_map]
      conv_rhs => rw [← List.map_id s.rsvps]
      apply List.map_congr_left
      intro x hx
      by_cases hxid : x.id = rsvpID
      · have := hclear x hx hxid
        cases x
        simp_all
      · simp [hxid]
    simp only [UndoRSVPCheckin, List.find?_map, hcomp, hfind, Option.map_some', hrid, if_true,
      hmid, hback, and_self]

/-- Witness of C3 (amended): RSVP 1 of `storeJaneRsvp` is Jane's and she has no
Checkin yet; check-in then undo succeed and leave the `checkins`, `rsvps` and
`activity_participants` rows as they were. -/
theorem CheckInRSVP_Undo_roundtrip_witness :
    storeJaneRsvp.rsvps.find? (fun x => decide (x.id = 1)) = some janeRsvp ∧
    storeJaneRsvp.checkins = [] ∧
    (CheckInRSVP 5 storeJaneRsvp 1).1 = .ok () ∧
    (CheckInRSVP 5 storeJaneRsvp 1).2.checkins ≠ [] ∧
    (UndoRSVPCheckin (CheckInRSVP 5 storeJaneRsvp 1).2 1).1 = .ok () ∧
    (UndoRSVPCheckin (CheckInRSVP 5 storeJaneRsvp 1).2 1).2.checkins = storeJaneRsvp.checkins ∧
    (UndoRSVPCheckin (CheckInRSVP 5 storeJaneRsvp 1).2 1).2.rsvps = storeJaneRsvp.rsvps ∧
    (UndoRSVPCheckin (CheckInRSVP 5 storeJaneRsvp 1).2 1).2.activity_participants =
      storeJaneRsvp.activity_participants := by
  have h := CheckInRSVP_Undo_roundtrip 5 storeJaneRsvp 1 janeRsvp (by decide)
    (by
      intro memberID hm
      have h1 : memberID = 1 := by
        simp only [janeRsvp, Option.some.injEq] at hm
        exact hm.symm
      subst h1
      decide)
    (by
      intro hm
      simp [janeRsvp] at hm)
    (by
      intro p hp
      have h0 : storeJaneRsvp.activity_participants = [] := by decide
      rw [h0] at hp
      simp at hp)
  exact ⟨by decide, by decide, h.1, by decide, h.2.1, h.2.2.1, h.2.2.2.1, h.2.2.2.2.1⟩

/-! ## Theorems on the attendee view -/

/-- Where `CreateCheckin` is idempotent: when the member exists, the hike exists
and the pair has no `checkins` row yet, the call and the call repeated right after
it both succeed with the same `Checkin`, and one row of the pair is in the table. -/
theorem CreateCheckin_twice_when_absent (now now2 : Nat) (s : Store) (hikeID : Int)
    (num : String) (row : MemberRow)
    (hrow : s.members.find? (fun m => decide (m.membership_number = num)) = some row)
    (hh : s.hikes.any (fun x => decide (x.id = hikeID)) = true)
    (hno : ¬ ∃ c ∈ s.checkins, c.hike_id = hikeID ∧ c.member_id = row.id) :
    ∃ c, (CreateCheckin now s hikeID num).1 = .ok c ∧
      (CreateCheckin now2 (CreateCheckin now s hikeID num).2 hikeID num).1 = .ok c ∧
      ((CreateCheckin now2 (CreateCheckin now s hikeID num).2 hikeID num).2.checkins.filter
        (fun x => decide (x.hike_id = hikeID ∧ x.member_id = row.id))).length = 1 := by
  have hm : s.members.any (fun x => decide (x.id = row.id)) = true := by
    rw [List.any_eq_true]
    exact ⟨row, List.mem_of_find?_eq_some hrow, by simp⟩
  have hget : GetMemberByMembershipNumber s num = .ok (scanMember row) := by
    simp only [GetMemberByMembershipNumber, hrow]
  have hid : (scanMember row).ID = row.id := rfl
  have hins := execInsertOrIgnoreCheckin_absent now s hikeID row.id hno hh hm
  have hfresh : ∀ x ∈ s.checkins, x.id ≠ nextRowid (s.checkins.map (·.id)) s.seq_checkins := by
    intro x hx heq
    have := nextRowid_gt (s.checkins.map (·.id)) s.seq_checkins x.id
      (List.mem_map.2 ⟨x, hx, rfl⟩)
    omega
  generalize nextRowid (s.checkins.map (·.id)) s.seq_checkins = n at hins hfresh
  obtain ⟨c0, hc0⟩ : ∃ c0 : CheckinRow, c0 =
      { id := n, hike_id := hikeID, member_id := row.id, checked_in_at := now,
        synced := true, is_leader := false, is_sweeper := false } := ⟨_, rfl⟩
  rw [← hc0] at hins
  have hc0id : c0.id = n := by rw [hc0]
  have hc0pair : c0.hike_id = hikeID ∧ c0.member_id = row.id := by rw [hc0]; exact ⟨rfl, rfl⟩
  have hfilter : (s.checkins ++ [c0]).filter
      (fun x => decide (x.hike_id = hikeID ∧ x.member_id = row.id)) = [c0] := by
    have hnone : s.checkins.filter
        (fun x => decide (x.hike_id = hikeID ∧ x.member_id = row.id)) = [] := by
      rw [List.filter_eq_nil_iff]
      intro x hx hp
      exact hno ⟨x, hx, of_decide_eq_true hp⟩
    rw [List.filter_append, hnone, List.nil_append, List.filter_cons,
      if_pos (decide_eq_true hc0pair), List.filter_nil]
  have hfindPair : (s.checkins ++ [c0]).find?
      (fun x => decide (x.hike_id = hikeID ∧ x.member_id = row.id)) = some c0 := by
    have hnone : s.checkins.find?
        (fun x => decide (x.hike_id = hikeID ∧ x.member_id = row.id)) = none := by
      rw [List.find?_eq_none]
      intro x hx hp
      exact hno ⟨x, hx, of_decide_eq_true hp⟩
    rw [List.find?_append, hnone, Option.none_or, List.find?_cons_of_pos]
    exact decide_eq_true hc0pair
  have hfindId : (s.checkins ++ [c0]).find? (fun x => decide (x.id = n)) = some c0 := by
    have hnone : s.checkins.find? (fun x => decide (x.id = n)) = none := by
      rw [List.find?_eq_none]
      intro x hx hp
      exact hfresh x hx (of_decide_eq_true hp)
    rw [List.find?_append, hnone, Option.none_or, List.find?_cons_of_pos]
    exact decide_eq_true hc0id
  have hex : ∃ c ∈ s.checkins ++ [c0], c.hike_id = hikeID ∧ c.member_id = row.id :=
    ⟨c0, List.mem_append_right _ (List.mem_singleton_self _), hc0pair⟩
  have hfirst : CreateCheckin now s hikeID num =
      (.ok (scanCheckin c0 (scanMember row)),
        { s with checkins := s.checkins ++ [c0], seq_checkins := n, lastInsertRowid := n }) := by
    simp only [CreateCheckin, hget, hid, hins]
    by_cases h0 : n = 0
    · rw [if_pos h0, hfindPair]
    · rw [if_neg h0, hfindId]
  have hsecond : ∃ s2, CreateCheckin now2
      { s with checkins := s.checkins ++ [c0], seq_checkins := n, lastInsertRowid := n }
      hikeID num = (.ok (scanCheckin c0 (scanMember row)), s2) ∧
      s2.checkins = s.checkins ++ [c0] := by
    simp only [CreateCheckin, GetMemberByMembershipNumber, hrow, hid]
    rw [execInsertOrIgnoreCheckin_present now2 _ _ _ hex]
    simp only
    by_cases h0 : n = 0
    · rw [if_pos h0, hfindPair]
      exact ⟨_, rfl, rfl⟩
    · rw [if_neg h0, hfindId]
      exact ⟨_, rfl, rfl⟩
  rw [hfirst]
  obtain ⟨s2, h2, hc2⟩ := hsecond
  simp only [h2]
  exact ⟨_, rfl, rfl, by rw [hc2, hfilter]; rfl⟩

/-- C1, the code at the failing input: in `storeRecheck` member "TC-001" exists and
is checked in on hike 1 (Checkin 1), and the connection's last insert was member
2. `CreateCheckin(1, "TC-001")` skips the insert, reads `LastInsertId() = 2`,
looks for Checkin 2 and fails with `sql.ErrNoRows`; so does the call repeated
right after it. The first check-in of the same member had succeeded. The failing
call changes no row; only the `sqlite_sequence` counter of `checkins` moves on. -/
theorem CreateCheckin_stale_LastInsertId :
    (CreateCheckin 3 storeJaneHike 1 "TC-001").1 =
      .ok { ID := 1, HikeID := 1, MemberID := 1, CheckedInAt := 3, Synced := true,
            IsLeader := false, IsSweeper := false, MemberName := "Jane Smith",
            MembershipNumber := "TC-001" } ∧
    GetMemberByMembershipNumber storeRecheck "TC-001" = .ok janeMember ∧
    storeRecheck.lastInsertRowid = 2 ∧
    (CreateCheckin 5 storeRecheck 1 "TC-001").1 = .error .ErrNoRows ∧
    (CreateCheckin 6 (CreateCheckin 5 storeRecheck 1 "TC-001").2 1 "TC-001").1 =
      .error .ErrNoRows ∧
    (CreateCheckin 5 storeRecheck 1 "TC-001").2 = { storeRecheck with seq_checkins := 2 } := by
  decide

/-- C2, the code at the failing input: on hike 1 of `storeJaneHike` (RSVPs open) the
guest RSVP ("Jan", "Doe") and the member RSVP ("Jane", "Smith") are each submitted
twice. The second submission adds no row, and its answer is `Success = true`
again, not the "already registered" failure. -/
theorem submitRSVP_duplicate_reports_success :
    (submitRSVP Char.toLower 4 storeGuestRsvp
        (some { FirstName := "Jan", LastName := "Doe" }) 1).1 =
      .json { Success := true, Message := "RSVP confirmed as guest", MatchedName := "Jan Doe",
              MemberNumber := "", IsGuest := true } ∧
    (submitRSVP Char.toLower 4 storeGuestRsvp
        (some { FirstName := "Jan", LastName := "Doe" }) 1).2.rsvps = [guestRsvp] ∧
    (submitRSVP Char.toLower 4 storeJaneRsvp
        (some { FirstName := "Jane", LastName := "Smith" }) 1).1 =
      .json { Success := true, Message := "RSVP confirmed!", MatchedName := "Jane Smith",
              MemberNumber := "TC-001", IsGuest := false } ∧
    (submitRSVP Char.toLower 4 storeJaneRsvp
        (some { FirstName := "Jane", LastName := "Smith" }) 1).2.rsvps = [janeRsvp] := by
  decide

/-! ## Theorems on `GetActivityParticipants` -/

/-- C11, the code at the failing input: in `storeRsvpParticipant` the only
participant of activity 1 is linked through `rsvp_id` to Jane's member-linked
RSVP 1. The query takes the name from `m` (the member of the check-in link) and
from `r.guest_name` only, both `NULL` here, and `Scan` of that `NULL` into
`p.Name` fails: `GetActivityParticipants` returns an error instead of the row with
Jane's name and number. The check-in link and the guest link are listed as the
claim says. -/
theorem GetActivityParticipants_member_rsvp_fails :
    storeRsvpParticipant.activity_participants =
      [{ id := 1, activity_id := 1, checkin_id := none, rsvp_id := some 1, created_at := 6 }] ∧
    storeRsvpParticipant.rsvps.find? (fun r => decide (r.id = 1)) = some janeRsvp ∧
    GetActivityParticipants storeRsvpParticipant 1 =
      .error (.scan "converting NULL to string is unsupported") ∧
    GetActivityParticipants storeCheckinParticipant 1 =
      .ok [{ ID := 1, ActivityID := 1, CheckinID := some 1, RSVPID := none,
             Name := "Jane Smith", MembershipNumber := "TC-001", IsGuest := false }] ∧
    GetActivityParticipants storeGuestParticipant 1 =
      .ok [{ ID := 1, ActivityID := 1, CheckinID := none, RSVPID := some 1,
             Name := "Jan Doe", MembershipNumber := "", IsGuest := true }] := by
  decide

/-! ## Lemmas on scores -/

theorem countEq_le_min (xs ys : List Char) : countEq xs ys ≤ min xs.length ys.length := by
  induction xs generalizing ys with
  | nil => simp [countEq]
  | cons x xs ih =>
    cases ys with
    | nil => simp [countEq]
    | cons y ys =>
      have := ih ys
      simp only [countEq, List.length_cons]
      split <;> omega

/-- The score of `similarity` lies between 0 and 100. -/
theorem similarity_bounds (a b : String) : 0 ≤ similarity a b ∧ similarity a b ≤ 100 := by
  by_cases hab : a = b
  · simp [similarity, hab]
  · by_cases he : a = "" ∨ b = ""
    · have he2 : len a = 0 ∨ len b = 0 := by
        rcases he with h | h
        · exact Or.inl ((len_eq_zero_iff a).2 h)
        · exact Or.inr ((len_eq_zero_iff b).2 h)
      simp [similarity, hab, he2]
    · have ha : a ≠ "" := fun h => he (Or.inl h)
      have hb : b ≠ "" := fun h => he (Or.inr h)
      rw [similarity_of_ne a b hab ha hb, matchingPositions_eq]
      have h1 := countEq_le_min a.data b.data
      have h2 : 100 * countEq a.data b.data / max a.length b.length ≤ 100 := by
        apply Nat.div_le_of_le_mul
        simp only [String.length]
        have : countEq a.data b.data ≤ max a.data.length b.data.length := by omega
        calc 100 * countEq a.data b.data ≤ 100 * max a.data.length b.data.length :=
              Nat.mul_le_mul_left _ this
          _ = max a.data.length b.data.length * 100 := Nat.mul_comm _ _
      constructor
      · exact Int.natCast_nonneg _
      · exact_mod_cast h2

/-- The division of `similarity` is never by zero. -/
theorem similarityChecked_eq (a b : String) : similarityChecked a b = some (similarity a b) := by
  unfold similarityChecked similarity
  by_cases hab : a = b
  · simp [hab]
  · by_cases he : len a = 0 ∨ len b = 0
    · simp [hab, he]
    · have ha : a.data ≠ [] := by
        intro h
        apply he
        left
        rw [len_eq_zero_iff]
        cases a
        simp_all
      have hb : b.data ≠ [] := by
        intro h
        apply he
        right
        rw [len_eq_zero_iff]
        cases b
        simp_all
      have hla : 0 < a.data.length := List.length_pos.2 ha
      have hlb : 0 < b.data.length := List.length_pos.2 hb
      simp only [hab, he, if_false]
      by_cases hlen : a.data.length > b.data.length
      · simp only [hlen, if_true]
        rw [if_neg (by omega)]
      · simp only [hlen, if_false]
        rw [if_neg (by omega)]

theorem memberScore_bounds (lower : Char → Char) (fn ln : String) (m : Member) :
    0 ≤ memberScore lower fn ln m ∧ memberScore lower fn ln m ≤ 100 := by
  unfold memberScore
  split
  · omega
  · exact similarity_bounds _ _

/-- What the loop of `FuzzyMatchMember` returns from the state `(best, bs)`: a score
at least `bs` and at least the score of every member visited; and either the
state it started from, or a visited member whose score is the returned one. -/
theorem fuzzyLoop_spec (lower : Char → Char) (fn ln : String) (members : List Member)
    (best : Option Member) (bs : Int) (hbs : bs ≤ 100) :
    bs ≤ (fuzzyLoop lower fn ln (fn ++ " " ++ ln) members best bs).2 ∧
    (fuzzyLoop lower fn ln (fn ++ " " ++ ln) members best bs).2 ≤ 100 ∧
    (∀ m ∈ members,
      memberScore lower fn ln m ≤ (fuzzyLoop lower fn ln (fn ++ " " ++ ln) members best bs).2) ∧
    (fuzzyLoop lower fn ln (fn ++ " " ++ ln) members best bs = (best, bs) ∨
      ∃ m ∈ members,
        (fuzzyLoop lower fn ln (fn ++ " " ++ ln) members best bs).1 = some m ∧
        memberScore lower fn ln m = (fuzzyLoop lower fn ln (fn ++ " " ++ ln) members best bs).2 ∧
        (bs < (fuzzyLoop lower fn ln (fn ++ " " ++ ln) members best bs).2 ∨
          (fuzzyLoop lower fn ln (fn ++ " " ++ ln) members best bs).2 = 100)) := by
  induction members generalizing best bs with
  | nil => simp [fuzzyLoop, hbs]
  | cons x rest ih =>
    have hx := memberScore_bounds lower fn ln x
    by_cases hex : ToLower lower x.FirstName = fn ∧ ToLower lower x.LastName = ln
    · have hsx : memberScore lower fn ln x = 100 := by simp [memberScore, hex]
      have hrun : fuzzyLoop lower fn ln (fn ++ " " ++ ln) (x :: rest) best bs = (some x, 100) := by
        simp [fuzzyLoop, hex]
      rw [hrun]
      refine ⟨hbs, le_refl _, ?_, Or.inr ⟨x, List.mem_cons_self _ _, rfl, hsx, Or.inr rfl⟩⟩
      intro m _
      exact (memberScore_bounds lower fn ln m).2
    · have hsx : memberScore lower fn ln x =
          similarity (fn ++ " " ++ ln)
            (ToLower lower x.FirstName ++ " " ++ ToLower lower x.LastName) := by
        simp [memberScore, hex]
      by_cases hgt : memberScore lower fn ln x > bs
      · have hrun : fuzzyLoop lower fn ln (fn ++ " " ++ ln) (x :: rest) best bs =
            fuzzyLoop lower fn ln (fn ++ " " ++ ln) rest (some x) (memberScore lower fn ln x) := by
          rw [hsx] at hgt ⊢
          simp [fuzzyLoop, hex, hgt]
        rw [hrun]
        obtain ⟨h1, h2, h3, h4⟩ := ih (some x) (memberScore lower fn ln x) hx.2
        refine ⟨by omega, h2, ?_, ?_⟩
        · intro m hm
          rcases List.mem_cons.1 hm with rfl | hm'
          · exact h1
          · exact h3 m hm'
        · right
          rcases h4 with h4 | ⟨m, hm, hres, hsc, hlt⟩
          · refine ⟨x, List.mem_cons_self _ _, ?_, ?_, Or.inl ?_⟩
            · rw [h4]
            · rw [h4]
            · rw [h4]; exact hgt
          · refine ⟨m, List.mem_cons_of_mem _ hm, hres, hsc, ?_⟩
            rcases hlt with hlt | hlt
            · left; omega
            · right; exact hlt
      · have hrun : fuzzyLoop lower fn ln (fn ++ " " ++ ln) (x :: rest) best bs =
            fuzzyLoop lower fn ln (fn ++ " " ++ ln) rest best bs := by
          rw [hsx] at hgt
          simp [fuzzyLoop, hex, hgt]
        rw [hrun]
        obtain ⟨h1, h2, h3, h4⟩ := ih best bs hbs
        refine ⟨h1, h2, ?_, ?_⟩
        · intro m hm
          rcases List.mem_cons.1 hm with rfl | hm'
          · omega
          · exact h3 m hm'
        · rcases h4 with h4 | ⟨m, hm, hres, hsc, hlt⟩
          · exact Or.inl h4
          · exact Or.inr ⟨m, List.mem_cons_of_mem _ hm, hres, hsc, hlt⟩
theorem ToLower_congr (f g : Char → Char) (s : String) (h : ∀ c ∈ s.data, f c = g c) :
    ToLower f s = ToLower g s := by
  unfold ToLower
  rw [List.map_congr_left h]

/-! ## Theorems on the scores of `FuzzyMatchMember` -/

/-- C16, amended: for every active roster and every query, the score returned by
`FuzzyMatchMember` is the highest score over all roster members (100 for an exact
match, otherwise `similarity` of the normalized "first last" strings): no member
scores higher and, on a non-empty roster, some member scores exactly that; it is 0
on an empty roster. When it is positive the returned member is a member of the
roster whose score is the returned score, and when it is 0 no member is
returned. -/
theorem FuzzyMatchMember_best (lower : Char → Char) (s : Store) (first last : String)
    (roster : List Member) (hroster : GetAllMembers s true = .ok roster) :
    (∀ m ∈ roster,
      memberScore lower (ToLower lower (TrimSpace first)) (ToLower lower (TrimSpace last)) m ≤
        (FuzzyMatchMember lower s first last).2) ∧
    (0 < (FuzzyMatchMember lower s first last).2 →
      ∃ m ∈ roster, (FuzzyMatchMember lower s first last).1 = some m ∧
        memberScore lower (ToLower lower (TrimSpace first)) (ToLower lower (TrimSpace last)) m =
          (FuzzyMatchMember lower s first last).2) ∧
    ((FuzzyMatchMember lower s first last).2 = 0 →
      (FuzzyMatchMember lower s first last).1 = none) ∧
    (roster ≠ [] → ∃ m ∈ roster,
      memberScore lower (ToLower lower (TrimSpace first)) (ToLower lower (TrimSpace last)) m =
        (FuzzyMatchMember lower s first last).2) ∧
    (roster = [] → (FuzzyMatchMember lower s first last).2 = 0) := by
  by_cases hlen : roster.length = 0
  · have hnil : roster = [] := List.length_eq_zero.1 hlen
    simp [FuzzyMatchMember, hroster, hnil]
  · have hrun : FuzzyMatchMember lower s first last =
        fuzzyLoop lower (ToLower lower (TrimSpace first)) (ToLower lower (TrimSpace last))
          (ToLower lower (TrimSpace first) ++ " " ++ ToLower lower (TrimSpace last))
          roster none 0 := by
      simp only [FuzzyMatchMember, hroster, hlen, if_false]
    rw [hrun]
    obtain ⟨h1, _, h3, h4⟩ := fuzzyLoop_spec lower (ToLower lower (TrimSpace first))
      (ToLower lower (TrimSpace last)) roster none 0 (by omega)
    refine ⟨h3, ?_, ?_, ?_, ?_⟩
    · intro hpos
      rcases h4 with h4 | ⟨m, hm, hres, hsc, _⟩
      · rw [h4] at hpos
        simp at hpos
      · exact ⟨m, hm, hres, hsc⟩
    · intro h0
      rcases h4 with h4 | ⟨m, hm, hres, hsc, hlt⟩
      · rw [h4]
      · omega
    · intro _
      rcases h4 with h4 | ⟨m, hm, _, hsc, _⟩
      · obtain ⟨m, hm⟩ := List.exists_mem_of_length_pos (Nat.pos_of_ne_zero hlen)
        refine ⟨m, hm, ?_⟩
        have hle := h3 m hm
        have hge := (memberScore_bounds lower (ToLower lower (TrimSpace first))
          (ToLower lower (TrimSpace last)) m).1
        rw [h4] at hle ⊢
        simp only at hle ⊢
        omega
      · exact ⟨m, hm, hsc⟩
    · intro hnil
      rw [hnil] at hlen
      simp at hlen

/-- Witness of C16 (amended): against the roster holding "Jane Smith" the query
("Jan", "Smyth") has a positive score and returns a roster member with that score. -/
theorem FuzzyMatchMember_best_witness :
    GetAllMembers storeJaneHike true = .ok [janeMember] ∧
    0 < (FuzzyMatchMember Char.toLower storeJaneHike "Jan" "Smyth").2 ∧
    ∃ m ∈ [janeMember], (FuzzyMatchMember Char.toLower storeJaneHike "Jan" "Smyth").1 = some m ∧
      memberScore Char.toLower (ToLower Char.toLower (TrimSpace "Jan"))
          (ToLower Char.toLower (TrimSpace "Smyth")) m =
        (FuzzyMatchMember Char.toLower storeJaneHike "Jan" "Smyth").2 :=
  ⟨by decide, by decide,
    (FuzzyMatchMember_best Char.toLower storeJaneHike "Jan" "Smyth" [janeMember]
      (by decide)).2.1 (by decide)⟩

/-- C16, counterexample: the active roster of `storeJaneHike` is not empty (it holds
"Jane Smith"), yet the query ("Xx", "Yy"), which matches her name at no position,
returns no member, with score 0. -/
theorem FuzzyMatchMember_no_member :
    GetAllMembers storeJaneHike true = .ok [janeMember] ∧
    FuzzyMatchMember Char.toLower storeJaneHike "Xx" "Yy" = (none, 0) := by
  decide

/-- C18: for every roster and every query the score returned by `FuzzyMatchMember`
lies between 0 and 100, and the division in `similarity` is never by zero: the
variant of `similarity` that stops at a zero divisor always returns the value of
`similarity`. -/
theorem FuzzyMatchMember_score_bounds (lower : Char → Char) (s : Store) (first last : String) :
    0 ≤ (FuzzyMatchMember lower s first last).2 ∧
    (FuzzyMatchMember lower s first last).2 ≤ 100 ∧
    ∀ a b, similarityChecked a b = some (similarity a b) := by
  refine ⟨?_, ?_, similarityChecked_eq⟩
  · obtain ⟨roster, hr⟩ := GetAllMembers_ok s true
    simp only [FuzzyMatchMember, hr]
    split
    · simp
    · exact (fuzzyLoop_spec lower _ _ roster none 0 (by omega)).1
  · obtain ⟨roster, hr⟩ := GetAllMembers_ok s true
    simp only [FuzzyMatchMember, hr]
    split
    · simp
    · exact (fuzzyLoop_spec lower _ _ roster none 0 (by omega)).2.1

/-- C17: with the active roster holding only "Jane Smith" and the query
("Jan", "Smyth"), `FuzzyMatchMember` returns Jane Smith with score exactly 30
(3 matching positions of "jan smyth" against "jane smith", times 100, divided by
10), and `submitRSVP` registers the guest "Jan Smyth". This holds for every case
mapping that lower-cases the letters of the two names as ASCII does. -/
theorem FuzzyMatchMember_jan_smyth (lower : Char → Char) (now : Nat)
    (hl : ∀ c ∈ "JaneSmithy".data, lower c = c.toLower) :
    GetAllMembers storeJaneHike true = .ok [janeMember] ∧
    matchingPositions "jan smyth" "jane smith" = 3 ∧
    FuzzyMatchMember lower storeJaneHike "Jan" "Smyth" = (some janeMember, 30) ∧
    (submitRSVP lower now storeJaneHike (some { FirstName := "Jan", LastName := "Smyth" }) 1).1 =
      .json { Success := true, Message := "RSVP confirmed as guest", MatchedName := "Jan Smyth",
              MemberNumber := "", IsGuest := true } ∧
    (submitRSVP lower now storeJaneHike
        (some { FirstName := "Jan", LastName := "Smyth" }) 1).2.rsvps =
      [{ id := 1, hike_id := 1, member_id := none, guest_name := some "Jan Smyth",
         created_at := now, checked_in_at := none }] := by
  have hroster : GetAllMembers storeJaneHike true = .ok [janeMember] := by decide
  have low : ∀ s : String, (∀ c ∈ s.data, c ∈ "JaneSmithy".data) →
      ToLower lower s = ToLower Char.toLower s :=
    fun s hs => ToLower_congr lower Char.toLower s (fun c hc => hl c (hs c hc))
  have e1 : ToLower lower "Jane" = "jane" := by rw [low _ (by decide)]; decide
  have e2 : ToLower lower "Smith" = "smith" := by rw [low _ (by decide)]; decide
  have e3 : TrimSpace "Jan" = "Jan" := by decide
  have e4 : TrimSpace "Smyth" = "Smyth" := by decide
  have e5 : ToLower lower "Jan" = "jan" := by rw [low _ (by decide)]; decide
  have e6 : ToLower lower "Smyth" = "smyth" := by rw [low _ (by decide)]; decide
  have hfm : FuzzyMatchMember lower storeJaneHike "Jan" "Smyth" = (some janeMember, 30) := by
    simp only [FuzzyMatchMember, hroster, fuzzyLoop, janeMember, e1, e2, e3, e4, e5, e6]
    decide
  have hbranch := submitRSVP_guest_branch lower now storeJaneHike
    { FirstName := "Jan", LastName := "Smyth" } 1
    { id := 1, name := "Summit", date := "2024-05-01", location := some "",
      notes := some "", status := "open", rsvp_open := true, created_at := 2 }
    (by decide) rfl (by decide) (by decide) (some janeMember) 30 hfm (by decide)
  refine ⟨hroster, by decide, hfm, ?_, ?_⟩
  · rw [hbranch]
    simp only [e3, e4]
    decide
  · rw [hbranch]
    simp only [e3, e4]
    have hr : storeJaneHike.rsvps = [] := by decide
    have hh : storeJaneHike.hikes.any (fun h => decide (h.id = 1)) = true := by decide
    simp [CreateRSVPForGuest, hr, hh, nextRowid]
    decide

/-- Witness of C17: the ASCII case mapping. -/
theorem FuzzyMatchMember_jan_smyth_witness :
    FuzzyMatchMember Char.toLower storeJaneHike "Jan" "Smyth" = (some janeMember, 30) :=
  (FuzzyMatchMember_jan_smyth Char.toLower 3 (fun _ _ => rfl)).2.2.1

/-! ## Lemmas on `TrimSpace` -/

theorem dropWhile_append_of_all {α : Type} (p : α → Bool) (w x : List α)
    (hw : ∀ c ∈ w, p c = true) : (w ++ x).dropWhile p = x.dropWhile p := by
  induction w with
  | nil => rfl
  | cons a w ih =>
    have ha : p a = true := hw a (List.mem_cons_self _ _)
    simp only [List.cons_append, List.dropWhile_cons, ha, if_true]
    exact ih (fun c hc => hw c (List.mem_cons_of_mem _ hc))

theorem rdropWhile_append_of_all {α : Type} (p : α → Bool) (x w : List α)
    (hw : ∀ c ∈ w, p c = true) : (x ++ w).rdropWhile p = x.rdropWhile p := by
  unfold List.rdropWhile
  rw [List.reverse_append, dropWhile_append_of_all p _ _ (fun c hc => hw c (List.mem_reverse.1 hc))]

theorem rdropWhile_eq_nil_of_all {α : Type} (p : α → Bool) (w : List α)
    (hw : ∀ c ∈ w, p c = true) : w.rdropWhile p = [] := by
  have := rdropWhile_append_of_all p [] w hw
  simpa using this

theorem GetAttendeesForHike_mem (s : Store) (hikeID : Int) (l : List Member)
    (hl : GetAttendeesForHike s hikeID = .ok l) (m : Member) :
    m ∈ l ↔ ∃ c ∈ s.checkins, c.hike_id = hikeID ∧
      ∃ row ∈ s.members, row.id = c.member_id ∧ scanMember row = m := by
  simp only [GetAttendeesForHike, Except.ok.injEq] at hl
  subst hl
  simp only [List.mem_map, List.mem_insertionSort, List.mem_flatMap, List.mem_filter,
    decide_eq_true_eq, Prod.exists]
  constructor
  · rintro ⟨c, row, ⟨c', ⟨hc, hh⟩, row', ⟨hrow, hid⟩, heq⟩, hscan⟩
    simp only [Prod.mk.injEq] at heq
    obtain ⟨rfl, rfl⟩ := heq
    exact ⟨c', hc, hh, row', hrow, hid, hscan⟩
  · rintro ⟨c, hc, hh, row, hrow, hid, hscan⟩
    exact ⟨c, row, ⟨c, ⟨hc, hh⟩, row, ⟨hrow, hid⟩, rfl⟩, hscan⟩

theorem GetAttendeesForHike_congr (s s1 : Store) (hikeID : Int)
    (hc : s1.checkins = s.checkins) (hm : s1.members = s.members) :
    GetAttendeesForHike s1 hikeID = GetAttendeesForHike s hikeID := by
  simp only [GetAttendeesForHike, hc, hm]

/-- The undo of a member check-in that inserted a row: the `checkins` rows are
those from before the check-in, and `members` is untouched. -/
theorem Undo_after_insert (now : Nat) (s : Store) (rsvpID : Int) (r : RsvpRow) (memberID : Int)
    (hfind : s.rsvps.find? (fun x => decide (x.id = rsvpID)) = some r)
    (hmem : r.member_id = some memberID)
    (hh : s.hikes.any (fun x => decide (x.id = r.hike_id)) = true)
    (hm : s.members.any (fun x => decide (x.id = memberID)) = true)
    (hno : ¬ ∃ c ∈ s.checkins, c.hike_id = r.hike_id ∧ c.member_id = memberID) :
    (UndoRSVPCheckin (CheckInRSVP now s rsvpID).2 rsvpID).1 = .ok () ∧
    (UndoRSVPCheckin (CheckInRSVP now s rsvpID).2 rsvpID).2.checkins = s.checkins ∧
    (UndoRSVPCheckin (CheckInRSVP now s rsvpID).2 rsvpID).2.members = s.members := by
  have hrun : CheckInRSVP now s rsvpID =
      execInsertOrIgnoreCheckin now s r.hike_id memberID := by
    simp only [CheckInRSVP, hfind, hmem]
  rw [hrun, execInsertOrIgnoreCheckin_absent now s _ _ hno hh hm]
  have hall : s.checkins.filter
      (fun x => !decide (x.hike_id = r.hike_id ∧ x.member_id = memberID)) = s.checkins := by
    rw [List.filter_eq_self]
    intro x hx
    have : ¬ (x.hike_id = r.hike_id ∧ x.member_id = memberID) := fun hp => hno ⟨x, hx, hp⟩
    simp [this]
  simp only [UndoRSVPCheckin, hfind, hmem, DeleteCheckin, List.filter_append, hall,
    List.filter_cons, List.filter_nil, and_self, decide_True, Bool.not_true,
    if_false, List.append_nil, Bool.false_eq_true]

/-! ## Theorems on check-in, undo and the attendee list -/

/-- C19: for a member-linked RSVP (whose hike and member exist, as its foreign keys
require) whose member has no Checkin on the RSVP's hike: `CheckInRSVP` succeeds
and the member then appears in `GetAttendeesForHike(hike)`; a following
`UndoRSVPCheckin` succeeds and leaves the `checkins` rows exactly those from
before the check-in, so the attendee list of the hike is the one from before the
check-in (an empty one is empty again) and the member does not appear in it. -/
theorem CheckInRSVP_Undo_attendees (now : Nat) (s : Store) (rsvpID : Int) (r : RsvpRow)
    (memberID : Int)
    (hfind : s.rsvps.find? (fun x => decide (x.id = rsvpID)) = some r)
    (hmem : r.member_id = some memberID)
    (hh : s.hikes.any (fun x => decide (x.id = r.hike_id)) = true)
    (hm : s.members.any (fun x => decide (x.id = memberID)) = true)
    (hno : ¬ ∃ c ∈ s.checkins, c.hike_id = r.hike_id ∧ c.member_id = memberID) :
    (CheckInRSVP now s rsvpID).1 = .ok () ∧
    (∃ l, GetAttendeesForHike (CheckInRSVP now s rsvpID).2 r.hike_id = .ok l ∧
      ∃ m ∈ l, m.ID = memberID) ∧
    (UndoRSVPCheckin (CheckInRSVP now s rsvpID).2 rsvpID).1 = .ok () ∧
    (UndoRSVPCheckin (CheckInRSVP now s rsvpID).2 rsvpID).2.checkins = s.checkins ∧
    GetAttendeesForHike (UndoRSVPCheckin (CheckInRSVP now s rsvpID).2 rsvpID).2 r.hike_id =
      GetAttendeesForHike s r.hike_id ∧
    (∃ l, GetAttendeesForHike (UndoRSVPCheckin (CheckInRSVP now s rsvpID).2 rsvpID).2 r.hike_id =
        .ok l ∧ ∀ m ∈ l, m.ID ≠ memberID) := by
  obtain ⟨hu1, hu2, hu3⟩ := Undo_after_insert now s rsvpID r memberID hfind hmem hh hm hno
  have hcongr := GetAttendeesForHike_congr s _ r.hike_id hu2 hu3
  have hrun : CheckInRSVP now s rsvpID =
      execInsertOrIgnoreCheckin now s r.hike_id memberID := by
    simp only [CheckInRSVP, hfind, hmem]
  refine ⟨?_, ?_, hu1, hu2, hcongr, ?_⟩
  · rw [hrun, execInsertOrIgnoreCheckin_absent now s _ _ hno hh hm]
  · refine ⟨_, rfl, ?_⟩
    obtain ⟨row, hrow, hid⟩ := List.any_eq_true.1 hm
    refine ⟨scanMember row, ?_, by simpa [scanMember] using hid⟩
    rw [GetAttendeesForHike_mem _ _ _ rfl]
    rw [hrun, execInsertOrIgnoreCheckin_absent now s _ _ hno hh hm]
    refine ⟨_, List.mem_append_right _ (List.mem_singleton_self _), rfl, row, hrow, ?_, rfl⟩
    simpa using hid
  · rw [hcongr]
    refine ⟨_, rfl, ?_⟩
    intro m hml heq
    obtain ⟨c, hc, hch, row, _, hid, hscan⟩ := (GetAttendeesForHike_mem s _ _ rfl m).1 hml
    apply hno
    refine ⟨c, hc, hch, ?_⟩
    rw [← hid, ← heq, ← hscan]
    rfl

/-- Witness of C19: member "Jane Smith" ("TC-001"), whose RSVP 1 on hike 1 was
created by `submitRSVP("Jane", "Smith")`: the attendee list is empty, holds Jane
after the check-in, and is the empty list again after the undo. -/
theorem CheckInRSVP_Undo_attendees_witness :
    storeJaneRsvp.rsvps.find? (fun x => decide (x.id = 1)) = some janeRsvp ∧
    GetAttendeesForHike storeJaneRsvp 1 = .ok [] ∧
    GetAttendeesForHike (CheckInRSVP 5 storeJaneRsvp 1).2 1 = .ok [janeMember] ∧
    (∃ l, GetAttendeesForHike (CheckInRSVP 5 storeJaneRsvp 1).2 janeRsvp.hike_id = .ok l ∧
      ∃ m ∈ l, m.ID = 1) ∧
    GetAttendeesForHike (UndoRSVPCheckin (CheckInRSVP 5 storeJaneRsvp 1).2 1).2
        janeRsvp.hike_id =
      GetAttendeesForHike storeJaneRsvp janeRsvp.hike_id := by
  have h := CheckInRSVP_Undo_attendees 5 storeJaneRsvp 1 janeRsvp 1 (by decide) rfl
    (by decide) (by decide) (by decide)
  exact ⟨by decide, by decide, by decide, h.2.1, h.2.2.2.2.1⟩

/-! ## Lemmas on the steps of the operations -/

theorem HikesStep_same (hs : List HikeRow) : HikesStep hs hs :=
  ⟨id, [], by simp, fun _ => ⟨rfl, Or.inl rfl⟩⟩

theorem HikesStep_map (hs : List HikeRow) (f : HikeRow → HikeRow)
    (hf : ∀ h, (f h).id = h.id ∧ ((f h).status = h.status ∨ (f h).status = "closed")) :
    HikesStep hs (hs.map f) :=
  ⟨f, [], by simp, hf⟩

theorem TablesStep_frame (via : Bool) (s s1 : Store) (h1 : s1.hikes = s.hikes)
    (h2 : s1.checkins = s.checkins) (h3 : s1.rsvps = s.rsvps)
    (h4 : s1.activity_participants = s.activity_participants) : TablesStep via s s1 := by
  refine ⟨?_, Or.inl h2, Or.inl h3, fun _ => Or.inl h4⟩
  rw [h1]
  exact HikesStep_same _

theorem TablesStep_hikes (via : Bool) (s s1 : Store) (h1 : HikesStep s.hikes s1.hikes)
    (h2 : s1.checkins = s.checkins) (h3 : s1.rsvps = s.rsvps)
    (h4 : s1.activity_participants = s.activity_participants) : TablesStep via s s1 :=
  ⟨h1, Or.inl h2, Or.inl h3, fun _ => Or.inl h4⟩

theorem CreateMember_step (via : Bool) (now : Nat) (s : Store) (req : CreateMemberRequest) :
    TablesStep via s (CreateMember now s req).2 := by
  unfold CreateMember
  split <;> exact TablesStep_frame _ _ _ rfl rfl rfl rfl

theorem UpdateMember_step (via : Bool) (now : Nat) (s : Store) (id : Int)
    (req : UpdateMemberRequest) : TablesStep via s (UpdateMember now s id req).2 := by
  unfold UpdateMember
  split
  · exact TablesStep_frame _ _ _ rfl rfl rfl rfl
  · split <;> exact TablesStep_frame _ _ _ rfl rfl rfl rfl

theorem DeleteMember_step (via : Bool) (now : Nat) (s : Store) (id : Int) :
    TablesStep via s (DeleteMember now s id).2 :=
  TablesStep_frame _ _ _ rfl rfl rfl rfl

theorem CreateHike_step (via : Bool) (now : Nat) (s : Store) (req : CreateHikeRequest) :
    TablesStep via s (CreateHike now s req).2 := by
  refine TablesStep_hikes _ _ _ ?_ rfl rfl rfl
  exact ⟨id, _, by simp [CreateHike]; rfl, fun _ => ⟨rfl, Or.inl rfl⟩⟩

theorem UpdateHike_step (via : Bool) (s : Store) (id : Int) (req : UpdateHikeRequest) :
    TablesStep via s (UpdateHike s id req).2 := by
  unfold UpdateHike
  split
  · exact TablesStep_frame _ _ _ rfl rfl rfl rfl
  · refine TablesStep_hikes _ _ _ ?_ rfl rfl rfl
    refine HikesStep_map _ _ (fun h => ?_)
    split <;> exact ⟨rfl, Or.inl rfl⟩

theorem CloseHike_step (via : Bool) (s : Store) (id : Int) :
    TablesStep via s (CloseHike s id).2 := by
  refine TablesStep_hikes _ _ _ ?_ rfl rfl rfl
  refine HikesStep_map _ _ (fun h => ?_)
  split
  · exact ⟨rfl, Or.inr rfl⟩
  · exact ⟨rfl, Or.inl rfl⟩

theorem CloseRSVPs_step (via : Bool) (s : Store) (id : Int) :
    TablesStep via s (CloseRSVPs s id).2 := by
  refine TablesStep_hikes _ _ _ ?_ rfl rfl rfl
  refine HikesStep_map _ _ (fun h => ?_)
  split <;> exact ⟨rfl, Or.inl rfl⟩

theorem OpenRSVPs_step (via : Bool) (s : Store) (id : Int) :
    TablesStep via s (OpenRSVPs s id).2 := by
  refine TablesStep_hikes _ _ _ ?_ rfl rfl rfl
  refine HikesStep_map _ _ (fun h => ?_)
  split <;> exact ⟨rfl, Or.inl rfl⟩

theorem execInsertOrIgnoreCheckin_step (via : Bool) (now : Nat) (s : Store)
    (hikeID memberID : Int) :
    TablesStep via s (execInsertOrIgnoreCheckin now s hikeID memberID).2 := by
  unfold execInsertOrIgnoreCheckin
  split
  · exact TablesStep_frame _ _ _ rfl rfl rfl rfl
  · rename_i hany
    split
    · exact TablesStep_frame _ _ _ rfl rfl rfl rfl
    · refine ⟨HikesStep_same _, Or.inr (Or.inr (Or.inr ⟨_, ?_, rfl⟩)), Or.inl rfl,
        fun _ => Or.inl rfl⟩
      rintro ⟨c, hc, hp⟩
      apply hany
      rw [List.any_eq_true]
      exact ⟨c, hc, decide_eq_true hp⟩

theorem DeleteCheckin_step (via : Bool) (s : Store) (hikeID memberID : Int) :
    TablesStep via s (DeleteCheckin s hikeID memberID).2 :=
  ⟨HikesStep_same _, Or.inr (Or.inl ⟨_, rfl⟩), Or.inl rfl, fun _ => Or.inr (Or.inl ⟨_, rfl⟩)⟩

theorem UpdateCheckinRole_step (via : Bool) (s : Store) (id : Int) (role : String)
    (value : Bool) : TablesStep via s (UpdateCheckinRole s id role value).2 := by
  unfold UpdateCheckinRole
  split
  · refine ⟨HikesStep_same _, Or.inr (Or.inr (Or.inl ⟨_, rfl, fun x => ?_⟩)), Or.inl rfl,
      fun _ => Or.inl rfl⟩
    split <;> exact ⟨rfl, rfl⟩
  · split
    · refine ⟨HikesStep_same _, Or.inr (Or.inr (Or.inl ⟨_, rfl, fun x => ?_⟩)), Or.inl rfl,
        fun _ => Or.inl rfl⟩
      split <;> exact ⟨rfl, rfl⟩
    · exact TablesStep_frame _ _ _ rfl rfl rfl rfl

theorem CreateRSVPForMember_step (via : Bool) (now : Nat) (s : Store)
    (hikeID memberID : Int) :
    TablesStep via s (CreateRSVPForMember now s hikeID memberID).2 := by
  unfold CreateRSVPForMember
  split
  · exact TablesStep_frame _ _ _ rfl rfl rfl rfl
  · rename_i hany
    split
    · exact TablesStep_frame _ _ _ rfl rfl rfl rfl
    · refine ⟨HikesStep_same _, Or.inl rfl,
        Or.inr (Or.inr (Or.inr (Or.inl ⟨_, memberID, rfl, rfl, ?_, rfl⟩))),
        fun _ => Or.inl rfl⟩
      rintro ⟨c, hc, hp⟩
      apply hany
      rw [List.any_eq_true]
      exact ⟨c, hc, decide_eq_true hp⟩

theorem CreateRSVPForGuest_step (via : Bool) (now : Nat) (s : Store) (hikeID : Int)
    (guestName : String) :
    TablesStep via s (CreateRSVPForGuest now s hikeID guestName).2 := by
  unfold CreateRSVPForGuest
  split
  · exact TablesStep_frame _ _ _ rfl rfl rfl rfl
  · rename_i hany
    split
    · exact TablesStep_frame _ _ _ rfl rfl rfl rfl
    · refine ⟨HikesStep_same _, Or.inl rfl,
        Or.inr (Or.inr (Or.inr (Or.inr ⟨_, guestName, rfl, rfl, ?_, rfl⟩))),
        fun _ => Or.inl rfl⟩
      rintro ⟨c, hc, hp⟩
      apply hany
      rw [List.any_eq_true]
      exact ⟨c, hc, decide_eq_true hp⟩

theorem DeleteRSVP_step (via : Bool) (s : Store) (id : Int) :
    TablesStep via s (DeleteRSVP s id).2 :=
  ⟨HikesStep_same _, Or.inl rfl, Or.inr (Or.inl ⟨_, rfl⟩), fun _ => Or.inr (Or.inl ⟨_, rfl⟩)⟩

theorem CheckInRSVP_step (via : Bool) (now : Nat) (s : Store) (rsvpID : Int) :
    TablesStep via s (CheckInRSVP now s rsvpID).2 := by
  unfold CheckInRSVP
  split
  · exact TablesStep_frame _ _ _ rfl rfl rfl rfl
  · split
    · exact execInsertOrIgnoreCheckin_step _ _ _ _ _
    · refine ⟨HikesStep_same _, Or.inl rfl, Or.inr (Or.inr (Or.inl ⟨_, rfl, fun x => ?_⟩)),
        fun _ => Or.inl rfl⟩
      split <;> exact ⟨rfl, rfl, rfl⟩

theorem UndoRSVPCheckin_step (via : Bool) (s : Store) (rsvpID : Int) :
    TablesStep via s (UndoRSVPCheckin s rsvpID).2 := by
  unfold UndoRSVPCheckin
  split
  · exact TablesStep_frame _ _ _ rfl rfl rfl rfl
  · split
    · exact DeleteCheckin_step _ _ _ _
    · refine ⟨HikesStep_same _, Or.inl rfl, Or.inr (Or.inr (Or.inl ⟨_, rfl, fun x => ?_⟩)),
        fun _ => Or.inl rfl⟩
      split <;> exact ⟨rfl, rfl, rfl⟩

theorem CreateActivity_step (via : Bool) (now : Nat) (s : Store) (hikeID : Int)
    (name : String) : TablesStep via s (CreateActivity now s hikeID name).2 := by
  unfold CreateActivity
  split <;> exact TablesStep_frame _ _ _ rfl rfl rfl rfl

theorem DeleteActivity_step (via : Bool) (s : Store) (id : Int) :
    TablesStep via s (DeleteActivity s id).2 :=
  ⟨HikesStep_same _, Or.inl rfl, Or.inl rfl, fun _ => Or.inr (Or.inl ⟨_, rfl⟩)⟩

theorem AddActivityParticipant_step (via : Bool) (now : Nat) (s : Store) (activityID : Int)
    (checkinID rsvpID : Option Int)
    (hlink : via = true → (checkinID ≠ none ∨ rsvpID ≠ none)) :
    TablesStep via s (AddActivityParticipant now s activityID checkinID rsvpID).2 := by
  unfold AddActivityParticipant
  split
  · exact TablesStep_frame _ _ _ rfl rfl rfl rfl
  · split
    · exact TablesStep_frame _ _ _ rfl rfl rfl rfl
    · exact ⟨HikesStep_same _, Or.inl rfl, Or.inl rfl,
        fun hv => Or.inr (Or.inr ⟨_, hlink hv, rfl⟩)⟩

theorem RemoveActivityParticipant_step (via : Bool) (s : Store) (activityID : Int)
    (checkinID rsvpID : Option Int) :
    TablesStep via s (RemoveActivityParticipant s activityID checkinID rsvpID).2 := by
  unfold RemoveActivityParticipant
  split
  · exact ⟨HikesStep_same _, Or.inl rfl, Or.inl rfl, fun _ => Or.inr (Or.inl ⟨_, rfl⟩)⟩
  · split
    · exact ⟨HikesStep_same _, Or.inl rfl, Or.inl rfl, fun _ => Or.inr (Or.inl ⟨_, rfl⟩)⟩
    · exact TablesStep_frame _ _ _ rfl rfl rfl rfl

theorem CreateCheckin_store (now : Nat) (s : Store) (hikeID : Int) (num : String) :
    (CreateCheckin now s hikeID num).2 = s ∨
    ∃ memberID, (CreateCheckin now s hikeID num).2 =
      (execInsertOrIgnoreCheckin now s hikeID memberID).2 := by
  unfold CreateCheckin
  split
  · exact Or.inl rfl
  · rename_i member _
    right
    refine ⟨member.ID, ?_⟩
    rcases hc : execInsertOrIgnoreCheckin now s hikeID member.ID with ⟨res, s1⟩
    cases res with
    | error e => rfl
    | ok u =>
      simp only
      split
      · split <;> rfl
      · split <;> rfl

theorem CreateCheckin_step (via : Bool) (now : Nat) (s : Store) (hikeID : Int)
    (num : String) : TablesStep via s (CreateCheckin now s hikeID num).2 := by
  rcases CreateCheckin_store now s hikeID num with h | ⟨m, h⟩
  · rw [h]
    exact TablesStep_frame _ _ _ rfl rfl rfl rfl
  · rw [h]
    exact execInsertOrIgnoreCheckin_step _ _ _ _ _

theorem submitRSVP_store (lower : Char → Char) (now : Nat) (s : Store)
    (body : Option RSVPRequest) (hikeID : Int) :
    (submitRSVP lower now s body hikeID).2 = s ∨
    (∃ memberID, (submitRSVP lower now s body hikeID).2 =
      (CreateRSVPForMember now s hikeID memberID).2) ∨
    (∃ guestName, (submitRSVP lower now s body hikeID).2 =
      (CreateRSVPForGuest now s hikeID guestName).2) := by
  unfold submitRSVP
  split
  · exact Or.inl rfl
  · split
    · exact Or.inl rfl
    · split
      · exact Or.inl rfl
      · split
        · exact Or.inl rfl
        · rename_i req _
          rcases FuzzyMatchMember lower s req.FirstName req.LastName with ⟨member, score⟩
          simp only
          split
          · rename_i m _
            right; left
            refine ⟨m.ID, ?_⟩
            rcases hc : CreateRSVPForMember now s hikeID m.ID with ⟨res, s1⟩
            cases res <;> simp [hc]
          · right; right
            refine ⟨TrimSpace req.FirstName ++ " " ++ TrimSpace req.LastName, ?_⟩
            rcases hc : CreateRSVPForGuest now s hikeID
              (TrimSpace req.FirstName ++ " " ++ TrimSpace req.LastName) with ⟨res, s1⟩
            cases res <;> simp [hc]

theorem submitRSVP_step (via : Bool) (lower : Char → Char) (now : Nat) (s : Store)
    (body : Option RSVPRequest) (hikeID : Int) :
    TablesStep via s (submitRSVP lower now s body hikeID).2 := by
  rcases submitRSVP_store lower now s body hikeID with h | ⟨m, h⟩ | ⟨g, h⟩
  · rw [h]
    exact TablesStep_frame _ _ _ rfl rfl rfl rfl
  · rw [h]
    exact CreateRSVPForMember_step _ _ _ _ _
  · rw [h]
    exact CreateRSVPForGuest_step _ _ _ _ _

theorem handleActivityParticipantsPost_step (via : Bool) (now : Nat) (s : Store)
    (activityID : Int) (body : Option ParticipantRequest) :
    TablesStep via s (handleActivityParticipantsPost now s activityID body).2 := by
  unfold handleActivityParticipantsPost
  split
  · exact TablesStep_frame _ _ _ rfl rfl rfl rfl
  · rename_i req
    split
    · exact TablesStep_frame _ _ _ rfl rfl rfl rfl
    · rename_i hguard
      have hlink : via = true → (req.CheckinID ≠ none ∨ req.RSVPID ≠ none) := by
        intro _
        by_cases hc : req.CheckinID = none
        · right
          intro hr
          exact hguard ⟨hc, hr⟩
        · exact Or.inl hc
      have hstep := AddActivityParticipant_step via now s activityID req.CheckinID req.RSVPID
        hlink
      rcases hc : AddActivityParticipant now s activityID req.CheckinID req.RSVPID with
        ⟨res, s1⟩
      rw [hc] at hstep
      cases res <;> exact hstep

theorem handleActivityParticipantsDelete_step (via : Bool) (s : Store)
    (activityID : Int) (body : Option ParticipantRequest) :
    TablesStep via s (handleActivityParticipantsDelete s activityID body).2 := by
  unfold handleActivityParticipantsDelete
  split
  · exact TablesStep_frame _ _ _ rfl rfl rfl rfl
  · rename_i req
    have hstep := RemoveActivityParticipant_step via s activityID req.CheckinID req.RSVPID
    rcases hc : RemoveActivityParticipant s activityID req.CheckinID req.RSVPID with ⟨res, s1⟩
    rw [hc] at hstep
    cases res <;> exact hstep

/-- Every operation changes the four tables only in the ways of `TablesStep`. -/
theorem Op_run_step (lower : Char → Char) (now : Nat) (s : Store) (op : Op) :
    TablesStep op.viaHandlers s (op.run lower now s) := by
  cases op with
  | CreateMember req => exact CreateMember_step _ _ _ _
  | UpdateMember id req => exact UpdateMember_step _ _ _ _ _
  | DeleteMember id => exact DeleteMember_step _ _ _ _
  | CreateHike req => exact CreateHike_step _ _ _ _
  | UpdateHike id req => exact UpdateHike_step _ _ _ _
  | CloseHike id => exact CloseHike_step _ _ _
  | CloseRSVPs id => exact CloseRSVPs_step _ _ _
  | OpenRSVPs id => exact OpenRSVPs_step _ _ _
  | CreateCheckin h n => exact CreateCheckin_step _ _ _ _ _
  | DeleteCheckin h m => exact DeleteCheckin_step _ _ _ _
  | UpdateCheckinRole id role v => exact UpdateCheckinRole_step _ _ _ _ _
  | UndoRSVPCheckin id => exact UndoRSVPCheckin_step _ _ _
  | CreateRSVPForMember h m => exact CreateRSVPForMember_step _ _ _ _ _
  | CreateRSVPForGuest h g => exact CreateRSVPForGuest_step _ _ _ _ _
  | DeleteRSVP id => exact DeleteRSVP_step _ _ _
  | CheckInRSVP id => exact CheckInRSVP_step _ _ _ _
  | CreateActivity h n => exact CreateActivity_step _ _ _ _ _
  | DeleteActivity id => exact DeleteActivity_step _ _ _
  | AddActivityParticipant a c r =>
    exact AddActivityParticipant_step _ _ _ _ _ _ (fun h => by simp [Op.viaHandlers] at h)
  | RemoveActivityParticipant a c r => exact RemoveActivityParticipant_step _ _ _ _ _
  | submitRSVP body h => exact submitRSVP_step _ _ _ _ _ _
  | handleActivityParticipantsPost a body => exact handleActivityParticipantsPost_step _ _ _ _ _
  | handleActivityParticipantsDelete a body =>
    exact handleActivityParticipantsDelete_step _ _ _ _
  | connection fk id => exact TablesStep_frame _ _ _ rfl rfl rfl rfl

/-! ## Lemmas on runs of operations -/

theorem runOps_cons (lower : Char → Char) (x : Nat × Op) (ops : List (Nat × Op)) (s : Store) :
    runOps lower (x :: ops) s = runOps lower ops (x.2.run lower x.1 s) := rfl

/-- A property that every allowed operation keeps holds after every run of allowed
operations from a store where it holds. -/
theorem runOps_invariant (lower : Char → Char) (P : Store → Prop) (allowed : Op → Prop)
    (hstep : ∀ now s op, allowed op → P s → P (op.run lower now s))
    (ops : List (Nat × Op)) (s : Store) (hs : P s) (hall : ∀ x ∈ ops, allowed x.2) :
    P (runOps lower ops s) := by
  induction ops generalizing s with
  | nil => exact hs
  | cons x ops ih =>
    rw [runOps_cons]
    exact ih _ (hstep _ _ _ (hall x (List.mem_cons_self _ _)) hs)
      (fun y hy => hall y (List.mem_cons_of_mem _ hy))

theorem RsvpsStep_exclusive (rs rs1 : List RsvpRow) (h : RsvpsStep rs rs1)
    (hinv : ∀ r ∈ rs, (r.member_id ≠ none ∧ r.guest_name = none) ∨
      (r.member_id = none ∧ r.guest_name ≠ none)) :
    ∀ r ∈ rs1, (r.member_id ≠ none ∧ r.guest_name = none) ∨
      (r.member_id = none ∧ r.guest_name ≠ none) := by
  rcases h with h | ⟨p, h⟩ | ⟨f, h, hf⟩ | ⟨row, m, hm, hg, _, h⟩ | ⟨row, g, hm, hg, _, h⟩
  · rw [h]; exact hinv
  · rw [h]
    intro r hr
    exact hinv r (List.mem_filter.1 hr).1
  · rw [h]
    intro r hr
    obtain ⟨x, hx, rfl⟩ := List.mem_map.1 hr
    obtain ⟨_, h2, h3⟩ := hf x
    rw [h2, h3]
    exact hinv x hx
  · rw [h]
    intro r hr
    rcases List.mem_append.1 hr with hr | hr
    · exact hinv r hr
    · rw [List.mem_singleton.1 hr]
      left
      exact ⟨by rw [hm]; simp, hg⟩
  · rw [h]
    intro r hr
    rcases List.mem_append.1 hr with hr | hr
    · exact hinv r hr
    · rw [List.mem_singleton.1 hr]
      right
      exact ⟨hm, by rw [hg]; simp⟩

theorem filter_filter_length_le {α : Type} (p q : α → Bool) (l : List α) :
    ((l.filter q).filter p).length ≤ (l.filter p).length :=
  ((List.filter_sublist l).filter p).length_le

theorem filter_map_length_of_pres {α : Type} (p : α → Bool) (f : α → α) (l : List α)
    (hf : ∀ x, p (f x) = p x) : ((l.map f).filter p).length = (l.filter p).length := by
  rw [List.filter_map, List.length_map]
  have : p ∘ f = p := funext hf
  rw [this]

theorem filter_append_fresh_length {α : Type} (p : α → Bool) (l : List α) (row : α)
    (hle : (l.filter p).length ≤ 1) (hfresh : p row = true → ∀ x ∈ l, p x = false) :
    ((l ++ [row]).filter p).length ≤ 1 := by
  rw [List.filter_append, List.length_append]
  by_cases hrow : p row = true
  · have hnil : l.filter p = [] := by
      rw [List.filter_eq_nil_iff]
      intro x hx
      simp [hfresh hrow x hx]
    simp [hnil, hrow]
  · simp [hrow]
    exact hle

theorem CheckinsStep_unique (cs cs1 : List CheckinRow) (h : CheckinsStep cs cs1)
    (hinv : ∀ hikeID memberID, (cs.filter
      (fun c => decide (c.hike_id = hikeID ∧ c.member_id = memberID))).length ≤ 1) :
    ∀ hikeID memberID, (cs1.filter
      (fun c => decide (c.hike_id = hikeID ∧ c.member_id = memberID))).length ≤ 1 := by
  intro hikeID memberID
  rcases h with h | ⟨p, h⟩ | ⟨f, h, hf⟩ | ⟨row, hno, h⟩
  · rw [h]; exact hinv _ _
  · rw [h]
    exact le_trans (filter_filter_length_le _ _ _) (hinv _ _)
  · rw [h, filter_map_length_of_pres _ f cs (fun x => by simp [(hf x).1, (hf x).2])]
    exact hinv _ _
  · rw [h]
    apply filter_append_fresh_length _ _ _ (hinv _ _)
    intro hrow x hx
    simp only [decide_eq_true_eq] at hrow
    simp only [decide_eq_false_iff_not]
    intro hp
    exact hno ⟨x, hx, by rw [hp.1, hp.2, hrow.1, hrow.2]; exact ⟨rfl, rfl⟩⟩

theorem RsvpsStep_unique_member (rs rs1 : List RsvpRow) (h : RsvpsStep rs rs1)
    (hinv : ∀ hikeID memberID, (rs.filter
      (fun r => decide (r.hike_id = hikeID ∧ r.member_id = some memberID))).length ≤ 1) :
    ∀ hikeID memberID, (rs1.filter
      (fun r => decide (r.hike_id = hikeID ∧ r.member_id = some memberID))).length ≤ 1 := by
  intro hikeID memberID
  rcases h with h | ⟨p, h⟩ | ⟨f, h, hf⟩ | ⟨row, m, hm, hg, hno, h⟩ | ⟨row, g, hm, hg, hno, h⟩
  · rw [h]; exact hinv _ _
  · rw [h]
    exact le_trans (filter_filter_length_le _ _ _) (hinv _ _)
  · rw [h, filter_map_length_of_pres _ f rs (fun x => by simp [(hf x).1, (hf x).2.1])]
    exact hinv _ _
  · rw [h]
    apply filter_append_fresh_length _ _ _ (hinv _ _)
    intro hrow x hx
    simp only [decide_eq_true_eq] at hrow
    simp only [decide_eq_false_iff_not]
    intro hp
    apply hno
    refine ⟨x, hx, by rw [hp.1, hrow.1], ?_⟩
    rw [hp.2]
    rw [hm] at hrow
    exact hrow.2.symm
  · rw [h]
    apply filter_append_fresh_length _ _ _ (hinv _ _)
    intro hrow
    simp only [decide_eq_true_eq, hm] at hrow
    exact absurd hrow.2 (by simp)

theorem RsvpsStep_unique_guest (rs rs1 : List RsvpRow) (h : RsvpsStep rs rs1)
    (hinv : ∀ hikeID guestName, (rs.filter
      (fun r => decide (r.hike_id = hikeID ∧ r.guest_name = some guestName))).length ≤ 1) :
    ∀ hikeID guestName, (rs1.filter
      (fun r => decide (r.hike_id = hikeID ∧ r.guest_name = some guestName))).length ≤ 1 := by
  intro hikeID guestName
  rcases h with h | ⟨p, h⟩ | ⟨f, h, hf⟩ | ⟨row, m, hm, hg, hno, h⟩ | ⟨row, g, hm, hg, hno, h⟩
  · rw [h]; exact hinv _ _
  · rw [h]
    exact le_trans (filter_filter_length_le _ _ _) (hinv _ _)
  · rw [h, filter_map_length_of_pres _ f rs (fun x => by simp [(hf x).1, (hf x).2.2])]
    exact hinv _ _
  · rw [h]
    apply filter_append_fresh_length _ _ _ (hinv _ _)
    intro hrow
    simp only [decide_eq_true_eq, hg] at hrow
    exact absurd hrow.2 (by simp)
  · rw [h]
    apply filter_append_fresh_length _ _ _ (hinv _ _)
    intro hrow x hx
    simp only [decide_eq_true_eq] at hrow
    simp only [decide_eq_false_iff_not]
    intro hp
    apply hno
    refine ⟨x, hx, by rw [hp.1, hrow.1], ?_⟩
    rw [hp.2]
    rw [hg] at hrow
    exact hrow.2.symm

theorem ParticipantsStep_linked (ps ps1 : List ParticipantRow) (h : ParticipantsStep ps ps1)
    (hinv : ∀ p ∈ ps, p.checkin_id ≠ none ∨ p.rsvp_id ≠ none) :
    ∀ p ∈ ps1, p.checkin_id ≠ none ∨ p.rsvp_id ≠ none := by
  rcases h with h | ⟨q, h⟩ | ⟨row, hrow, h⟩
  · rw [h]; exact hinv
  · rw [h]
    intro p hp
    exact hinv p (List.mem_filter.1 hp).1
  · rw [h]
    intro p hp
    rcases List.mem_append.1 hp with hp | hp
    · exact hinv p hp
    · rw [List.mem_singleton.1 hp]
      exact hrow

theorem HikesStep_closed (hs hs1 : List HikeRow) (hstep : HikesStep hs hs1) (i : Nat)
    (id : Int)
    (hget : ∃ h, hs[i]? = some h ∧ h.id = id ∧ h.status = "closed") :
    ∃ h1, hs1[i]? = some h1 ∧ h1.id = id ∧ h1.status = "closed" := by
  obtain ⟨f, extra, rfl, hf⟩ := hstep
  obtain ⟨h, hget, hid, hclosed⟩ := hget
  have hi : i < hs.length := by
    rcases Nat.lt_or_ge i hs.length with hlt | hge
    · exact hlt
    · rw [List.getElem?_eq_none hge] at hget
      simp at hget
  refine ⟨f h, ?_, ?_, ?_⟩
  · rw [List.getElem?_append_left (by simpa using hi), List.getElem?_map, hget]
    rfl
  · rw [(hf h).1, hid]
  · rcases (hf h).2 with h2 | h2
    · rw [h2, hclosed]
    · exact h2

/-! ## Theorems on the invariants of the store -/

/-- C12: in every store reached from the empty store by a run of operations (the
RSVP operations `CreateRSVPForMember`, `CreateRSVPForGuest`, `submitRSVP`,
`CheckInRSVP`, `UndoRSVPCheckin`, `DeleteRSVP` and every other operation of the
store), every `rsvps` row has exactly one of `member_id` and `guest_name` set:
never both, never neither. -/
theorem rsvps_exclusive (lower : Char → Char) (ops : List (Nat × Op)) :
    ∀ r ∈ (runOps lower ops Store.empty).rsvps,
      (r.member_id ≠ none ∧ r.guest_name = none) ∨
        (r.member_id = none ∧ r.guest_name ≠ none) := by
  refine runOps_invariant lower
    (fun s => ∀ r ∈ s.rsvps, (r.member_id ≠ none ∧ r.guest_name = none) ∨
      (r.member_id = none ∧ r.guest_name ≠ none))
    (fun _ => True) ?_ ops Store.empty ?_ (fun _ _ => trivial)
  · intro now s op _ hinv
    exact RsvpsStep_exclusive _ _ (Op_run_step lower now s op).2.2.1 hinv
  · intro r hr
    simp [Store.empty] at hr

/-- Witness of C12: the run `opsBothLinks` holds Jane's RSVP, with a member and no
guest name. -/
theorem rsvps_exclusive_witness :
    janeRsvp ∈ (runOps Char.toLower opsBothLinks Store.empty).rsvps ∧
    ((janeRsvp.member_id ≠ none ∧ janeRsvp.guest_name = none) ∨
      (janeRsvp.member_id = none ∧ janeRsvp.guest_name ≠ none)) :=
  ⟨by decide, rsvps_exclusive Char.toLower opsBothLinks janeRsvp (by decide)⟩

/-- C13, amended: in every store reached from the empty store by a run of operations
of the HTTP layer (participants are added through the POST branch and removed
through the DELETE branch of `handleActivityParticipants`), every
`activity_participants` row has at least one of `checkin_id` and `rsvp_id` set:
never neither. -/
theorem participants_linked (lower : Char → Char) (ops : List (Nat × Op))
    (hvia : ∀ x ∈ ops, x.2.viaHandlers = true) :
    ∀ p ∈ (runOps lower ops Store.empty).activity_participants,
      p.checkin_id ≠ none ∨ p.rsvp_id ≠ none := by
  refine runOps_invariant lower
    (fun s => ∀ p ∈ s.activity_participants, p.checkin_id ≠ none ∨ p.rsvp_id ≠ none)
    (fun op => op.viaHandlers = true) ?_ ops Store.empty ?_ hvia
  · intro now s op hop hinv
    exact ParticipantsStep_linked _ _ ((Op_run_step lower now s op).2.2.2 hop) hinv
  · intro p hp
    simp [Store.empty] at hp

/-- Witness of C13 (amended): the run `opsBothLinks` goes through the handlers and
ends with a participant row, which has a link set. -/
theorem participants_linked_witness :
    (∀ x ∈ opsBothLinks, x.2.viaHandlers = true) ∧
    (runOps Char.toLower opsBothLinks Store.empty).activity_participants ≠ [] ∧
    ∀ p ∈ (runOps Char.toLower opsBothLinks Store.empty).activity_participants,
      p.checkin_id ≠ none ∨ p.rsvp_id ≠ none :=
  ⟨by decide, by decide, participants_linked Char.toLower opsBothLinks (by decide)⟩

/-- C13, counterexample: the run `opsBothLinks` uses the POST branch of
`handleActivityParticipants` with the body `{checkin_id: 1, rsvp_id: 1}`. The
handler refuses only a body with neither id, so the insert goes through and the
store holds a participant row with both `checkin_id` and `rsvp_id` set. -/
theorem participants_both_links :
    (∀ x ∈ opsBothLinks, x.2.viaHandlers = true) ∧
    runOps Char.toLower opsBothLinks Store.empty = storeBothLinks ∧
    storeBothLinks.activity_participants =
      [{ id := 1, activity_id := 1, checkin_id := some 1, rsvp_id := some 1, created_at := 6 }] ∧
    ∃ p ∈ (runOps Char.toLower opsBothLinks Store.empty).activity_participants,
      p.checkin_id ≠ none ∧ p.rsvp_id ≠ none := by
  decide

/-- C14: in every store reached from the empty store by a run of operations there is
at most one `checkins` row per (hike, member), at most one `rsvps` row per
(hike, member) and at most one `rsvps` row per (hike, guest name). Guest names are
compared as exact strings: the run `opsTwoGuests` registers "Jane Doe", then
"jane doe", then "Jane Doe" again on hike 1 and ends with the two rows
"Jane Doe" and "jane doe". -/
theorem unique_rows (lower : Char → Char) (ops : List (Nat × Op)) (hikeID memberID : Int)
    (guestName : String) :
    ((runOps lower ops Store.empty).checkins.filter
      (fun c => decide (c.hike_id = hikeID ∧ c.member_id = memberID))).length ≤ 1 ∧
    ((runOps lower ops Store.empty).rsvps.filter
      (fun r => decide (r.hike_id = hikeID ∧ r.member_id = some memberID))).length ≤ 1 ∧
    ((runOps lower ops Store.empty).rsvps.filter
      (fun r => decide (r.hike_id = hikeID ∧ r.guest_name = some guestName))).length ≤ 1 ∧
    (runOps lower opsTwoGuests Store.empty).rsvps.map (fun r => (r.hike_id, r.guest_name)) =
      [(1, some "Jane Doe"), (1, some "jane doe")] := by
  have hinv := runOps_invariant lower
    (fun s =>
      (∀ h m, (s.checkins.filter
        (fun c => decide (c.hike_id = h ∧ c.member_id = m))).length ≤ 1) ∧
      (∀ h m, (s.rsvps.filter
        (fun r => decide (r.hike_id = h ∧ r.member_id = some m))).length ≤ 1) ∧
      (∀ h g, (s.rsvps.filter
        (fun r => decide (r.hike_id = h ∧ r.guest_name = some g))).length ≤ 1))
    (fun _ => True)
    (fun now s op _ hs =>
      ⟨CheckinsStep_unique _ _ (Op_run_step lower now s op).2.1 hs.1,
        RsvpsStep_unique_member _ _ (Op_run_step lower now s op).2.2.1 hs.2.1,
        RsvpsStep_unique_guest _ _ (Op_run_step lower now s op).2.2.1 hs.2.2⟩)
    ops Store.empty (by simp [Store.empty]) (fun _ _ => trivial)
  exact ⟨hinv.1 _ _, hinv.2.1 _ _, hinv.2.2 _ _, rfl⟩

/-! ## Lemmas on `CreateHike` and `CloseHike` -/

theorem CreateHike_open (now : Nat) (s : Store) (req : CreateHikeRequest) :
    ∃ hk row, (CreateHike now s req).1 = .ok hk ∧ hk.Status = "open" ∧ hk.RSVPOpen = true ∧
      (CreateHike now s req).2.hikes = s.hikes ++ [row] ∧ row.id = hk.ID ∧
      row.status = "open" ∧ row.rsvp_open = true := by
  have hnone : s.hikes.find?
      (fun h => decide (h.id = nextRowid (s.hikes.map (·.id)) s.seq_hikes)) = none := by
    rw [List.find?_eq_none]
    intro x hx hp
    have := nextRowid_gt (s.hikes.map (·.id)) s.seq_hikes x.id (List.mem_map.2 ⟨x, hx, rfl⟩)
    simp only [decide_eq_true_eq] at hp
    omega
  simp only [CreateHike, GetHikeByID, List.find?_append, hnone, Option.none_or,
    List.find?_cons_of_pos, decide_True]
  exact ⟨_, _, rfl, rfl, rfl, rfl, rfl, rfl, rfl⟩

theorem closeMap_idem (hs : List HikeRow) (id : Int) :
    (hs.map (fun h => if h.id = id then { h with status := "closed" } else h)).map
        (fun h => if h.id = id then { h with status := "closed" } else h) =
      hs.map (fun h => if h.id = id then { h with status := "closed" } else h) := by
  rw [List.map_map]
  apply List.map_congr_left
  intro h _
  by_cases hid : h.id = id <;> simp [hid]

theorem CloseHike_twice (s : Store) (id : Int) :
    CloseHike (CloseHike s id).2 id = CloseHike s id := by
  simp only [CloseHike, closeMap_idem]

theorem CloseHike_closed (s : Store) (id : Int) :
    (∀ x ∈ (CloseHike s id).2.hikes, x.id = id → x.status = "closed") ∧
    (∀ hk, (CloseHike s id).1 = .ok hk → hk.ID = id ∧ hk.Status = "closed") ∧
    ((∃ x ∈ s.hikes, x.id = id) → ∃ hk, (CloseHike s id).1 = .ok hk) := by
  have hall : ∀ x ∈ s.hikes.map
      (fun h => if h.id = id then { h with status := "closed" } else h),
      x.id = id → x.status = "closed" := by
    intro x hx hid
    obtain ⟨y, _, rfl⟩ := List.mem_map.1 hx
    by_cases hy : y.id = id
    · simp [hy]
    · simp only [hy, if_false] at hid
  refine ⟨hall, ?_, ?_⟩
  · intro hk hok
    simp only [CloseHike, GetHikeByID] at hok
    split at hok
    · simp at hok
    · rename_i row hfind
      simp only [Except.ok.injEq] at hok
      have hmem := List.mem_of_find?_eq_some hfind
      have hp : decide (row.id = id) = true :=
        @List.find?_some _ (fun h => decide (h.id = id)) row _ hfind
      have hid : row.id = id := of_decide_eq_true hp
      rw [← hok]
      exact ⟨hid, hall row hmem hid⟩
  · rintro ⟨x, hx, hid⟩
    simp only [CloseHike, GetHikeByID]
    split
    · rename_i hfind
      rw [List.find?_eq_none] at hfind
      have := hfind _ (List.mem_map.2 ⟨x, hx, rfl⟩)
      simp [hid] at this
    · exact ⟨_, rfl⟩

/-! ## Theorems on the hike lifecycle -/

/-- C20: `CreateHike` yields a hike with status "open" and `rsvp_open = true`;
`CloseHike` leaves every row of that id with status "closed" and returns the hike
as closed, whether it was open or closed before, and calling it twice equals
calling it once; and a hike row that is closed is, after every run of operations
(`UpdateHike`, `CloseRSVPs`, `OpenRSVPs`, check-in, RSVP, activity and every other
operation), still the row at its place, with the same id and status "closed". -/
theorem hike_status_never_reopens (lower : Char → Char) (ops : List (Nat × Op)) (s : Store)
    (i : Nat) (h : HikeRow) (hget : s.hikes[i]? = some h) (hclosed : h.status = "closed") :
    (∀ now s0 req, ∃ hk row, (CreateHike now s0 req).1 = .ok hk ∧ hk.Status = "open" ∧
      hk.RSVPOpen = true ∧ (CreateHike now s0 req).2.hikes = s0.hikes ++ [row] ∧
      row.id = hk.ID ∧ row.status = "open" ∧ row.rsvp_open = true) ∧
    (∀ s0 id,
      CloseHike (CloseHike s0 id).2 id = CloseHike s0 id ∧
      (∀ x ∈ (CloseHike s0 id).2.hikes, x.id = id → x.status = "closed") ∧
      (∀ hk, (CloseHike s0 id).1 = .ok hk → hk.ID = id ∧ hk.Status = "closed") ∧
      ((∃ x ∈ s0.hikes, x.id = id) → ∃ hk, (CloseHike s0 id).1 = .ok hk)) ∧
    (∃ h1, (runOps lower ops s).hikes[i]? = some h1 ∧ h1.id = h.id ∧ h1.status = "closed") := by
  refine ⟨CreateHike_open, fun s0 id => ⟨CloseHike_twice s0 id, CloseHike_closed s0 id⟩, ?_⟩
  refine runOps_invariant lower
    (fun st => ∃ h1, st.hikes[i]? = some h1 ∧ h1.id = h.id ∧ h1.status = "closed")
    (fun _ => True) ?_ ops s ⟨h, hget, rfl, hclosed⟩ (fun _ _ => trivial)
  intro now st op _ hinv
  exact HikesStep_closed _ _ (Op_run_step lower now st op).1 i h.id hinv

/-- Witness of C20: hike 1 of `storeClosed` is closed and stays closed through the run
`opsAfterClose`, which updates it, reopens and closes its RSVPs, checks a member
in, takes and checks in a guest RSVP, adds an activity with a participant, closes
it again and creates a second hike. -/
theorem hike_status_never_reopens_witness :
    storeClosed.hikes[0]? =
      some { id := 1, name := "Summit", date := "2024-05-01", location := some "",
             notes := some "", status := "closed", rsvp_open := false, created_at := 2 } ∧
    (runOps Char.toLower opsAfterClose storeClosed).hikes.map (fun x => (x.id, x.status)) =
      [(1, "closed"), (2, "open")] ∧
    ∃ h1, (runOps Char.toLower opsAfterClose storeClosed).hikes[0]? = some h1 ∧ h1.id = 1 ∧
      h1.status = "closed" :=
  ⟨by decide, by decide,
    (hike_status_never_reopens Char.toLower opsAfterClose storeClosed 0
      { id := 1, name := "Summit", date := "2024-05-01", location := some "",
        notes := some "", status := "closed", rsvp_open := false, created_at := 2 }
      (by decide) rfl).2.2⟩

/-! ## Theorems on the two lifecycle flags -/

theorem find_hike_map (hs : List HikeRow) (f : HikeRow → HikeRow) (hf : ∀ a, (f a).id = a.id)
    (h : Int) :
    (hs.map f).find? (fun y => decide (y.id = h)) =
      (hs.find? (fun y => decide (y.id = h))).map f := by
  induction hs with
  | nil => rfl
  | cons a rest ih =>
    simp only [List.map_cons, List.find?_cons, hf a]
    by_cases ha : a.id = h
    · simp [ha]
    · simp [ha, ih]

theorem IsRSVPOpen_map (s : Store) (f : HikeRow → HikeRow) (hf : ∀ a, (f a).id = a.id)
    (h : Int) (x : HikeRow) (hx : s.hikes.find? (fun y => decide (y.id = h)) = some x) :
    IsRSVPOpen { s with hikes := s.hikes.map f } h = .ok (f x).rsvp_open := by
  simp only [IsRSVPOpen, find_hike_map s.hikes f hf h, hx, Option.map_some']

theorem setRsvpOpen_store (s : Store) (h : Int) (flag : Bool) :
    (if flag then OpenRSVPs s h else CloseRSVPs s h) =
      (.ok (), { s with hikes := (s.hikes.map
        (fun a => if a.id = h then { a with rsvp_open := flag } else a)) }) := by
  cases flag <;> rfl

theorem UpdateHike_store (s : Store) (id : Int) (req : UpdateHikeRequest) :
    ∃ f : HikeRow → HikeRow,
      (∀ a, (f a).id = a.id ∧ (f a).rsvp_open = a.rsvp_open ∧ (f a).status = a.status) ∧
      (UpdateHike s id req).2 = { s with hikes := s.hikes.map f } := by
  unfold UpdateHike
  split
  · exact ⟨fun a => a, fun _ => ⟨rfl, rfl, rfl⟩, by simp⟩
  · rename_i hk _
    refine ⟨fun r => if r.id = id then
      { r with name := (mergeHikeRequest hk req).Name, date := (mergeHikeRequest hk req).Date,
               location := some (mergeHikeRequest hk req).Location,
               notes := some (mergeHikeRequest hk req).Notes } else r, ?_, rfl⟩
    intro a
    by_cases ha : a.id = id <;> simp [ha]

theorem CloseHike_store (s : Store) (id : Int) :
    (CloseHike s id).2 = { s with hikes := (s.hikes.map
      (fun a => if a.id = id then { a with status := "closed" } else a)) } := rfl

/-- C21: for a hike `h` with row `x`, `CloseRSVPs h` (`flag = false`) and
`OpenRSVPs h` (`flag = true`) succeed whatever the status of the hike is, set
`rsvp_open` of the rows with id `h` to `flag`, keep every other field of every
`hikes` row (the status among them) and every other table, and `IsRSVPOpen h`
then reports `flag`; `CloseHike` and `UpdateHike` of any hike keep the `rsvp_open`
of every `hikes` row; and `IsRSVPOpen h` reports the stored `rsvp_open` of `h`,
before and after a `CloseHike` or `UpdateHike`. -/
theorem rsvp_open_independent_of_status (s : Store) (h id : Int) (req : UpdateHikeRequest)
    (x : HikeRow) (hx : s.hikes.find? (fun y => decide (y.id = h)) = some x) :
    (∀ flag : Bool,
      (if flag then OpenRSVPs s h else CloseRSVPs s h).1 = .ok () ∧
      List.Forall₂
        (fun a b => b.id = a.id ∧ b.name = a.name ∧ b.date = a.date ∧
          b.location = a.location ∧ b.notes = a.notes ∧ b.status = a.status ∧
          b.created_at = a.created_at ∧
          b.rsvp_open = (if a.id = h then flag else a.rsvp_open))
        s.hikes (if flag then OpenRSVPs s h else CloseRSVPs s h).2.hikes ∧
      { (if flag then OpenRSVPs s h else CloseRSVPs s h).2 with hikes := s.hikes } = s ∧
      IsRSVPOpen (if flag then OpenRSVPs s h else CloseRSVPs s h).2 h = .ok flag) ∧
    (CloseHike s id).2.hikes.map (fun a => (a.id, a.rsvp_open)) =
      s.hikes.map (fun a => (a.id, a.rsvp_open)) ∧
    (UpdateHike s id req).2.hikes.map (fun a => (a.id, a.rsvp_open)) =
      s.hikes.map (fun a => (a.id, a.rsvp_open)) ∧
    IsRSVPOpen s h = .ok x.rsvp_open ∧
    IsRSVPOpen (CloseHike s id).2 h = .ok x.rsvp_open ∧
    IsRSVPOpen (UpdateHike s id req).2 h = .ok x.rsvp_open := by
  have hxid : x.id = h := by
    have := @List.find?_some _ (fun y => decide (y.id = h)) x s.hikes hx
    exact of_decide_eq_true this
  refine ⟨?_, ?_, ?_, ?_, ?_, ?_⟩
  · intro flag
    rw [setRsvpOpen_store]
    refine ⟨rfl, ?_, rfl, ?_⟩
    · rw [List.forall₂_map_right_iff]
      apply List.forall₂_same.2
      intro a _
      by_cases ha : a.id = h <;> simp [ha]
    · have := IsRSVPOpen_map s (fun a => if a.id = h then { a with rsvp_open := flag } else a)
        (fun a => by by_cases ha : a.id = h <;> simp [ha]) h x hx
      rw [this]
      simp [hxid]
  · rw [CloseHike_store]
    simp only [List.map_map]
    apply List.map_congr_left
    intro a _
    by_cases ha : a.id = id <;> simp [ha]
  · obtain ⟨f, hf, hs⟩ := UpdateHike_store s id req
    rw [hs]
    simp only [List.map_map]
    apply List.map_congr_left
    intro a _
    simp [(hf a).1, (hf a).2.1]
  · simp only [IsRSVPOpen, hx]
  · rw [CloseHike_store]
    have := IsRSVPOpen_map s (fun a => if a.id = id then { a with status := "closed" } else a)
        (fun a => by by_cases ha : a.id = id <;> simp [ha]) h x hx
    rw [this]
    by_cases ha : x.id = id <;> simp [ha]
  · obtain ⟨f, hf, hs⟩ := UpdateHike_store s id req
    rw [hs, IsRSVPOpen_map s f (fun a => (hf a).1) h x hx, (hf x).2.1]

theorem rsvp_open_independent_of_status_witness :
    storeClosed.hikes.find? (fun y => decide (y.id = 1)) =
        some { id := 1, name := "Summit", date := "2024-05-01", location := some "",
               notes := some "", status := "closed", rsvp_open := false, created_at := 2 } ∧
      IsRSVPOpen (OpenRSVPs storeClosed 1).2 1 = .ok true ∧
      IsRSVPOpen (CloseHike (OpenRSVPs storeClosed 1).2 1).2 1 = .ok true :=
  ⟨by decide,
    ((rsvp_open_independent_of_status storeClosed 1 1
      { Name := "", Date := "", Location := "", Notes := "" }
      { id := 1, name := "Summit", date := "2024-05-01", location := some "",
        notes := some "", status := "closed", rsvp_open := false, created_at := 2 }
      (by decide)).1 true).2.2.2,
    by decide⟩

/-! ## Theorems on `RemoveActivityParticipant` -/

/-- C25: `RemoveActivityParticipant(activity, checkinID, rsvpID)` never returns an
error and changes no table but `activity_participants`, of which it keeps the rows
in their order except the ones it deletes: with a `checkinID`, exactly the rows of
the activity with that `checkin_id`, whatever `rsvpID` is; with only an `rsvpID`,
exactly the rows of the activity with that `rsvp_id`; with neither, none. Rows of
other activities always stay. -/
theorem RemoveActivityParticipant_spec (s : Store) (activityID : Int)
    (checkinID rsvpID : Option Int) :
    (RemoveActivityParticipant s activityID checkinID rsvpID).1 = .ok () ∧
    { (RemoveActivityParticipant s activityID checkinID rsvpID).2 with
        activity_participants := s.activity_participants } = s ∧
    List.Sublist (RemoveActivityParticipant s activityID checkinID rsvpID).2.activity_participants
      s.activity_participants ∧
    (∀ c p, checkinID = some c →
      (p ∈ (RemoveActivityParticipant s activityID checkinID rsvpID).2.activity_participants ↔
        p ∈ s.activity_participants ∧ ¬ (p.activity_id = activityID ∧ p.checkin_id = some c))) ∧
    (∀ r p, checkinID = none → rsvpID = some r →
      (p ∈ (RemoveActivityParticipant s activityID checkinID rsvpID).2.activity_participants ↔
        p ∈ s.activity_participants ∧ ¬ (p.activity_id = activityID ∧ p.rsvp_id = some r))) ∧
    (checkinID = none → rsvpID = none →
      (RemoveActivityParticipant s activityID checkinID rsvpID).2 = s) ∧
    (∀ p, p ∈ s.activity_participants → p.activity_id ≠ activityID →
      p ∈ (RemoveActivityParticipant s activityID checkinID rsvpID).2.activity_participants) := by
  cases checkinID with
  | some c =>
    refine ⟨rfl, rfl, List.filter_sublist _, ?_, ?_, ?_, ?_⟩
    · intro c1 p h1
      cases h1
      simp only [RemoveActivityParticipant, List.mem_filter, Bool.not_eq_true',
        decide_eq_false_iff_not]
    · intro r p h1; cases h1
    · intro h1; cases h1
    · intro p hp hne
      simp [RemoveActivityParticipant, List.mem_filter, hp, hne]
  | none =>
    cases rsvpID with
    | some r =>
      refine ⟨rfl, rfl, List.filter_sublist _, ?_, ?_, ?_, ?_⟩
      · intro c1 p h1; cases h1
      · intro r1 p _ h2
        cases h2
        simp only [RemoveActivityParticipant, List.mem_filter, Bool.not_eq_true',
          decide_eq_false_iff_not]
      · intro _ h2; cases h2
      · intro p hp hne
        simp [RemoveActivityParticipant, List.mem_filter, hp, hne]
    | none =>
      refine ⟨rfl, rfl, List.Sublist.refl _, ?_, ?_, ?_, ?_⟩
      · intro c1 p h1; cases h1
      · intro r1 p _ h2; cases h2
      · intro _ _; rfl
      · intro p hp _; exact hp

/-! ## Theorems on the symmetry of `similarity` -/

theorem similarity_empty (a b : String) (hab : a ≠ b) (he : a = "" ∨ b = "") :
    similarity a b = 0 := by
  have he2 : len a = 0 ∨ len b = 0 := by
    rcases he with h | h
    · exact Or.inl ((len_eq_zero_iff a).2 h)
    · exact Or.inr ((len_eq_zero_iff b).2 h)
  simp [similarity, hab, he2]

/-- C28: `similarity` is symmetric: `similarity a b = similarity b a` for all
strings `a` and `b`. -/
theorem similarity_symm (a b : String) : similarity a b = similarity b a := by
  by_cases hab : a = b
  · rw [hab]
  · have hba : b ≠ a := fun h => hab h.symm
    by_cases he : a = "" ∨ b = ""
    · rw [similarity_empty a b hab he, similarity_empty b a hba he.symm]
    · have ha : a ≠ "" := fun h => he (Or.inl h)
      have hb : b ≠ "" := fun h => he (Or.inr h)
      rw [similarity_of_ne a b hab ha hb, similarity_of_ne b a hba hb ha,
        matchingPositions_eq, matchingPositions_eq, countEq_comm, Nat.max_comm]

/-! ## Theorems on check-in and the status of a hike -/

theorem any_hike_withStatus (s : Store) (h : Int) (st : String) (hikeID : Int) :
    (withStatus s h st).hikes.any (fun x => decide (x.id = hikeID)) =
      s.hikes.any (fun x => decide (x.id = hikeID)) := by
  simp only [withStatus, List.any_map]
  congr 1
  funext x
  by_cases hx : x.id = h <;> simp [hx]

theorem execInsertOrIgnoreCheckin_withStatus (now : Nat) (s : Store) (h : Int) (st : String)
    (hikeID memberID : Int) :
    execInsertOrIgnoreCheckin now (withStatus s h st) hikeID memberID =
      ((execInsertOrIgnoreCheckin now s hikeID memberID).1,
        withStatus (execInsertOrIgnoreCheckin now s hikeID memberID).2 h st) := by
  unfold execInsertOrIgnoreCheckin
  rw [any_hike_withStatus]
  show (if s.checkins.any _ = true then _ else _) = _
  by_cases h1 : s.checkins.any (fun c => decide (c.hike_id = hikeID ∧ c.member_id = memberID)) = true
  · rw [if_pos h1, if_pos h1]
    rfl
  · rw [if_neg h1, if_neg h1]
    show (if s.foreign_keys = true ∧ ¬ (s.hikes.any _ = true ∧ s.members.any _ = true)
      then _ else _) = _
    by_cases h2 : s.foreign_keys = true ∧
        ¬ (s.hikes.any (fun h => decide (h.id = hikeID)) = true ∧
          s.members.any (fun m => decide (m.id = memberID)) = true)
    · rw [if_pos h2, if_pos h2]
    · rw [if_neg h2, if_neg h2]
      rfl

theorem CreateCheckin_withStatus (now : Nat) (s : Store) (h : Int) (st : String)
    (hikeID : Int) (num : String) :
    CreateCheckin now (withStatus s h st) hikeID num =
      ((CreateCheckin now s hikeID num).1, withStatus (CreateCheckin now s hikeID num).2 h st) := by
  unfold CreateCheckin
  have hm : GetMemberByMembershipNumber (withStatus s h st) num =
      GetMemberByMembershipNumber s num := rfl
  rw [hm]
  cases hg : GetMemberByMembershipNumber s num with
  | error e => rfl
  | ok member =>
    simp only []
    rw [execInsertOrIgnoreCheckin_withStatus]
    rcases he : execInsertOrIgnoreCheckin now s hikeID member.ID with ⟨res, s1⟩
    cases res with
    | error e => rfl
    | ok u =>
      simp only []
      have hl : (withStatus s1 h st).lastInsertRowid = s1.lastInsertRowid := rfl
      have hc : (withStatus s1 h st).checkins = s1.checkins := rfl
      rw [hl, hc]
      by_cases hz : s1.lastInsertRowid = 0
      · rw [if_pos hz, if_pos hz]
        cases s1.checkins.find? (fun c => decide (c.hike_id = hikeID ∧ c.member_id = member.ID))
          <;> rfl
      · rw [if_neg hz, if_neg hz]
        cases s1.checkins.find? (fun c => decide (c.id = s1.lastInsertRowid)) <;> rfl

theorem CheckInRSVP_withStatus (now : Nat) (s : Store) (h : Int) (st : String)
    (rsvpID : Int) :
    CheckInRSVP now (withStatus s h st) rsvpID =
      ((CheckInRSVP now s rsvpID).1, withStatus (CheckInRSVP now s rsvpID).2 h st) := by
  unfold CheckInRSVP
  have hr : (withStatus s h st).rsvps = s.rsvps := rfl
  rw [hr]
  cases s.rsvps.find? (fun r => decide (r.id = rsvpID)) with
  | none => rfl
  | some r =>
    simp only []
    cases r.member_id with
    | some memberID => exact execInsertOrIgnoreCheckin_withStatus now s h st r.hike_id memberID
    | none => rfl

/-- C29: check-in does not read the status of a hike. For a store `s` and the store
`withStatus s h status`, which differs from `s` only in the status of hike `h`,
`CreateCheckin` and `CheckInRSVP` return the same result and leave the same
`checkins` and `rsvps` rows (the stores they leave differ only in that status, as
before). -/
theorem checkin_ignores_status (now : Nat) (s : Store) (h : Int) (status : String)
    (hikeID : Int) (membershipNumber : String) (rsvpID : Int) :
    (CreateCheckin now (withStatus s h status) hikeID membershipNumber).1 =
        (CreateCheckin now s hikeID membershipNumber).1 ∧
      (CreateCheckin now (withStatus s h status) hikeID membershipNumber).2 =
        withStatus (CreateCheckin now s hikeID membershipNumber).2 h status ∧
      (CreateCheckin now (withStatus s h status) hikeID membershipNumber).2.checkins =
        (CreateCheckin now s hikeID membershipNumber).2.checkins ∧
      (CreateCheckin now (withStatus s h status) hikeID membershipNumber).2.rsvps =
        (CreateCheckin now s hikeID membershipNumber).2.rsvps ∧
      (CheckInRSVP now (withStatus s h status) rsvpID).1 = (CheckInRSVP now s rsvpID).1 ∧
      (CheckInRSVP now (withStatus s h status) rsvpID).2 =
        withStatus (CheckInRSVP now s rsvpID).2 h status ∧
      (CheckInRSVP now (withStatus s h status) rsvpID).2.checkins =
        (CheckInRSVP now s rsvpID).2.checkins ∧
      (CheckInRSVP now (withStatus s h status) rsvpID).2.rsvps =
        (CheckInRSVP now s rsvpID).2.rsvps := by
  rw [CreateCheckin_withStatus, CheckInRSVP_withStatus]
  exact ⟨rfl, rfl, rfl, rfl, rfl, rfl, rfl, rfl⟩

/-! ## Theorems on check-in with an unknown membership number or RSVP -/

theorem GetMemberByMembershipNumber_none (s : Store) (num : String)
    (hnone : ∀ m ∈ s.members, m.membership_number ≠ num) :
    GetMemberByMembershipNumber s num = .error .ErrNoRows := by
  have hfind : s.members.find? (fun m => decide (m.membership_number = num)) = none := by
    rw [List.find?_eq_none]
    intro m hm
    simpa using hnone m hm
  simp only [GetMemberByMembershipNumber, hfind]

/-- C22 (counterexample): no member of `storeJaneHike` has the membership number
"" or "TC-404", and `CreateCheckin` fails with `sql.ErrNoRows` for both; yet the
handler `createCheckin` answers the request with hike 1 and number "", and the
request with hike 0 and number "TC-404", with 400, not with 404. -/
theorem createCheckin_validation_first :
    (∀ m ∈ storeJaneHike.members, m.membership_number ≠ "") ∧
    (∀ m ∈ storeJaneHike.members, m.membership_number ≠ "TC-404") ∧
    CreateCheckin 3 storeJaneHike 1 "" = (.error .ErrNoRows, storeJaneHike) ∧
    CreateCheckin 3 storeJaneHike 0 "TC-404" = (.error .ErrNoRows, storeJaneHike) ∧
    createCheckin 3 storeJaneHike (some { HikeID := 1, MembershipNumber := "" }) =
      (.error 400 "hike_id and membership_number are required", storeJaneHike) ∧
    createCheckin 3 storeJaneHike (some { HikeID := 0, MembershipNumber := "TC-404" }) =
      (.error 400 "hike_id and membership_number are required", storeJaneHike) := by
  decide

/-- C22 (amended): when no `members` row has the membership number, `CreateCheckin`
returns the not-found error `sql.ErrNoRows` and leaves the store as it was, for
every hike id; the handler `createCheckin`, given a request that passes its
validation (`hike_id` not 0, `membership_number` not empty), answers 404 "Member
not found"; given a request that fails it, the handler answers 400; and in both
cases it leaves the store as it was. -/
theorem CreateCheckin_unknown_number (now : Nat) (s : Store) (hikeID : Int) (num : String)
    (hnone : ∀ m ∈ s.members, m.membership_number ≠ num) :
    CreateCheckin now s hikeID num = (.error .ErrNoRows, s) ∧
    (hikeID ≠ 0 → num ≠ "" →
      createCheckin now s (some { HikeID := hikeID, MembershipNumber := num }) =
        (.error 404 "Member not found", s)) ∧
    (hikeID = 0 ∨ num = "" →
      createCheckin now s (some { HikeID := hikeID, MembershipNumber := num }) =
        (.error 400 "hike_id and membership_number are required", s)) := by
  have h1 : CreateCheckin now s hikeID num = (.error .ErrNoRows, s) := by
    simp only [CreateCheckin, GetMemberByMembershipNumber_none s num hnone]
  refine ⟨h1, ?_, ?_⟩
  · intro hh hn
    have hv : ¬ (hikeID = 0 ∨ num = "") := fun h => h.elim hh hn
    have hc : Contains DbError.ErrNoRows.Error "no rows" = true := by decide
    simp only [createCheckin, if_neg hv, h1, hc, if_true]
  · intro hv
    simp only [createCheckin, if_pos hv]

theorem CreateCheckin_unknown_number_witness :
    (∀ m ∈ storeJaneHike.members, m.membership_number ≠ "TC-404") ∧
    CreateCheckin 3 storeJaneHike 1 "TC-404" = (.error .ErrNoRows, storeJaneHike) ∧
    createCheckin 3 storeJaneHike (some { HikeID := 1, MembershipNumber := "TC-404" }) =
      (.error 404 "Member not found", storeJaneHike) :=
  ⟨by decide,
    (CreateCheckin_unknown_number 3 storeJaneHike 1 "TC-404" (by decide)).1,
    (CreateCheckin_unknown_number 3 storeJaneHike 1 "TC-404" (by decide)).2.1
      (by decide) (by decide)⟩

/-- C23: when no `rsvps` row has the id, `CheckInRSVP` and `UndoRSVPCheckin` return
`sql.ErrNoRows` and leave the store as it was, and the handlers `HandleRSVPCheckin`
and `HandleRSVPUndoCheckin` answer the POST with status 500 and the text of that
error, not with 404. -/
theorem HandleRSVPCheckin_unknown_rsvp (now : Nat) (s : Store) (rsvpID : Int)
    (hnone : ∀ r ∈ s.rsvps, r.id ≠ rsvpID) :
    CheckInRSVP now s rsvpID = (.error .ErrNoRows, s) ∧
    UndoRSVPCheckin s rsvpID = (.error .ErrNoRows, s) ∧
    HandleRSVPCheckin now s "POST" rsvpID = (.error 500 "sql: no rows in result set", s) ∧
    HandleRSVPUndoCheckin s "POST" rsvpID = (.error 500 "sql: no rows in result set", s) := by
  have hfind : s.rsvps.find? (fun r => decide (r.id = rsvpID)) = none := by
    rw [List.find?_eq_none]
    intro r hr
    simpa using hnone r hr
  have h1 : CheckInRSVP now s rsvpID = (.error .ErrNoRows, s) := by
    simp only [CheckInRSVP, hfind]
  have h2 : UndoRSVPCheckin s rsvpID = (.error .ErrNoRows, s) := by
    simp only [UndoRSVPCheckin, hfind]
  have hp : ¬ ("POST" ≠ "POST") := by decide
  refine ⟨h1, h2, ?_, ?_⟩
  · simp only [HandleRSVPCheckin, if_neg hp, h1]
    rfl
  · simp only [HandleRSVPUndoCheckin, if_neg hp, h2]
    rfl

theorem HandleRSVPCheckin_unknown_rsvp_witness :
    (∀ r ∈ storeJaneHike.rsvps, r.id ≠ 7) ∧
    HandleRSVPCheckin 5 storeJaneHike "POST" 7 =
      (.error 500 "sql: no rows in result set", storeJaneHike) ∧
    HandleRSVPUndoCheckin storeJaneHike "POST" 7 =
      (.error 500 "sql: no rows in result set", storeJaneHike) :=
  ⟨by decide,
    (HandleRSVPCheckin_unknown_rsvp 5 storeJaneHike 7 (by decide)).2.2.1,
    (HandleRSVPCheckin_unknown_rsvp 5 storeJaneHike 7 (by decide)).2.2.2⟩

/-! ## Theorems on the deactivation of members -/

theorem MembersStep_same (ms : List MemberRow) : MembersStep ms ms :=
  ⟨id, [], by simp, fun _ => rfl⟩

theorem MembersStep_of_eq (ms ms1 : List MemberRow) (h : ms1 = ms) : MembersStep ms ms1 := by
  rw [h]
  exact MembersStep_same ms

theorem MembersStep_trans (a b c : List MemberRow) (h1 : MembersStep a b)
    (h2 : MembersStep b c) : MembersStep a c := by
  obtain ⟨f, e1, hb, hf⟩ := h1
  obtain ⟨g, e2, hc, hg⟩ := h2
  refine ⟨g ∘ f, e1.map g ++ e2, ?_, fun m => ?_⟩
  · rw [hc, hb, List.map_append, List.map_map, List.append_assoc]
  · show (g (f m)).id = m.id
    rw [hg, hf]

theorem CreateMember_members (now : Nat) (s : Store) (req : CreateMemberRequest) :
    MembersStep s.members (CreateMember now s req).2.members := by
  unfold CreateMember
  split
  · exact MembersStep_same _
  · exact ⟨id, _, by simp; rfl, fun _ => rfl⟩

theorem UpdateMember_members (now : Nat) (s : Store) (id : Int) (req : UpdateMemberRequest) :
    MembersStep s.members (UpdateMember now s id req).2.members := by
  unfold UpdateMember
  split
  · exact MembersStep_same _
  · split
    · exact MembersStep_same _
    · refine ⟨_, [], by simp only [updateMemberRows, List.append_nil]; rfl, fun m => ?_⟩
      by_cases hm : m.id = id <;> simp [hm]

theorem DeleteMember_members (now : Nat) (s : Store) (id : Int) :
    MembersStep s.members (DeleteMember now s id).2.members := by
  refine ⟨_, [], by simp only [DeleteMember, List.append_nil]; rfl, fun m => ?_⟩
  by_cases hm : m.id = id <;> simp [hm]

theorem execInsertOrIgnoreCheckin_members (now : Nat) (s : Store) (hikeID memberID : Int) :
    (execInsertOrIgnoreCheckin now s hikeID memberID).2.members = s.members := by
  unfold execInsertOrIgnoreCheckin
  split
  · rfl
  · split <;> rfl

theorem CreateRSVPForMember_members (now : Nat) (s : Store) (hikeID memberID : Int) :
    (CreateRSVPForMember now s hikeID memberID).2.members = s.members := by
  unfold CreateRSVPForMember
  split
  · rfl
  · split <;> rfl

theorem CreateRSVPForGuest_members (now : Nat) (s : Store) (hikeID : Int) (g : String) :
    (CreateRSVPForGuest now s hikeID g).2.members = s.members := by
  unfold CreateRSVPForGuest
  split
  · rfl
  · split <;> rfl

theorem AddActivityParticipant_members (now : Nat) (s : Store) (a : Int) (c r : Option Int) :
    (AddActivityParticipant now s a c r).2.members = s.members := by
  unfold AddActivityParticipant
  split
  · rfl
  · split <;> rfl

theorem RemoveActivityParticipant_members (s : Store) (a : Int) (c r : Option Int) :
    (RemoveActivityParticipant s a c r).2.members = s.members := by
  unfold RemoveActivityParticipant
  split
  · rfl
  · split <;> rfl

/-- Every operation keeps every row of `members`, with its id. -/
theorem Op_run_members (lower : Char → Char) (now : Nat) (s : Store) (op : Op) :
    MembersStep s.members (op.run lower now s).members := by
  cases op with
  | CreateMember req => exact CreateMember_members _ _ _
  | UpdateMember id req => exact UpdateMember_members _ _ _ _
  | DeleteMember id => exact DeleteMember_members _ _ _
  | CreateHike req => exact MembersStep_of_eq _ _ rfl
  | UpdateHike id req =>
    apply MembersStep_of_eq
    show (UpdateHike s id req).2.members = s.members
    unfold UpdateHike
    split <;> rfl
  | CloseHike id => exact MembersStep_of_eq _ _ rfl
  | CloseRSVPs id => exact MembersStep_of_eq _ _ rfl
  | OpenRSVPs id => exact MembersStep_of_eq _ _ rfl
  | CreateCheckin h n =>
    apply MembersStep_of_eq
    show (CreateCheckin now s h n).2.members = s.members
    rcases CreateCheckin_store now s h n with h1 | ⟨m, h1⟩
    · rw [h1]
    · rw [h1, execInsertOrIgnoreCheckin_members]
  | DeleteCheckin h m => exact MembersStep_of_eq _ _ rfl
  | UpdateCheckinRole id role v =>
    apply MembersStep_of_eq
    show (UpdateCheckinRole s id role v).2.members = s.members
    unfold UpdateCheckinRole
    split
    · rfl
    · split <;> rfl
  | UndoRSVPCheckin id =>
    apply MembersStep_of_eq
    show (UndoRSVPCheckin s id).2.members = s.members
    unfold UndoRSVPCheckin
    split
    · rfl
    · split <;> rfl
  | CreateRSVPForMember h m =>
    exact MembersStep_of_eq _ _ (CreateRSVPForMember_members _ _ _ _)
  | CreateRSVPForGuest h g =>
    exact MembersStep_of_eq _ _ (CreateRSVPForGuest_members _ _ _ _)
  | DeleteRSVP id => exact MembersStep_of_eq _ _ rfl
  | CheckInRSVP id =>
    apply MembersStep_of_eq
    show (CheckInRSVP now s id).2.members = s.members
    unfold CheckInRSVP
    split
    · rfl
    · split
      · exact execInsertOrIgnoreCheckin_members _ _ _ _
      · rfl
  | CreateActivity h n =>
    apply MembersStep_of_eq
    show (CreateActivity now s h n).2.members = s.members
    unfold CreateActivity
    split <;> rfl
  | DeleteActivity id => exact MembersStep_of_eq _ _ rfl
  | AddActivityParticipant a c r =>
    exact MembersStep_of_eq _ _ (AddActivityParticipant_members _ _ _ _ _)
  | RemoveActivityParticipant a c r =>
    exact MembersStep_of_eq _ _ (RemoveActivityParticipant_members _ _ _ _)
  | submitRSVP body h =>
    apply MembersStep_of_eq
    show (submitRSVP lower now s body h).2.members = s.members
    rcases submitRSVP_store lower now s body h with h1 | ⟨m, h1⟩ | ⟨g, h1⟩
    · rw [h1]
    · rw [h1, CreateRSVPForMember_members]
    · rw [h1, CreateRSVPForGuest_members]
  | handleActivityParticipantsPost a body =>
    apply MembersStep_of_eq
    show (handleActivityParticipantsPost now s a body).2.members = s.members
    unfold handleActivityParticipantsPost
    split
    · rfl
    · split
      · rfl
      · rename_i req _
        have h1 := AddActivityParticipant_members now s a req.CheckinID req.RSVPID
        rcases hc : AddActivityParticipant now s a req.CheckinID req.RSVPID with ⟨res, s1⟩
        rw [hc] at h1
        cases res <;> exact h1
  | handleActivityParticipantsDelete a body =>
    apply MembersStep_of_eq
    show (handleActivityParticipantsDelete s a body).2.members = s.members
    unfold handleActivityParticipantsDelete
    split
    · rfl
    · rename_i req
      have h1 := RemoveActivityParticipant_members s a req.CheckinID req.RSVPID
      rcases hc : RemoveActivityParticipant s a req.CheckinID req.RSVPID with ⟨res, s1⟩
      rw [hc] at h1
      cases res <;> exact h1
  | connection fk id => exact MembersStep_of_eq _ _ rfl

theorem runOps_members (lower : Char → Char) (ops : List (Nat × Op)) (s : Store) :
    MembersStep s.members (runOps lower ops s).members := by
  induction ops generalizing s with
  | nil => exact MembersStep_same _
  | cons x ops ih =>
    rw [runOps_cons]
    exact MembersStep_trans _ _ _ (Op_run_members lower x.1 s x.2) (ih _)

/-- C27: members are deactivated, never removed. Over every run of store
operations from any store, every `members` row stays, in its place and with its
id (rows are only updated or appended). `DeleteMember(m)` returns no error and
changes only the `members` rows with id `m`, of which it sets `active` to false
and `updated_at` to the time of the call. `FuzzyMatchMember` returns only a member
whose row has `active` true; so after `DeleteMember(m)` no query, the exact name of
`m` included, returns the member with id `m`. -/
theorem members_never_deleted (lower : Char → Char) (now : Nat) (ops : List (Nat × Op))
    (s : Store) (m : Int) (first last : String) :
    (∃ (f : MemberRow → MemberRow) (extra : List MemberRow),
      (runOps lower ops s).members = s.members.map f ++ extra ∧ ∀ x, (f x).id = x.id) ∧
    ((DeleteMember now s m).1 = .ok () ∧
      { (DeleteMember now s m).2 with members := s.members } = s ∧
      List.Forall₂
        (fun a b => b.id = a.id ∧ b.membership_number = a.membership_number ∧
          b.first_name = a.first_name ∧ b.last_name = a.last_name ∧ b.email = a.email ∧
          b.phone = a.phone ∧ b.created_at = a.created_at ∧
          b.active = (if a.id = m then false else a.active) ∧
          b.updated_at = (if a.id = m then now else a.updated_at))
        s.members (DeleteMember now s m).2.members) ∧
    (∀ x, (FuzzyMatchMember lower s first last).1 = some x →
      x.Active = true ∧ ∃ row ∈ s.members, row.active = true ∧ scanMember row = x) ∧
    (∀ x, (FuzzyMatchMember lower (DeleteMember now s m).2 first last).1 = some x →
      x.ID ≠ m) := by
  refine ⟨runOps_members lower ops s, ⟨rfl, rfl, ?_⟩, ?_, ?_⟩
  · simp only [DeleteMember]
    rw [List.forall₂_map_right_iff]
    apply List.forall₂_same.2
    intro a _
    by_cases ha : a.id = m <;> simp [ha]
  · intro x hx
    obtain ⟨row, hrow, hact, hscan⟩ := FuzzyMatchMember_some lower s first last x
      (FuzzyMatchMember lower s first last).2 (by rw [← hx])
    refine ⟨?_, row, hrow, hact, hscan⟩
    rw [← hscan]
    exact hact
  · intro x hx
    obtain ⟨row, hrow, hact, hscan⟩ := FuzzyMatchMember_some lower (DeleteMember now s m).2
      first last x (FuzzyMatchMember lower (DeleteMember now s m).2 first last).2 (by rw [← hx])
    intro hid
    simp only [DeleteMember, List.mem_map] at hrow
    obtain ⟨r0, _, hr0⟩ := hrow
    have hrid : row.id = m := by rw [← hscan] at hid; exact hid
    by_cases h0 : r0.id = m
    · rw [if_pos h0] at hr0
      rw [← hr0] at hact
      simp at hact
    · rw [if_neg h0] at hr0
      rw [← hr0] at hrid
      exact h0 hrid

theorem members_never_deleted_witness :
    (FuzzyMatchMember Char.toLower storeJane "Jane" "Smith").1 = some janeMember ∧
    janeMember.Active = true ∧
    (DeleteMember 2 storeJane 1).2.members.map (fun r => (r.id, r.active)) = [(1, false)] ∧
    (FuzzyMatchMember Char.toLower (DeleteMember 2 storeJane 1).2 "Jane" "Smith").1 = none :=
  ⟨by decide,
    ((members_never_deleted Char.toLower 2 [] storeJane 1 "Jane" "Smith").2.2.1 janeMember
      (by decide)).1,
    by decide, by decide⟩

/-! ## Theorems on `GetRSVPsForHike` -/

theorem leftJoin_of_length_le_one {α : Type} (l : List α) (p : α → Bool)
    (h : (l.filter p).length ≤ 1) : leftJoin l p = [(l.filter p).head?] := by
  unfold leftJoin
  cases hf : l.filter p with
  | nil => rfl
  | cons x xs =>
    rw [hf] at h
    cases xs with
    | nil => rfl
    | cons y ys => simp at h

theorem flatMap_singleton_eq_map {α β : Type} (l : List α) (f : α → List β) (g : α → β)
    (h : ∀ a ∈ l, f a = [g a]) : l.flatMap f = l.map g := by
  induction l with
  | nil => rfl
  | cons a rest ih =>
    rw [List.flatMap_cons, List.map_cons, h a (List.mem_cons_self _ _),
      ih (fun b hb => h b (List.mem_cons_of_mem _ hb))]
    rfl

/-- Under the primary key of `members` and the uniqueness of `checkins` per (hike,
member), the join of `GetRSVPsForHike` has one row per RSVP of the hike. -/
theorem rsvpJoins_eq (s : Store) (h : Int)
    (hpk : ∀ id, (s.members.filter (fun m => decide (m.id = id))).length ≤ 1)
    (huniq : ∀ hk m,
      (s.checkins.filter (fun c => decide (c.hike_id = hk ∧ c.member_id = m))).length ≤ 1) :
    rsvpJoins s h = (s.rsvps.filter (fun r => decide (r.hike_id = h))).map (fun r =>
      { r := r,
        m := (s.members.filter (fun m => decide (r.member_id = some m.id))).head?,
        c := (s.checkins.filter
          (fun c => decide (r.hike_id = c.hike_id ∧ r.member_id = some c.member_id))).head? }) := by
  unfold rsvpJoins
  apply flatMap_singleton_eq_map
  intro r _
  have hm : (s.members.filter (fun m => decide (r.member_id = some m.id))).length ≤ 1 := by
    cases hr : r.member_id with
    | none => simp
    | some id =>
      have : (fun m : MemberRow => decide (some id = some m.id)) =
          (fun m => decide (m.id = id)) := by
        funext m
        by_cases hx : m.id = id
        · simp [hx]
        · have hx2 : ¬ id = m.id := fun e => hx e.symm
          simp [hx, hx2]
      rw [this]
      exact hpk id
  have hc : (s.checkins.filter
      (fun c => decide (r.hike_id = c.hike_id ∧ r.member_id = some c.member_id))).length ≤ 1 := by
    cases hr : r.member_id with
    | none => simp
    | some id =>
      have : (fun c : CheckinRow => decide (r.hike_id = c.hike_id ∧ some id = some c.member_id)) =
          (fun c => decide (c.hike_id = r.hike_id ∧ c.member_id = id)) := by
        funext c
        apply decide_eq_decide.2
        constructor
        · rintro ⟨h1, h2⟩
          exact ⟨h1.symm, (Option.some.inj h2).symm⟩
        · rintro ⟨h1, h2⟩
          exact ⟨h1.symm, by rw [h2]⟩
      rw [this]
      exact huniq r.hike_id id
  rw [leftJoin_of_length_le_one _ _ hm]
  simp only [List.flatMap_cons, List.flatMap_nil, List.append_nil]
  rw [leftJoin_of_length_le_one _ _ hc]
  rfl

theorem scanRsvp_ID (j : RsvpJoin) : (scanRsvp j).ID = j.r.id := by
  unfold scanRsvp
  split <;> rfl

theorem scanRsvp_MemberID (j : RsvpJoin) : (scanRsvp j).MemberID = j.r.member_id := by
  unfold scanRsvp
  split
  · rename_i hm
    exact hm.symm
  · rename_i hm
    exact hm.symm

theorem scanRsvp_CheckedIn (j : RsvpJoin) : (scanRsvp j).CheckedIn = j.checked_in := by
  unfold scanRsvp
  split <;> rfl

theorem checked_in_eq (s : Store) (r : RsvpRow) (m : Option MemberRow) :
    RsvpJoin.checked_in
        { r := r, m := m,
          c := (s.checkins.filter
            (fun c => decide (r.hike_id = c.hike_id ∧ r.member_id = some c.member_id))).head? } =
      decide (r.checked_in_at ≠ none ∨
        ∃ c ∈ s.checkins, c.hike_id = r.hike_id ∧ r.member_id = some c.member_id) := by
  unfold RsvpJoin.checked_in
  cases hf : s.checkins.filter
      (fun c => decide (r.hike_id = c.hike_id ∧ r.member_id = some c.member_id)) with
  | nil =>
    have hno : ¬ ∃ c ∈ s.checkins, c.hike_id = r.hike_id ∧ r.member_id = some c.member_id := by
      rintro ⟨c, hc, h1, h2⟩
      have : c ∈ s.checkins.filter
          (fun c => decide (r.hike_id = c.hike_id ∧ r.member_id = some c.member_id)) := by
        rw [List.mem_filter]
        exact ⟨hc, decide_eq_true ⟨h1.symm, h2⟩⟩
      rw [hf] at this
      simp at this
    cases hat : r.checked_in_at with
    | none => simp [hno]
    | some t => simp
  | cons c cs =>
    have hc : c ∈ s.checkins.filter
        (fun c => decide (r.hike_id = c.hike_id ∧ r.member_id = some c.member_id)) := by
      rw [hf]
      exact List.mem_cons_self _ _
    rw [List.mem_filter] at hc
    have h2 := of_decide_eq_true hc.2
    have hex : ∃ c ∈ s.checkins, c.hike_id = r.hike_id ∧ r.member_id = some c.member_id :=
      ⟨c, hc.1, h2.1.symm, h2.2⟩
    simp [hex]

/-- C30: in a store where `checkins` has at most one row per (hike, member) (and
`members` at most one row per id, its primary key), `GetRSVPsForHike(h)` returns no
error and a list with exactly one entry per `rsvps` row of hike `h`: the entries,
read as (id, member id, checked-in flag), are a rearrangement of the rows of `h`,
each with the flag that is true exactly when the row's `checked_in_at` is set or
the row has a member and `checkins` holds a row for `h` and that member, whichever
operation created it. For a row without a member the flag is true exactly when
`checked_in_at` is set. -/
theorem GetRSVPsForHike_checked_in (s : Store) (h : Int)
    (hpk : ∀ id, (s.members.filter (fun m => decide (m.id = id))).length ≤ 1)
    (huniq : ∀ hk m,
      (s.checkins.filter (fun c => decide (c.hike_id = hk ∧ c.member_id = m))).length ≤ 1) :
    ∃ l, GetRSVPsForHike s h = .ok l ∧
      List.Perm (l.map (fun e => (e.ID, e.MemberID, e.CheckedIn)))
        ((s.rsvps.filter (fun r => decide (r.hike_id = h))).map (fun r =>
          (r.id, r.member_id, decide (r.checked_in_at ≠ none ∨
            ∃ c ∈ s.checkins, c.hike_id = h ∧ r.member_id = some c.member_id)))) ∧
      ∀ r ∈ s.rsvps, r.member_id = none →
        decide (r.checked_in_at ≠ none ∨
          ∃ c ∈ s.checkins, c.hike_id = h ∧ r.member_id = some c.member_id) =
        r.checked_in_at.isSome := by
  refine ⟨_, rfl, ?_, ?_⟩
  · rw [List.map_map]
    refine ((List.perm_insertionSort rsvpOrder (rsvpJoins s h)).map _).trans ?_
    rw [rsvpJoins_eq s h hpk huniq, List.map_map]
    apply List.Perm.of_eq
    apply List.map_congr_left
    intro r hr
    have hh : r.hike_id = h := by
      rw [List.mem_filter] at hr
      exact of_decide_eq_true hr.2
    simp only [Function.comp_apply, scanRsvp_ID, scanRsvp_MemberID, scanRsvp_CheckedIn]
    rw [checked_in_eq, hh]
  · intro r _ hm
    cases hat : r.checked_in_at <;> simp [hm]

theorem GetRSVPsForHike_checked_in_witness :
    GetRSVPsForHike storeJaneRsvpCheckin 1 =
      .ok [{ ID := 1, HikeID := 1, MemberID := some 1, GuestName := "", CreatedAt := 3,
             MemberName := "Jane Smith", MembershipNumber := "TC-001", CheckedIn := true }] ∧
    ∃ l, GetRSVPsForHike storeJaneRsvpCheckin 1 = .ok l ∧
      List.Perm (l.map (fun e => (e.ID, e.MemberID, e.CheckedIn)))
        ((storeJaneRsvpCheckin.rsvps.filter (fun r => decide (r.hike_id = 1))).map (fun r =>
          (r.id, r.member_id, decide (r.checked_in_at ≠ none ∨
            ∃ c ∈ storeJaneRsvpCheckin.checkins,
              c.hike_id = 1 ∧ r.member_id = some c.member_id)))) ∧
      ∀ r ∈ storeJaneRsvpCheckin.rsvps, r.member_id = none →
        decide (r.checked_in_at ≠ none ∨
          ∃ c ∈ storeJaneRsvpCheckin.checkins,
            c.hike_id = 1 ∧ r.member_id = some c.member_id) =
        r.checked_in_at.isSome :=
  ⟨by decide,
    GetRSVPsForHike_checked_in storeJaneRsvpCheckin 1
      (fun _ => le_trans (List.length_filter_le _ _) (by decide))
      (fun _ _ => le_trans (List.length_filter_le _ _) (by decide))⟩

/-! ## Theorems on the deletes and the participants -/

/-- C26 (counterexample): in `storeCheckinParticipant`, served by the connection
on which `Init` turned foreign keys on, the one participant row refers to Checkin
1 of member 1 on hike 1; `DeleteCheckin(1, 1)` and `UndoRSVPCheckin` of Jane's
member-linked RSVP 1 leave no participant row. In `storeRsvpParticipant` the one
participant row refers to RSVP 1; `DeleteRSVP(1)` leaves no participant row. On
the same rows served by a connection without foreign keys
(`storeCheckinParticipantPooled`), `DeleteActivity(1)` removes activity 1 and
leaves its participant row. -/
theorem delete_checkin_removes_participant :
    storeCheckinParticipant.foreign_keys = true ∧
    storeCheckinParticipant.activity_participants =
      [{ id := 1, activity_id := 1, checkin_id := some 1, rsvp_id := none, created_at := 6 }] ∧
    (DeleteCheckin storeCheckinParticipant 1 1).2.activity_participants = [] ∧
    (UndoRSVPCheckin storeCheckinParticipant 1).2.activity_participants = [] ∧
    storeRsvpParticipant.foreign_keys = true ∧
    storeRsvpParticipant.activity_participants =
      [{ id := 1, activity_id := 1, checkin_id := none, rsvp_id := some 1, created_at := 6 }] ∧
    (DeleteRSVP storeRsvpParticipant 1).2.activity_participants = [] ∧
    storeCheckinParticipantPooled.foreign_keys = false ∧
    (DeleteActivity storeCheckinParticipantPooled 1).2.activities = [] ∧
    (DeleteActivity storeCheckinParticipantPooled 1).2.activity_participants =
      [{ id := 1, activity_id := 1, checkin_id := some 1, rsvp_id := none, created_at := 6 }] := by
  decide

/-- C26 (amended): the three deletes treat the participant rows alike, and what
they do depends on the connection. `DeleteActivity(a)` removes the `activities`
rows with id `a`, `DeleteCheckin(hike, member)` the `checkins` rows of that pair,
`DeleteRSVP(id)` the `rsvps` rows with that id; `UndoRSVPCheckin` on an RSVP linked
to a member is that `DeleteCheckin`. On a connection that enforces foreign keys a
participant row goes with the row it refers to: a participant row stays exactly
when it is not a row of a removed activity, its `checkin_id` is not the id of a
removed Checkin, its `rsvp_id` is not the id of a removed RSVP. On a connection
that does not enforce them every participant row stays. Every other row of every
table stays in place. -/
theorem delete_cascades (s : Store) (a hikeID memberID rsvpID : Int) :
    ((DeleteActivity s a).1 = .ok () ∧
      { (DeleteActivity s a).2 with
          activities := s.activities, activity_participants := s.activity_participants } = s ∧
      (DeleteActivity s a).2.activities = s.activities.filter (fun x => !decide (x.id = a)) ∧
      List.Sublist (DeleteActivity s a).2.activity_participants s.activity_participants ∧
      (∀ p, p ∈ (DeleteActivity s a).2.activity_participants ↔
        p ∈ s.activity_participants ∧
          ¬ (s.foreign_keys = true ∧ p.activity_id = a ∧ ∃ x ∈ s.activities, x.id = a)) ∧
      (s.foreign_keys = false →
        (DeleteActivity s a).2.activity_participants = s.activity_participants)) ∧
    ((DeleteCheckin s hikeID memberID).1 = .ok () ∧
      { (DeleteCheckin s hikeID memberID).2 with
          checkins := s.checkins, activity_participants := s.activity_participants } = s ∧
      (DeleteCheckin s hikeID memberID).2.checkins =
        s.checkins.filter (fun c => !decide (c.hike_id = hikeID ∧ c.member_id = memberID)) ∧
      List.Sublist (DeleteCheckin s hikeID memberID).2.activity_participants
        s.activity_participants ∧
      (∀ p, p ∈ (DeleteCheckin s hikeID memberID).2.activity_participants ↔
        p ∈ s.activity_participants ∧
          ¬ (s.foreign_keys = true ∧
            ∃ c ∈ s.checkins, c.hike_id = hikeID ∧ c.member_id = memberID ∧
              p.checkin_id = some c.id)) ∧
      (s.foreign_keys = false →
        (DeleteCheckin s hikeID memberID).2.activity_participants =
          s.activity_participants)) ∧
    (∀ r m, s.rsvps.find? (fun x => decide (x.id = rsvpID)) = some r → r.member_id = some m →
      UndoRSVPCheckin s rsvpID = DeleteCheckin s r.hike_id m) ∧
    ((DeleteRSVP s rsvpID).1 = .ok () ∧
      { (DeleteRSVP s rsvpID).2 with
          rsvps := s.rsvps, activity_participants := s.activity_participants } = s ∧
      (DeleteRSVP s rsvpID).2.rsvps = s.rsvps.filter (fun x => !decide (x.id = rsvpID)) ∧
      List.Sublist (DeleteRSVP s rsvpID).2.activity_participants s.activity_participants ∧
      (∀ p, p ∈ (DeleteRSVP s rsvpID).2.activity_participants ↔
        p ∈ s.activity_participants ∧
          ¬ (s.foreign_keys = true ∧ p.rsvp_id = some rsvpID ∧ ∃ x ∈ s.rsvps, x.id = rsvpID)) ∧
      (s.foreign_keys = false →
        (DeleteRSVP s rsvpID).2.activity_participants = s.activity_participants)) := by
  refine ⟨⟨rfl, rfl, rfl, List.filter_sublist _, ?_, ?_⟩,
    ⟨rfl, rfl, rfl, List.filter_sublist _, ?_, ?_⟩,
    ?_, ⟨rfl, rfl, rfl, List.filter_sublist _, ?_, ?_⟩⟩
  · intro p
    simp only [DeleteActivity, List.mem_filter, List.mem_map, Bool.not_eq_true',
      Bool.and_eq_false_imp, decide_eq_false_iff_not, decide_eq_true_eq]
    constructor
    · rintro ⟨hp, hn⟩
      refine ⟨hp, ?_⟩
      rintro ⟨hfk, hpa, x, hx, hxa⟩
      exact hn hfk ⟨x, ⟨hx, hxa⟩, hxa.trans hpa.symm⟩
    · rintro ⟨hp, hn⟩
      refine ⟨hp, ?_⟩
      rintro hfk ⟨x, ⟨hx, hxa⟩, hxp⟩
      exact hn ⟨hfk, hxp.symm.trans hxa, x, hx, hxa⟩
  · intro hfk
    simp only [DeleteActivity, hfk, Bool.false_and, Bool.not_false, List.filter_true]
  · intro p
    simp only [DeleteCheckin, List.mem_filter]
    constructor
    · rintro ⟨hp, hn⟩
      refine ⟨hp, ?_⟩
      rintro ⟨hfk, c, hc, hh, hm, hpc⟩
      rw [hpc] at hn
      simp only [List.mem_map, List.mem_filter, Bool.not_eq_true', Bool.and_eq_false_imp,
        decide_eq_false_iff_not, decide_eq_true_eq] at hn
      exact hn hfk ⟨c, ⟨hc, hh, hm⟩, rfl⟩
    · rintro ⟨hp, hn⟩
      refine ⟨hp, ?_⟩
      cases hpc : p.checkin_id with
      | none => rfl
      | some cid =>
        simp only [List.mem_map, List.mem_filter, Bool.not_eq_true', Bool.and_eq_false_imp,
          decide_eq_false_iff_not, decide_eq_true_eq]
        rintro hfk ⟨c, ⟨hc, hh, hm⟩, hcid⟩
        exact hn ⟨hfk, c, hc, hh, hm, by rw [hpc, hcid]⟩
  · intro hfk
    simp only [DeleteCheckin, hfk, Bool.false_and, Bool.not_false]
    rw [List.filter_eq_self]
    intro p _
    cases p.checkin_id <;> rfl
  · intro r m hfind hm
    simp only [UndoRSVPCheckin, hfind, hm]
  · intro p
    simp only [DeleteRSVP, List.mem_filter]
    constructor
    · rintro ⟨hp, hn⟩
      refine ⟨hp, ?_⟩
      rintro ⟨hfk, hpr, x, hx, hxa⟩
      rw [hpr] at hn
      simp only [List.mem_map, List.mem_filter, Bool.not_eq_true', Bool.and_eq_false_imp,
        decide_eq_false_iff_not, decide_eq_true_eq] at hn
      exact hn hfk ⟨x, ⟨hx, hxa⟩, hxa⟩
    · rintro ⟨hp, hn⟩
      refine ⟨hp, ?_⟩
      cases hpr : p.rsvp_id with
      | none => rfl
      | some rid =>
        simp only [List.mem_map, List.mem_filter, Bool.not_eq_true', Bool.and_eq_false_imp,
          decide_eq_false_iff_not, decide_eq_true_eq]
        rintro hfk ⟨x, ⟨hx, hxa⟩, hxr⟩
        exact hn ⟨hfk, by rw [hpr, ← hxr, hxa], x, hx, hxa⟩
  · intro hfk
    simp only [DeleteRSVP, hfk, Bool.false_and, Bool.not_false]
    rw [List.filter_eq_self]
    intro p _
    cases p.rsvp_id <;> rfl

theorem delete_cascades_witness :
    storeCheckinParticipant.rsvps.find? (fun x => decide (x.id = 1)) = some janeRsvp ∧
    UndoRSVPCheckin storeCheckinParticipant 1 = DeleteCheckin storeCheckinParticipant 1 1 ∧
    (DeleteCheckin storeCheckinParticipantPooled 1 1).2.activity_participants =
      storeCheckinParticipantPooled.activity_participants :=
  ⟨by decide,
    (delete_cascades storeCheckinParticipant 1 1 1 1).2.2.1 janeRsvp 1 (by decide) rfl,
    (delete_cascades storeCheckinParticipantPooled 1 1 1 1).2.1.2.2.2.2.2 rfl⟩

/-! ## Theorems on `AddActivityParticipant` -/

/-- C24 (counterexample): `storeActivity` is served by the connection on which
`Init` turned foreign keys on; activity 1 exists and no Checkin has id 99.
`AddActivityParticipant(1, checkin 99)` returns the foreign-key error, and the same
call made a second time returns that error again. -/
theorem AddActivityParticipant_second_call_fails :
    storeActivity.foreign_keys = true ∧
    storeActivity.activities.any (fun a => decide (a.id = 1)) = true ∧
    (AddActivityParticipant 6 storeActivity 1 (some 99) none).1 =
      .error (.constraint "FOREIGN KEY constraint failed") ∧
    (AddActivityParticipant 7 (AddActivityParticipant 6 storeActivity 1 (some 99) none).2 1
      (some 99) none).1 = .error (.constraint "FOREIGN KEY constraint failed") := by
  decide

/-- A call of `AddActivityParticipant` that finds a row of the activity with one of
its ids skips the insert: no error, no row changed. -/
theorem AddActivityParticipant_skip (now : Nat) (s : Store) (activityID : Int)
    (checkinID rsvpID : Option Int)
    (h : s.activity_participants.any (fun p => decide (p.activity_id = activityID ∧
      ((checkinID ≠ none ∧ p.checkin_id = checkinID) ∨
        (rsvpID ≠ none ∧ p.rsvp_id = rsvpID)))) = true) :
    (AddActivityParticipant now s activityID checkinID rsvpID).1 = .ok () ∧
    (AddActivityParticipant now s activityID checkinID rsvpID).2 =
      { s with seq_activity_participants :=
          (nextRowid (s.activity_participants.map (·.id)) s.seq_activity_participants) } := by
  unfold AddActivityParticipant
  rw [if_pos h]
  exact ⟨rfl, rfl⟩

/-- The three outcomes of `AddActivityParticipant`: the insert is skipped, it fails
on a foreign key, or it appends one row with the ids of the call. -/
theorem AddActivityParticipant_cases (now : Nat) (s : Store) (activityID : Int)
    (checkinID rsvpID : Option Int) :
    (s.activity_participants.any (fun p => decide (p.activity_id = activityID ∧
        ((checkinID ≠ none ∧ p.checkin_id = checkinID) ∨
          (rsvpID ≠ none ∧ p.rsvp_id = rsvpID)))) = true ∧
      (AddActivityParticipant now s activityID checkinID rsvpID).1 = .ok () ∧
      (AddActivityParticipant now s activityID checkinID rsvpID).2.activity_participants =
        s.activity_participants) ∨
    (¬ s.activity_participants.any (fun p => decide (p.activity_id = activityID ∧
        ((checkinID ≠ none ∧ p.checkin_id = checkinID) ∨
          (rsvpID ≠ none ∧ p.rsvp_id = rsvpID)))) = true ∧
      s.foreign_keys = true ∧
      ¬ (s.activities.any (fun a => decide (a.id = activityID)) = true ∧
        (∀ c, checkinID = some c → s.checkins.any (fun x => decide (x.id = c)) = true) ∧
        (∀ r, rsvpID = some r → s.rsvps.any (fun x => decide (x.id = r)) = true)) ∧
      ∀ t, AddActivityParticipant t s activityID checkinID rsvpID =
        (.error (.constraint "FOREIGN KEY constraint failed"), s)) ∨
    ((s.foreign_keys = true →
        (s.activities.any (fun a => decide (a.id = activityID)) = true ∧
        (∀ c, checkinID = some c → s.checkins.any (fun x => decide (x.id = c)) = true) ∧
        (∀ r, rsvpID = some r → s.rsvps.any (fun x => decide (x.id = r)) = true))) ∧
      (AddActivityParticipant now s activityID checkinID rsvpID).1 = .ok () ∧
      ∃ row : ParticipantRow,
        (AddActivityParticipant now s activityID checkinID rsvpID).2.activity_participants =
          s.activity_participants ++ [row] ∧
        row.activity_id = activityID ∧ row.checkin_id = checkinID ∧ row.rsvp_id = rsvpID) := by
  by_cases h1 : s.activity_participants.any (fun p => decide (p.activity_id = activityID ∧
      ((checkinID ≠ none ∧ p.checkin_id = checkinID) ∨
        (rsvpID ≠ none ∧ p.rsvp_id = rsvpID)))) = true
  · left
    obtain ⟨ha, hb⟩ := AddActivityParticipant_skip now s activityID checkinID rsvpID h1
    exact ⟨h1, ha, by rw [hb]⟩
  · by_cases h2 : s.foreign_keys = true ∧
        ¬ (s.activities.any (fun a => decide (a.id = activityID)) = true ∧
          (∀ c, checkinID = some c → s.checkins.any (fun x => decide (x.id = c)) = true) ∧
          (∀ r, rsvpID = some r → s.rsvps.any (fun x => decide (x.id = r)) = true))
    · right; left
      refine ⟨h1, h2.1, h2.2, fun t => ?_⟩
      unfold AddActivityParticipant
      rw [if_neg h1, if_pos h2]
    · right; right
      refine ⟨fun hfk => by_contra fun hn => h2 ⟨hfk, hn⟩, ?_⟩
      unfold AddActivityParticipant
      rw [if_neg h1, if_neg h2]
      exact ⟨rfl, _, rfl, rfl, rfl, rfl⟩

/-- C24 (amended): take a call of `AddActivityParticipant` that supplies at least
one of `checkinID` and `rsvpID` (in particular exactly one). If it returns no
error, the same call made again returns no error and leaves the
`activity_participants` rows exactly as they were after the first call, whichever
connection serves it (`s2` is any store with the participant rows the first call
left); it changes nothing in `s2` but the `sqlite_sequence` counter of the table.
The call returns no error exactly when it finds the row already there, or the
connection does not enforce foreign keys, or the activity and the Checkin or RSVP
it names exist. When it returns an error, that is the foreign-key error, the store
is as it was, and the call fails in the same way whenever it is repeated there. -/
theorem AddActivityParticipant_idempotent (now now2 : Nat) (s s2 : Store) (activityID : Int)
    (checkinID rsvpID : Option Int) (hone : checkinID ≠ none ∨ rsvpID ≠ none) :
    ((AddActivityParticipant now s activityID checkinID rsvpID).1 = .ok () →
      s2.activity_participants =
        (AddActivityParticipant now s activityID checkinID rsvpID).2.activity_participants →
      (AddActivityParticipant now2 s2 activityID checkinID rsvpID).1 = .ok () ∧
      (AddActivityParticipant now2 s2 activityID checkinID rsvpID).2.activity_participants =
        (AddActivityParticipant now s activityID checkinID rsvpID).2.activity_participants ∧
      (AddActivityParticipant now2 s2 activityID checkinID rsvpID).2 =
        { s2 with seq_activity_participants :=
            (AddActivityParticipant now2 s2 activityID checkinID
              rsvpID).2.seq_activity_participants }) ∧
    ((AddActivityParticipant now s activityID checkinID rsvpID).1 = .ok () ↔
      (s.activity_participants.any (fun p => decide (p.activity_id = activityID ∧
          ((checkinID ≠ none ∧ p.checkin_id = checkinID) ∨
            (rsvpID ≠ none ∧ p.rsvp_id = rsvpID)))) = true ∨
        s.foreign_keys = false ∨
        (s.activities.any (fun a => decide (a.id = activityID)) = true ∧
          (∀ c, checkinID = some c → s.checkins.any (fun x => decide (x.id = c)) = true) ∧
          (∀ r, rsvpID = some r → s.rsvps.any (fun x => decide (x.id = r)) = true)))) ∧
    ((AddActivityParticipant now s activityID checkinID rsvpID).1 ≠ .ok () →
      ∀ t, AddActivityParticipant t s activityID checkinID rsvpID =
        (.error (.constraint "FOREIGN KEY constraint failed"), s)) := by
  refine ⟨?_, ?_, ?_⟩
  · intro hok hrows
    have hconf : s2.activity_participants.any (fun p => decide (p.activity_id = activityID ∧
        ((checkinID ≠ none ∧ p.checkin_id = checkinID) ∨
          (rsvpID ≠ none ∧ p.rsvp_id = rsvpID)))) = true := by
      rcases AddActivityParticipant_cases now s activityID checkinID rsvpID with
        ⟨h1, _, hr⟩ | ⟨_, _, _, he⟩ | ⟨_, _, row, hr, ha, hc, hrr⟩
      · rw [hrows, hr]
        exact h1
      · rw [he now] at hok
        cases hok
      · rw [hrows, hr, List.any_append]
        simp only [List.any_cons, List.any_nil, Bool.or_false]
        have : decide (row.activity_id = activityID ∧
            ((checkinID ≠ none ∧ row.checkin_id = checkinID) ∨
              (rsvpID ≠ none ∧ row.rsvp_id = rsvpID))) = true := by
          apply decide_eq_true
          rcases hone with h | h
          · exact ⟨ha, Or.inl ⟨h, hc⟩⟩
          · exact ⟨ha, Or.inr ⟨h, hrr⟩⟩
        rw [this, Bool.or_true]
    obtain ⟨ha, hb⟩ := AddActivityParticipant_skip now2 s2 activityID checkinID rsvpID hconf
    refine ⟨ha, ?_, ?_⟩
    · rw [hb]
      exact hrows
    · rw [hb]
  · rcases AddActivityParticipant_cases now s activityID checkinID rsvpID with
      ⟨h1, hok, _⟩ | ⟨h1, hfk, hpar, he⟩ | ⟨hfk, hok, _⟩
    · exact ⟨fun _ => Or.inl h1, fun _ => hok⟩
    · constructor
      · intro hok
        rw [he now] at hok
        cases hok
      · rintro (h | h | h)
        · exact absurd h h1
        · rw [hfk] at h
          cases h
        · exact absurd h hpar
    · refine ⟨fun _ => ?_, fun _ => hok⟩
      cases hf : s.foreign_keys with
      | false => exact Or.inr (Or.inl rfl)
      | true => exact Or.inr (Or.inr (hfk hf))
  · intro hne
    rcases AddActivityParticipant_cases now s activityID checkinID rsvpID with
      ⟨_, hok, _⟩ | ⟨_, _, _, he⟩ | ⟨_, hok, _⟩
    · exact absurd hok hne
    · exact he
    · exact absurd hok hne

theorem AddActivityParticipant_idempotent_witness :
    ((some 1 : Option Int) ≠ none ∨ (none : Option Int) ≠ none) ∧
    (AddActivityParticipant 6 storeActivity 1 (some 1) none).1 = .ok () ∧
    (AddActivityParticipant 6 storeActivity 1 (some 1) none).2.activity_participants =
      [{ id := 1, activity_id := 1, checkin_id := some 1, rsvp_id := none, created_at := 6 }] ∧
    (AddActivityParticipant 7 (AddActivityParticipant 6 storeActivity 1 (some 1) none).2 1
      (some 1) none).1 = .ok () ∧
    (AddActivityParticipant 7 (AddActivityParticipant 6 storeActivity 1 (some 1) none).2 1
      (some 1) none).2.activity_participants =
      (AddActivityParticipant 6 storeActivity 1 (some 1) none).2.activity_participants :=
  ⟨by decide, by decide, by decide,
    ((AddActivityParticipant_idempotent 6 7 storeActivity
      (AddActivityParticipant 6 storeActivity 1 (some 1) none).2 1 (some 1) none
      (by decide)).1 (by decide) rfl).1,
    ((AddActivityParticipant_idempotent 6 7 storeActivity
      (AddActivityParticipant 6 storeActivity 1 (some 1) none).2 1 (some 1) none
      (by decide)).1 (by decide) rfl).2.1⟩

end Trailcall
